import Mathlib

/-!
# DisplayPort subsystem layer pair (`xilinx_drm_dp_sub.c`)

A shallow embedding of the Xilinx DisplayPort subsystem driver: the format tables,
the memory-mapped register accesses, the layer operations (`check_size`,
`set_fmt`, `get_fmt`, `enable`, `disable`, `get`, `put`), the subsystem
operations (enable, disable, output format, background colour, alpha, vblank
slot) and `probe`.

Conventions.
* A `u32` is a `Nat`; register reads and writes reduce modulo `2 ^ 32`.
* A `struct xilinx_drm_dp_sub_layer *` always points into `dp_sub->layers[]`, so
  it is an index of type `Fin 2`.
* `const struct xilinx_drm_dp_sub_fmt *fmt` points at an immutable table entry;
  the embedding stores the entry it points at.
* The spin lock is not represented: every operation is one critical section and
  the embedding is sequential.
* Besides the register contents, the state carries `io_log`, the sequence of
  register writes issued so far (oldest first), so that "writes" and "does not
  write" are statements about the code.
-/

namespace XilinxDpSub

/-! ## Constants -/

/-- Kernel macro `BIT(n)`. -/
def BIT (n : Nat) : Nat := 1 <<< n

/-- Bitwise complement of a 32-bit word, the value of `~x` once stored in a `u32`. -/
def not32 (x : Nat) : Nat := 0xffffffff - x % 2 ^ 32

def EINVAL : Int := 22
def ENODEV : Int := 19
def ENOMEM : Int := 12
def EPROBE_DEFER : Int := 517

def XILINX_DP_SUB_V_BLEND_OUTPUT_VID_FMT : Nat := 0x14
def XILINX_DP_SUB_V_BLEND_OUTPUT_VID_FMT_RGB : Nat := 0x0
def XILINX_DP_SUB_V_BLEND_OUTPUT_VID_FMT_YCBCR444 : Nat := 0x1
def XILINX_DP_SUB_V_BLEND_OUTPUT_VID_FMT_YCBCR422 : Nat := 0x2
def XILINX_DP_SUB_V_BLEND_OUTPUT_VID_FMT_YONLY : Nat := 0x3
def XILINX_DP_SUB_V_BLEND_LAYER_CONTROL : Nat := 0x18
def XILINX_DP_SUB_V_BLEND_LAYER_CONTROL_EN : Nat := BIT 0
def XILINX_DP_SUB_V_BLEND_LAYER_CONTROL_RGB : Nat := BIT 1
def XILINX_DP_SUB_V_BLEND_LAYER_CONTROL_BYPASS : Nat := BIT 8

def XILINX_DP_SUB_AV_BUF_FORMAT : Nat := 0x0
def XILINX_DP_SUB_AV_BUF_FORMAT_NL_VID_MASK : Nat := 0x1f <<< 0
def XILINX_DP_SUB_AV_BUF_FORMAT_NL_VID_UYVY : Nat := 0 <<< 0
def XILINX_DP_SUB_AV_BUF_FORMAT_NL_VID_VYUY : Nat := 1 <<< 0
def XILINX_DP_SUB_AV_BUF_FORMAT_NL_VID_YVYU : Nat := 2 <<< 0
def XILINX_DP_SUB_AV_BUF_FORMAT_NL_VID_YUYV : Nat := 3 <<< 0
def XILINX_DP_SUB_AV_BUF_FORMAT_NL_VID_RGB888 : Nat := 10 <<< 0
def XILINX_DP_SUB_AV_BUF_FORMAT_NL_VID_RGBA8880 : Nat := 11 <<< 0
def XILINX_DP_SUB_AV_BUF_FORMAT_NL_GFX_MASK : Nat := 0xf <<< 8
def XILINX_DP_SUB_AV_BUF_FORMAT_NL_GFX_RGBA8888 : Nat := 0 <<< 8
def XILINX_DP_SUB_AV_BUF_FORMAT_NL_GFX_ABGR8888 : Nat := 1 <<< 8
def XILINX_DP_SUB_AV_BUF_FORMAT_NL_GFX_RGB888 : Nat := 2 <<< 8
def XILINX_DP_SUB_AV_BUF_FORMAT_NL_GFX_BGR888 : Nat := 3 <<< 8
def XILINX_DP_SUB_AV_BUF_FORMAT_NL_GFX_RGBA5551 : Nat := 4 <<< 8
def XILINX_DP_SUB_AV_BUF_FORMAT_NL_GFX_RGBA4444 : Nat := 5 <<< 8
def XILINX_DP_SUB_AV_BUF_FORMAT_NL_GFX_RGB565 : Nat := 6 <<< 8

def XILINX_DP_SUB_AV_BUF_OUTPUT : Nat := 0x70
def XILINX_DP_SUB_AV_BUF_OUTPUT_VID1_MASK : Nat := 0x3 <<< 0
def XILINX_DP_SUB_AV_BUF_OUTPUT_VID1_MEM : Nat := 1 <<< 0
def XILINX_DP_SUB_AV_BUF_OUTPUT_VID1_NONE : Nat := 3 <<< 0
def XILINX_DP_SUB_AV_BUF_OUTPUT_VID2_MASK : Nat := 0x3 <<< 2
def XILINX_DP_SUB_AV_BUF_OUTPUT_VID2_DISABLE : Nat := 0 <<< 2
def XILINX_DP_SUB_AV_BUF_OUTPUT_VID2_MEM : Nat := 1 <<< 2

def XILINX_DP_SUB_V_BLEND_BG_CLR_0 : Nat := 0x0
def XILINX_DP_SUB_V_BLEND_BG_CLR_1 : Nat := 0x4
def XILINX_DP_SUB_V_BLEND_BG_CLR_2 : Nat := 0x8
def XILINX_DP_SUB_V_BLEND_SET_GLOBAL_ALPHA : Nat := 0xc
def XILINX_DP_SUB_V_BLEND_SET_GLOBAL_ALPHA_MASK : Nat := 0x1fe

def XILINX_DP_SUB_AV_BUF_CHBUF : Nat := 0x10
def XILINX_DP_SUB_AV_BUF_CHBUF_EN : Nat := BIT 0
def XILINX_DP_SUB_AV_BUF_CHBUF_FLUSH : Nat := BIT 1
def XILINX_DP_SUB_AV_BUF_CHBUF_BURST_LEN_SHIFT : Nat := 2
def XILINX_DP_SUB_AV_BUF_CHBUF_BURST_LEN_MAX : Nat := 0xf
def XILINX_DP_SUB_AV_BUF_CHBUF_BURST_LEN_AUD_MAX : Nat := 0x3
def XILINX_DP_SUB_AV_BUF_OUTPUT_AUD1_MASK : Nat := 0x3 <<< 4
def XILINX_DP_SUB_AV_BUF_OUTPUT_AUD1_MEM : Nat := 1 <<< 4
def XILINX_DP_SUB_AV_BUF_OUTPUT_AUD1_DISABLE : Nat := 3 <<< 4
def XILINX_DP_SUB_AV_BUF_OUTPUT_AUD2_EN : Nat := BIT 6
def XILINX_DP_SUB_AV_BUF_CLK_SRC : Nat := 0x120
def XILINX_DP_SUB_AV_BUF_CLK_SRC_VID_FROM_PS : Nat := BIT 0
def XILINX_DP_SUB_AV_BUF_CLK_SRC_AUD_FROM_PS : Nat := BIT 1
def XILINX_DP_SUB_AV_BUF_CLK_SRC_VID_INTERNAL_TIMING : Nat := BIT 2
def XILINX_DP_SUB_AV_BUF_GFX_COMP0_SF : Nat := 0x200
def XILINX_DP_SUB_AV_BUF_GFX_COMP1_SF : Nat := 0x204
def XILINX_DP_SUB_AV_BUF_GFX_COMP2_SF : Nat := 0x208
def XILINX_DP_SUB_AV_BUF_VID_COMP0_SF : Nat := 0x20c
def XILINX_DP_SUB_AV_BUF_VID_COMP1_SF : Nat := 0x210
def XILINX_DP_SUB_AV_BUF_VID_COMP2_SF : Nat := 0x214
def XILINX_DP_SUB_AV_BUF_NUM_SF : Nat := 3
def XILINX_DP_SUB_AV_BUF_NUM_VID_GFX_BUFFERS : Nat := 4
def XILINX_DP_SUB_AV_BUF_NUM_BUFFERS : Nat := 6

def XILINX_DP_SUB_AUD_MIXER_VOLUME : Nat := 0x0
def XILINX_DP_SUB_AUD_MIXER_VOLUME_NO_SCALE : Nat := 0x20002000

def XILINX_DP_SUB_AV_BUF_4BIT_SF : Nat := 0x11111
def XILINX_DP_SUB_AV_BUF_5BIT_SF : Nat := 0x10842
def XILINX_DP_SUB_AV_BUF_6BIT_SF : Nat := 0x10410
def XILINX_DP_SUB_AV_BUF_8BIT_SF : Nat := 0x10101
def XILINX_DP_SUB_AV_BUF_NULL_SF : Nat := 0

/-- Modelled from the spec: the macro `fourcc_code` of `drm_fourcc.h` (not among the
sources), which packs four ASCII codes into the 32-bit abstract format id. -/
def fourcc_code (a b c d : Nat) : Nat := a ||| (b <<< 8) ||| (c <<< 16) ||| (d <<< 24)

/-- Modelled from the spec: abstract id `DRM_FORMAT_RGB888 = fourcc_code('R','G','2','4')`.
This and the ids below are the external pixel-format enumeration of `drm_fourcc.h`
(not among the sources), which the specification treats as opaque: the driver only
compares them for equality. -/
def DRM_FORMAT_RGB888 : Nat := fourcc_code 0x52 0x47 0x32 0x34
/-- Modelled from the spec: `DRM_FORMAT_BGR888 = fourcc_code('B','G','2','4')`. -/
def DRM_FORMAT_BGR888 : Nat := fourcc_code 0x42 0x47 0x32 0x34
/-- Modelled from the spec: `DRM_FORMAT_RGB565 = fourcc_code('R','G','1','6')`. -/
def DRM_FORMAT_RGB565 : Nat := fourcc_code 0x52 0x47 0x31 0x36
/-- Modelled from the spec: `DRM_FORMAT_XBGR8888 = fourcc_code('X','B','2','4')`. -/
def DRM_FORMAT_XBGR8888 : Nat := fourcc_code 0x58 0x42 0x32 0x34
/-- Modelled from the spec: `DRM_FORMAT_ABGR8888 = fourcc_code('A','B','2','4')`. -/
def DRM_FORMAT_ABGR8888 : Nat := fourcc_code 0x41 0x42 0x32 0x34
/-- Modelled from the spec: `DRM_FORMAT_RGBA8888 = fourcc_code('R','A','2','4')`. -/
def DRM_FORMAT_RGBA8888 : Nat := fourcc_code 0x52 0x41 0x32 0x34
/-- Modelled from the spec: `DRM_FORMAT_ABGR1555 = fourcc_code('A','B','1','5')`. -/
def DRM_FORMAT_ABGR1555 : Nat := fourcc_code 0x41 0x42 0x31 0x35
/-- Modelled from the spec: `DRM_FORMAT_ABGR4444 = fourcc_code('A','B','1','2')`. -/
def DRM_FORMAT_ABGR4444 : Nat := fourcc_code 0x41 0x42 0x31 0x32
/-- Modelled from the spec: `DRM_FORMAT_YUYV = fourcc_code('Y','U','Y','V')`. -/
def DRM_FORMAT_YUYV : Nat := fourcc_code 0x59 0x55 0x59 0x56
/-- Modelled from the spec: `DRM_FORMAT_YVYU = fourcc_code('Y','V','Y','U')`. -/
def DRM_FORMAT_YVYU : Nat := fourcc_code 0x59 0x56 0x59 0x55
/-- Modelled from the spec: `DRM_FORMAT_UYVY = fourcc_code('U','Y','V','Y')`. -/
def DRM_FORMAT_UYVY : Nat := fourcc_code 0x55 0x59 0x56 0x59
/-- Modelled from the spec: `DRM_FORMAT_VYUY = fourcc_code('V','Y','U','Y')`. -/
def DRM_FORMAT_VYUY : Nat := fourcc_code 0x56 0x59 0x55 0x59
/-- Modelled from the spec: `DRM_FORMAT_YUV422 = fourcc_code('Y','U','1','6')`. -/
def DRM_FORMAT_YUV422 : Nat := fourcc_code 0x59 0x55 0x31 0x36
/-- Modelled from the spec: `DRM_FORMAT_YUV444 = fourcc_code('Y','U','2','4')`. -/
def DRM_FORMAT_YUV444 : Nat := fourcc_code 0x59 0x55 0x32 0x34

/-! ## Data model -/

/-- The C `enum xilinx_drm_dp_sub_layer_type`. -/
inductive xilinx_drm_dp_sub_layer_type where
  | XILINX_DRM_DP_SUB_LAYER_VID
  | XILINX_DRM_DP_SUB_LAYER_GFX
  deriving DecidableEq, Repr, Fintype

open xilinx_drm_dp_sub_layer_type

/-- The C `struct xilinx_drm_dp_sub_fmt`; `sf0 sf1 sf2` are `sf[0..2]`. -/
structure xilinx_drm_dp_sub_fmt where
  drm_fmt : Nat
  dp_sub_fmt : Nat
  rgb : Bool
  sf0 : Nat
  sf1 : Nat
  sf2 : Nat
  deriving DecidableEq, Repr

/-- The C `struct xilinx_drm_dp_sub_layer`; `other` is the index of the layer the
C pointer `other` refers to. -/
structure xilinx_drm_dp_sub_layer where
  id : xilinx_drm_dp_sub_layer_type
  offset : Nat
  avail : Bool
  primary : Bool
  enabled : Bool
  fmt : xilinx_drm_dp_sub_fmt
  w : Nat
  h : Nat
  other : Fin 2
  deriving DecidableEq, Repr

/-- A mapped register window: offset to 32-bit word. -/
abbrev iomem := Nat → Nat

/-- The three register windows of the subsystem. -/
inductive reg_bank where
  | blend
  | av_buf
  | aud
  deriving DecidableEq, Repr

/-- One register write as issued by the driver. -/
structure reg_write where
  bank : reg_bank
  offset : Nat
  val : Nat
  deriving DecidableEq, Repr

/-- The C `struct xilinx_drm_dp_sub`: `blend`, `av_buf`, `aud` are the windows
behind the three `base` pointers, `layers` is `layers[XILINX_DRM_DP_SUB_NUM_LAYERS]`
(two layers), `vblank_fn`/`vblank_data` are nullable pointers; `io_log` records the
register writes issued so far. -/
structure xilinx_drm_dp_sub where
  blend : iomem
  av_buf : iomem
  aud : iomem
  layers : Fin 2 → xilinx_drm_dp_sub_layer
  vblank_fn : Option Nat
  vblank_data : Option Nat
  io_log : List reg_write

/-! ## Register access -/

/-- Modelled from the spec: `read32(base, offset) -> u32` (`xilinx_drm_readl` of
`xilinx_drm_drv.h`, not among the sources). -/
def xilinx_drm_readl (base : iomem) (offset : Nat) : Nat := base offset % 2 ^ 32

/-- Modelled from the spec: `write32(base, offset, value)` (`xilinx_drm_writel` of
`xilinx_drm_drv.h`, not among the sources); the value is a `u32`. -/
def xilinx_drm_writel (base : iomem) (offset val : Nat) : iomem :=
  fun o => if o = offset then val % 2 ^ 32 else base o

/-- Window selected by a bank. -/
def xilinx_drm_dp_sub.base (s : xilinx_drm_dp_sub) : reg_bank → iomem
  | .blend => s.blend
  | .av_buf => s.av_buf
  | .aud => s.aud

/-- A register write on the subsystem state: updates the window and logs the write. -/
def xilinx_drm_dp_sub.writel (s : xilinx_drm_dp_sub) (b : reg_bank) (offset val : Nat) :
    xilinx_drm_dp_sub :=
  let log := s.io_log ++ [⟨b, offset, val % 2 ^ 32⟩]
  match b with
  | .blend => { s with blend := xilinx_drm_writel s.blend offset val, io_log := log }
  | .av_buf => { s with av_buf := xilinx_drm_writel s.av_buf offset val, io_log := log }
  | .aud => { s with aud := xilinx_drm_writel s.aud offset val, io_log := log }

/-- Assignment through a layer pointer: replaces `layers[i]`. -/
def xilinx_drm_dp_sub.set_layer (s : xilinx_drm_dp_sub) (i : Fin 2)
    (l : xilinx_drm_dp_sub_layer) : xilinx_drm_dp_sub :=
  { s with layers := fun j => if j = i then l else s.layers j }

/-! ## Blender functions -/

def xilinx_drm_dp_sub_blend_layer_enable (s : xilinx_drm_dp_sub) (layer : Fin 2)
    (bypass : Bool) : xilinx_drm_dp_sub :=
  let reg := if (s.layers layer).fmt.rgb then XILINX_DP_SUB_V_BLEND_LAYER_CONTROL_RGB else 0
  let reg := reg ||| (if bypass then XILINX_DP_SUB_V_BLEND_LAYER_CONTROL_BYPASS
                      else XILINX_DP_SUB_V_BLEND_LAYER_CONTROL_EN)
  s.writel .blend (XILINX_DP_SUB_V_BLEND_LAYER_CONTROL + (s.layers layer).offset) reg

def xilinx_drm_dp_sub_blend_layer_disable (s : xilinx_drm_dp_sub) (layer : Fin 2) :
    xilinx_drm_dp_sub :=
  s.writel .blend (XILINX_DP_SUB_V_BLEND_LAYER_CONTROL + (s.layers layer).offset) 0

/-! ## AV buffer manager functions -/

def blend_output_fmts : List xilinx_drm_dp_sub_fmt :=
  [ { drm_fmt := DRM_FORMAT_RGB888, dp_sub_fmt := XILINX_DP_SUB_V_BLEND_OUTPUT_VID_FMT_RGB,
      rgb := true, sf0 := XILINX_DP_SUB_AV_BUF_8BIT_SF, sf1 := XILINX_DP_SUB_AV_BUF_8BIT_SF,
      sf2 := XILINX_DP_SUB_AV_BUF_8BIT_SF },
    { drm_fmt := DRM_FORMAT_YUV444, dp_sub_fmt := XILINX_DP_SUB_V_BLEND_OUTPUT_VID_FMT_YCBCR444,
      rgb := false, sf0 := XILINX_DP_SUB_AV_BUF_8BIT_SF, sf1 := XILINX_DP_SUB_AV_BUF_8BIT_SF,
      sf2 := XILINX_DP_SUB_AV_BUF_8BIT_SF },
    { drm_fmt := DRM_FORMAT_YUV422, dp_sub_fmt := XILINX_DP_SUB_V_BLEND_OUTPUT_VID_FMT_YCBCR422,
      rgb := false, sf0 := XILINX_DP_SUB_AV_BUF_8BIT_SF, sf1 := XILINX_DP_SUB_AV_BUF_4BIT_SF,
      sf2 := XILINX_DP_SUB_AV_BUF_NULL_SF } ]

def AV_BUF_DEFAULT_VID_FMT_ID : Nat := 5

def av_buf_vid_fmts : List xilinx_drm_dp_sub_fmt :=
  [ { drm_fmt := DRM_FORMAT_YVYU, dp_sub_fmt := XILINX_DP_SUB_AV_BUF_FORMAT_NL_VID_UYVY,
      rgb := false, sf0 := XILINX_DP_SUB_AV_BUF_8BIT_SF, sf1 := XILINX_DP_SUB_AV_BUF_8BIT_SF,
      sf2 := XILINX_DP_SUB_AV_BUF_NULL_SF },
    { drm_fmt := DRM_FORMAT_YUYV, dp_sub_fmt := XILINX_DP_SUB_AV_BUF_FORMAT_NL_VID_VYUY,
      rgb := false, sf0 := XILINX_DP_SUB_AV_BUF_8BIT_SF, sf1 := XILINX_DP_SUB_AV_BUF_8BIT_SF,
      sf2 := XILINX_DP_SUB_AV_BUF_NULL_SF },
    { drm_fmt := DRM_FORMAT_UYVY, dp_sub_fmt := XILINX_DP_SUB_AV_BUF_FORMAT_NL_VID_YVYU,
      rgb := false, sf0 := XILINX_DP_SUB_AV_BUF_8BIT_SF, sf1 := XILINX_DP_SUB_AV_BUF_8BIT_SF,
      sf2 := XILINX_DP_SUB_AV_BUF_NULL_SF },
    { drm_fmt := DRM_FORMAT_VYUY, dp_sub_fmt := XILINX_DP_SUB_AV_BUF_FORMAT_NL_VID_YUYV,
      rgb := false, sf0 := XILINX_DP_SUB_AV_BUF_8BIT_SF, sf1 := XILINX_DP_SUB_AV_BUF_8BIT_SF,
      sf2 := XILINX_DP_SUB_AV_BUF_NULL_SF },
    { drm_fmt := DRM_FORMAT_BGR888, dp_sub_fmt := XILINX_DP_SUB_AV_BUF_FORMAT_NL_VID_RGB888,
      rgb := true, sf0 := XILINX_DP_SUB_AV_BUF_8BIT_SF, sf1 := XILINX_DP_SUB_AV_BUF_8BIT_SF,
      sf2 := XILINX_DP_SUB_AV_BUF_8BIT_SF },
    { drm_fmt := DRM_FORMAT_XBGR8888, dp_sub_fmt := XILINX_DP_SUB_AV_BUF_FORMAT_NL_VID_RGBA8880,
      rgb := true, sf0 := XILINX_DP_SUB_AV_BUF_8BIT_SF, sf1 := XILINX_DP_SUB_AV_BUF_8BIT_SF,
      sf2 := XILINX_DP_SUB_AV_BUF_8BIT_SF } ]

def AV_BUF_DEFAULT_GFX_FMT_ID : Nat := 6

def av_buf_gfx_fmts : List xilinx_drm_dp_sub_fmt :=
  [ { drm_fmt := DRM_FORMAT_ABGR8888, dp_sub_fmt := XILINX_DP_SUB_AV_BUF_FORMAT_NL_GFX_RGBA8888,
      rgb := true, sf0 := XILINX_DP_SUB_AV_BUF_8BIT_SF, sf1 := XILINX_DP_SUB_AV_BUF_8BIT_SF,
      sf2 := XILINX_DP_SUB_AV_BUF_8BIT_SF },
    { drm_fmt := DRM_FORMAT_RGBA8888, dp_sub_fmt := XILINX_DP_SUB_AV_BUF_FORMAT_NL_GFX_ABGR8888,
      rgb := true, sf0 := XILINX_DP_SUB_AV_BUF_8BIT_SF, sf1 := XILINX_DP_SUB_AV_BUF_8BIT_SF,
      sf2 := XILINX_DP_SUB_AV_BUF_8BIT_SF },
    { drm_fmt := DRM_FORMAT_BGR888, dp_sub_fmt := XILINX_DP_SUB_AV_BUF_FORMAT_NL_GFX_RGB888,
      rgb := true, sf0 := XILINX_DP_SUB_AV_BUF_8BIT_SF, sf1 := XILINX_DP_SUB_AV_BUF_8BIT_SF,
      sf2 := XILINX_DP_SUB_AV_BUF_8BIT_SF },
    { drm_fmt := DRM_FORMAT_RGB888, dp_sub_fmt := XILINX_DP_SUB_AV_BUF_FORMAT_NL_GFX_BGR888,
      rgb := true, sf0 := XILINX_DP_SUB_AV_BUF_8BIT_SF, sf1 := XILINX_DP_SUB_AV_BUF_8BIT_SF,
      sf2 := XILINX_DP_SUB_AV_BUF_8BIT_SF },
    { drm_fmt := DRM_FORMAT_ABGR1555, dp_sub_fmt := XILINX_DP_SUB_AV_BUF_FORMAT_NL_GFX_RGBA5551,
      rgb := true, sf0 := XILINX_DP_SUB_AV_BUF_5BIT_SF, sf1 := XILINX_DP_SUB_AV_BUF_5BIT_SF,
      sf2 := XILINX_DP_SUB_AV_BUF_5BIT_SF },
    { drm_fmt := DRM_FORMAT_ABGR4444, dp_sub_fmt := XILINX_DP_SUB_AV_BUF_FORMAT_NL_GFX_RGBA4444,
      rgb := true, sf0 := XILINX_DP_SUB_AV_BUF_4BIT_SF, sf1 := XILINX_DP_SUB_AV_BUF_4BIT_SF,
      sf2 := XILINX_DP_SUB_AV_BUF_4BIT_SF },
    { drm_fmt := DRM_FORMAT_RGB565, dp_sub_fmt := XILINX_DP_SUB_AV_BUF_FORMAT_NL_GFX_RGB565,
      rgb := true, sf0 := XILINX_DP_SUB_AV_BUF_5BIT_SF, sf1 := XILINX_DP_SUB_AV_BUF_6BIT_SF,
      sf2 := XILINX_DP_SUB_AV_BUF_5BIT_SF } ]

def xilinx_drm_dp_sub_av_buf_set_fmt (s : xilinx_drm_dp_sub) (fmt : Nat) : xilinx_drm_dp_sub :=
  s.writel .av_buf XILINX_DP_SUB_AV_BUF_FORMAT fmt

def xilinx_drm_dp_sub_av_buf_get_fmt (s : xilinx_drm_dp_sub) : Nat :=
  xilinx_drm_readl s.av_buf XILINX_DP_SUB_AV_BUF_FORMAT

def xilinx_drm_dp_sub_av_buf_enable_vid (s : xilinx_drm_dp_sub) (layer : Fin 2) :
    xilinx_drm_dp_sub :=
  let reg := xilinx_drm_readl s.av_buf XILINX_DP_SUB_AV_BUF_OUTPUT
  let reg :=
    if (s.layers layer).id = XILINX_DRM_DP_SUB_LAYER_VID then
      (reg &&& not32 XILINX_DP_SUB_AV_BUF_OUTPUT_VID1_MASK) ||| XILINX_DP_SUB_AV_BUF_OUTPUT_VID1_MEM
    else
      (reg &&& not32 XILINX_DP_SUB_AV_BUF_OUTPUT_VID2_MASK) ||| XILINX_DP_SUB_AV_BUF_OUTPUT_VID2_MEM
  s.writel .av_buf XILINX_DP_SUB_AV_BUF_OUTPUT reg

def xilinx_drm_dp_sub_av_buf_disable_vid (s : xilinx_drm_dp_sub) (layer : Fin 2) :
    xilinx_drm_dp_sub :=
  let reg := xilinx_drm_readl s.av_buf XILINX_DP_SUB_AV_BUF_OUTPUT
  let reg :=
    if (s.layers layer).id = XILINX_DRM_DP_SUB_LAYER_VID then
      (reg &&& not32 XILINX_DP_SUB_AV_BUF_OUTPUT_VID1_MASK) ||| XILINX_DP_SUB_AV_BUF_OUTPUT_VID1_NONE
    else
      (reg &&& not32 XILINX_DP_SUB_AV_BUF_OUTPUT_VID2_MASK)
        ||| XILINX_DP_SUB_AV_BUF_OUTPUT_VID2_DISABLE
  s.writel .av_buf XILINX_DP_SUB_AV_BUF_OUTPUT reg

/-! ## Layer functions -/

/-- Returns `(return value, state after)`. -/
def xilinx_drm_dp_sub_layer_check_size (s : xilinx_drm_dp_sub) (layer : Fin 2)
    (width height : Nat) : Int × xilinx_drm_dp_sub :=
  let other := (s.layers layer).other
  if (s.layers other).enabled && ((s.layers other).w != width || (s.layers other).h != height) then
    (-EINVAL, s)
  else
    let s := s.set_layer layer { s.layers layer with w := width }
    let s := s.set_layer layer { s.layers layer with h := height }
    (0, s)

/-- The scan of `xilinx_drm_dp_sub_map_fmt`: entries `fmts[i]`, `i < size`, in index
order; the first argument list is the part of the table not yet visited and the
count is `size - i`. `none` is the `NULL` result. -/
def xilinx_drm_dp_sub_map_fmt (fmts : List xilinx_drm_dp_sub_fmt) (size : Nat) (drm_fmt : Nat) :
    Option xilinx_drm_dp_sub_fmt :=
  match fmts, size with
  | _, 0 => none
  | [], _ + 1 => none
  | f :: rest, n + 1 =>
    if f.drm_fmt = drm_fmt then some f else xilinx_drm_dp_sub_map_fmt rest n drm_fmt

/-- Returns `(return value, state after)`. -/
def xilinx_drm_dp_sub_layer_set_fmt (s : xilinx_drm_dp_sub) (layer : Fin 2) (drm_fmt : Nat) :
    Int × xilinx_drm_dp_sub :=
  let sel : List xilinx_drm_dp_sub_fmt × Nat × Nat :=
    if (s.layers layer).id = XILINX_DRM_DP_SUB_LAYER_VID then
      (av_buf_vid_fmts, av_buf_vid_fmts.length, not32 XILINX_DP_SUB_AV_BUF_FORMAT_NL_VID_MASK)
    else
      (av_buf_gfx_fmts, av_buf_gfx_fmts.length, not32 XILINX_DP_SUB_AV_BUF_FORMAT_NL_GFX_MASK)
  let table := sel.1
  let size := sel.2.1
  let mask := sel.2.2
  match xilinx_drm_dp_sub_map_fmt table size drm_fmt with
  | none => (-EINVAL, s)
  | some fmt =>
    let fmts := xilinx_drm_dp_sub_av_buf_get_fmt s
    let fmts := fmts &&& mask
    let fmts := fmts ||| fmt.dp_sub_fmt
    let s := xilinx_drm_dp_sub_av_buf_set_fmt s fmts
    let s := s.set_layer layer { s.layers layer with fmt := fmt }
    (0, s)

def xilinx_drm_dp_sub_layer_get_fmt (s : xilinx_drm_dp_sub) (layer : Fin 2) : Nat :=
  (s.layers layer).fmt.drm_fmt

def xilinx_drm_dp_sub_layer_enable (s : xilinx_drm_dp_sub) (layer : Fin 2) : xilinx_drm_dp_sub :=
  let s := xilinx_drm_dp_sub_av_buf_enable_vid s layer
  let s := xilinx_drm_dp_sub_blend_layer_enable s layer
    (!(s.layers (s.layers layer).other).enabled)
  let s :=
    if (s.layers (s.layers layer).other).enabled then
      xilinx_drm_dp_sub_blend_layer_enable s (s.layers layer).other false
    else s
  s.set_layer layer { s.layers layer with enabled := true }

def xilinx_drm_dp_sub_layer_disable (s : xilinx_drm_dp_sub) (layer : Fin 2) : xilinx_drm_dp_sub :=
  let s := xilinx_drm_dp_sub_av_buf_disable_vid s layer
  let s := xilinx_drm_dp_sub_blend_layer_disable s layer
  let s :=
    if (s.layers (s.layers layer).other).enabled then
      xilinx_drm_dp_sub_blend_layer_enable s (s.layers layer).other true
    else s
  s.set_layer layer { s.layers layer with enabled := false }

/-- The scan of `xilinx_drm_dp_sub_layer_get` over `layers[0]`, `layers[1]`:
the first index whose `primary` equals the flag, `none` for the `NULL` pointer. -/
def xilinx_drm_dp_sub_layer_get.scan (s : xilinx_drm_dp_sub) (primary : Bool) : Option (Fin 2) :=
  if (s.layers 0).primary = primary then some 0
  else if (s.layers 1).primary = primary then some 1
  else none

/-- Returns `(layer or error pointer, state after)`; `Except.error e` is `ERR_PTR(e)`. -/
def xilinx_drm_dp_sub_layer_get (s : xilinx_drm_dp_sub) (primary : Bool) :
    Except Int (Fin 2) × xilinx_drm_dp_sub :=
  match xilinx_drm_dp_sub_layer_get.scan s primary with
  | none => (.error (-ENODEV), s)
  | some layer =>
    if !(s.layers layer).avail then (.error (-ENODEV), s)
    else (.ok layer, s)

def xilinx_drm_dp_sub_layer_put (s : xilinx_drm_dp_sub) (layer : Fin 2) : xilinx_drm_dp_sub :=
  s.set_layer layer { s.layers layer with avail := true }

/-! ## Initialisation -/

/-- Index of a layer in `layers[]` when the array is subscripted by the enum constant. -/
def xilinx_drm_dp_sub_layer_type.idx : xilinx_drm_dp_sub_layer_type → Fin 2
  | XILINX_DRM_DP_SUB_LAYER_VID => 0
  | XILINX_DRM_DP_SUB_LAYER_GFX => 1

/-- The device-tree node of the subsystem, reduced to the two properties read by
`xilinx_drm_dp_sub_parse_of`: the string `xlnx,output-fmt` (possibly absent) and
the boolean `xlnx,vid-primary`. -/
structure device_node where
  output_fmt : Option String
  vid_primary : Bool

/-- Modelled from the spec: `of_property_read_string` of `linux/of.h` (not among the
sources). Status 0 and the property value when the property is present; a negative
errno, with the out-parameter left as it was, when it is absent. -/
def of_property_read_string (node : device_node) (out : String) : Int × String :=
  match node.output_fmt with
  | some v => (0, v)
  | none => (-EINVAL, out)

/-- Modelled from the spec: `of_property_read_bool` of `linux/of.h` (not among the
sources). -/
def of_property_read_bool (node : device_node) : Bool := node.vid_primary

/-- Returns `(return value, state after)`. `string0` is the content of the local
`string` before the property read (the local is not initialised by the source).
The local `ret` is declared `bool`: the status is converted to `bool` on
assignment and promoted to `int` (0 or 1) in the comparison and in `return ret`. -/
def xilinx_drm_dp_sub_parse_of (s : xilinx_drm_dp_sub) (node : device_node) (string0 : String) :
    Int × xilinx_drm_dp_sub :=
  let r := of_property_read_string node string0
  let string := r.2
  let ret : Bool := decide (r.1 ≠ 0)
  if (if ret then (1 : Int) else 0) < 0 then
    ((if ret then (1 : Int) else 0), s)
  else
    let fmt : Option Nat :=
      if string = "rgb" then some XILINX_DP_SUB_V_BLEND_OUTPUT_VID_FMT_RGB
      else if string = "ycrcb444" then some XILINX_DP_SUB_V_BLEND_OUTPUT_VID_FMT_YCBCR444
      else if string = "ycrcb422" then some XILINX_DP_SUB_V_BLEND_OUTPUT_VID_FMT_YCBCR422
      else if string = "yonly" then some XILINX_DP_SUB_V_BLEND_OUTPUT_VID_FMT_YONLY
      else none
    match fmt with
    | none => (-EINVAL, s)
    | some fmt =>
      let s := s.writel .blend XILINX_DP_SUB_V_BLEND_OUTPUT_VID_FMT fmt
      let ret := of_property_read_bool node
      let s :=
        if ret then
          s.set_layer XILINX_DRM_DP_SUB_LAYER_VID.idx
            { s.layers XILINX_DRM_DP_SUB_LAYER_VID.idx with primary := true }
        else
          s.set_layer XILINX_DRM_DP_SUB_LAYER_GFX.idx
            { s.layers XILINX_DRM_DP_SUB_LAYER_GFX.idx with primary := true }
      (0, s)

/-- Entry `i` of a format table; the tables are subscripted only at the two default
indices, an index past the end has no defined value and is given the all-zero
descriptor. -/
def fmt_at (table : List xilinx_drm_dp_sub_fmt) (i : Nat) : xilinx_drm_dp_sub_fmt :=
  table.getD i ⟨0, 0, false, 0, 0, 0⟩

/-- The zeroed allocation after the layer assignments of `probe` (`id`, `offset`,
`avail`, `fmt`, `other` for `layers[0]` and `layers[1]`), before the device tree is
parsed; every other field is 0/false/NULL. -/
def probe_layers (blend av_buf aud : iomem) : xilinx_drm_dp_sub :=
  { blend := blend, av_buf := av_buf, aud := aud,
    layers := fun i =>
      if i = 0 then
        { id := XILINX_DRM_DP_SUB_LAYER_VID, offset := 0, avail := true, primary := false,
          enabled := false, fmt := fmt_at av_buf_vid_fmts AV_BUF_DEFAULT_VID_FMT_ID,
          w := 0, h := 0, other := 1 }
      else
        { id := XILINX_DRM_DP_SUB_LAYER_GFX, offset := 4, avail := true, primary := false,
          enabled := false, fmt := fmt_at av_buf_gfx_fmts AV_BUF_DEFAULT_GFX_FMT_ID,
          w := 0, h := 0, other := 0 },
    vblank_fn := none, vblank_data := none, io_log := [] }

/-- The probe routine. `kzalloc_ok` tells whether the allocation succeeded; `blend`,
`av_buf`, `aud` are the results of mapping the three named windows (an error is the
`PTR_ERR` value); the result is the error code or the subsystem that gets
registered. The allocation is zeroed, so every field not assigned here is 0/false/NULL. -/
def xilinx_drm_dp_sub_probe (kzalloc_ok : Bool) (blend av_buf aud : Except Int iomem)
    (node : device_node) (string0 : String) : Except Int xilinx_drm_dp_sub :=
  if !kzalloc_ok then .error (-ENOMEM) else
  match blend with
  | .error e => .error e
  | .ok blend =>
  match av_buf with
  | .error e => .error e
  | .ok av_buf =>
  match aud with
  | .error e => .error e
  | .ok aud =>
    let dp_sub := probe_layers blend av_buf aud
    let r := xilinx_drm_dp_sub_parse_of dp_sub node string0
    if r.1 ≠ 0 then .error r.1 else .ok r.2

/-! ## Subsystem functions -/

/-- The C loop `for (i = lo; i < hi; i++) body(i)` on a state. -/
def for_loop {σ : Type} (lo hi : Nat) (body : Nat → σ → σ) (s : σ) : σ :=
  (List.range' lo (hi - lo)).foldl (fun acc i => body i acc) s

/-- Element `sf[i]` of the scaling-factor array of a descriptor, `i < 3`. -/
def xilinx_drm_dp_sub_fmt.sf (f : xilinx_drm_dp_sub_fmt) (i : Nat) : Nat :=
  match i with
  | 0 => f.sf0
  | 1 => f.sf1
  | _ => f.sf2

/-- Modelled from the spec: `set_bits(base, offset, mask)` (`xilinx_drm_set` of
`xilinx_drm_drv.h`, not among the sources): read the register, OR the mask in, write
it back. -/
def xilinx_drm_dp_sub.set_bits (s : xilinx_drm_dp_sub) (b : reg_bank) (offset mask : Nat) :
    xilinx_drm_dp_sub :=
  s.writel b offset (xilinx_drm_readl (s.base b) offset ||| mask)

def xilinx_drm_dp_sub_blend_set_bg_color (s : xilinx_drm_dp_sub) (c0 c1 c2 : Nat) :
    xilinx_drm_dp_sub :=
  let s := s.writel .blend XILINX_DP_SUB_V_BLEND_BG_CLR_0 c0
  let s := s.writel .blend XILINX_DP_SUB_V_BLEND_BG_CLR_1 c1
  s.writel .blend XILINX_DP_SUB_V_BLEND_BG_CLR_2 c2

/-- The argument `enable` is a `bool`, promoted to 0 or 1 in `alpha << 1 | enable`;
the shift is taken on a `u32`. -/
def xilinx_drm_dp_sub_blend_set_alpha (s : xilinx_drm_dp_sub) (enable : Bool) (alpha : Nat) :
    xilinx_drm_dp_sub :=
  s.writel .blend XILINX_DP_SUB_V_BLEND_SET_GLOBAL_ALPHA
    (((alpha <<< 1) % 2 ^ 32) ||| (if enable then 1 else 0))

def xilinx_drm_dp_sub_blend_set_output_fmt (s : xilinx_drm_dp_sub) (fmt : Nat) :
    xilinx_drm_dp_sub :=
  s.writel .blend XILINX_DP_SUB_V_BLEND_OUTPUT_VID_FMT fmt

def xilinx_drm_dp_sub_av_buf_set_vid_clock_src (s : xilinx_drm_dp_sub) (from_ps : Bool) :
    xilinx_drm_dp_sub :=
  let reg := xilinx_drm_readl s.av_buf XILINX_DP_SUB_AV_BUF_CLK_SRC
  let reg :=
    if from_ps then reg ||| XILINX_DP_SUB_AV_BUF_CLK_SRC_VID_FROM_PS
    else reg &&& not32 XILINX_DP_SUB_AV_BUF_CLK_SRC_VID_FROM_PS
  s.writel .av_buf XILINX_DP_SUB_AV_BUF_CLK_SRC reg

def xilinx_drm_dp_sub_av_buf_set_vid_timing_src (s : xilinx_drm_dp_sub) (internal : Bool) :
    xilinx_drm_dp_sub :=
  let reg := xilinx_drm_readl s.av_buf XILINX_DP_SUB_AV_BUF_CLK_SRC
  let reg :=
    if internal then reg ||| XILINX_DP_SUB_AV_BUF_CLK_SRC_VID_INTERNAL_TIMING
    else reg &&& not32 XILINX_DP_SUB_AV_BUF_CLK_SRC_VID_INTERNAL_TIMING
  s.writel .av_buf XILINX_DP_SUB_AV_BUF_CLK_SRC reg

def xilinx_drm_dp_sub_av_buf_set_aud_clock_src (s : xilinx_drm_dp_sub) (from_ps : Bool) :
    xilinx_drm_dp_sub :=
  let reg := xilinx_drm_readl s.av_buf XILINX_DP_SUB_AV_BUF_CLK_SRC
  let reg :=
    if from_ps then reg ||| XILINX_DP_SUB_AV_BUF_CLK_SRC_AUD_FROM_PS
    else reg &&& not32 XILINX_DP_SUB_AV_BUF_CLK_SRC_AUD_FROM_PS
  s.writel .av_buf XILINX_DP_SUB_AV_BUF_CLK_SRC reg

/-- The second loop starts at the value `i` has after the first one. -/
def xilinx_drm_dp_sub_av_buf_enable_buf (s : xilinx_drm_dp_sub) : xilinx_drm_dp_sub :=
  let reg := XILINX_DP_SUB_AV_BUF_CHBUF_EN
  let reg := reg ||| (XILINX_DP_SUB_AV_BUF_CHBUF_BURST_LEN_MAX <<<
    XILINX_DP_SUB_AV_BUF_CHBUF_BURST_LEN_SHIFT)
  let s := for_loop 0 XILINX_DP_SUB_AV_BUF_NUM_VID_GFX_BUFFERS
    (fun i s => s.writel .av_buf (XILINX_DP_SUB_AV_BUF_CHBUF + i * 4) reg) s
  let reg := XILINX_DP_SUB_AV_BUF_CHBUF_EN
  let reg := reg ||| (XILINX_DP_SUB_AV_BUF_CHBUF_BURST_LEN_AUD_MAX <<<
    XILINX_DP_SUB_AV_BUF_CHBUF_BURST_LEN_SHIFT)
  for_loop XILINX_DP_SUB_AV_BUF_NUM_VID_GFX_BUFFERS XILINX_DP_SUB_AV_BUF_NUM_BUFFERS
    (fun i s => s.writel .av_buf (XILINX_DP_SUB_AV_BUF_CHBUF + i * 4) reg) s

def xilinx_drm_dp_sub_av_buf_disable_buf (s : xilinx_drm_dp_sub) : xilinx_drm_dp_sub :=
  let reg := XILINX_DP_SUB_AV_BUF_CHBUF_FLUSH &&& not32 XILINX_DP_SUB_AV_BUF_CHBUF_EN
  for_loop 0 XILINX_DP_SUB_AV_BUF_NUM_BUFFERS
    (fun i s => s.writel .av_buf (XILINX_DP_SUB_AV_BUF_CHBUF + i * 4) reg) s

def xilinx_drm_dp_sub_av_buf_enable_aud (s : xilinx_drm_dp_sub) : xilinx_drm_dp_sub :=
  let reg := xilinx_drm_readl s.av_buf XILINX_DP_SUB_AV_BUF_OUTPUT
  let reg := reg &&& not32 XILINX_DP_SUB_AV_BUF_OUTPUT_AUD1_MASK
  let reg := reg ||| XILINX_DP_SUB_AV_BUF_OUTPUT_AUD1_MEM
  let reg := reg ||| XILINX_DP_SUB_AV_BUF_OUTPUT_AUD2_EN
  s.writel .av_buf XILINX_DP_SUB_AV_BUF_OUTPUT reg

def xilinx_drm_dp_sub_av_buf_disable_aud (s : xilinx_drm_dp_sub) : xilinx_drm_dp_sub :=
  let reg := xilinx_drm_readl s.av_buf XILINX_DP_SUB_AV_BUF_OUTPUT
  let reg := reg &&& not32 XILINX_DP_SUB_AV_BUF_OUTPUT_AUD1_MASK
  let reg := reg ||| XILINX_DP_SUB_AV_BUF_OUTPUT_AUD1_DISABLE
  let reg := reg &&& not32 XILINX_DP_SUB_AV_BUF_OUTPUT_AUD2_EN
  s.writel .av_buf XILINX_DP_SUB_AV_BUF_OUTPUT reg

def xilinx_drm_dp_sub_av_buf_init_fmts (s : xilinx_drm_dp_sub)
    (vid_fmt gfx_fmt : xilinx_drm_dp_sub_fmt) : xilinx_drm_dp_sub :=
  let reg := vid_fmt.dp_sub_fmt
  let reg := reg ||| gfx_fmt.dp_sub_fmt
  s.writel .av_buf XILINX_DP_SUB_AV_BUF_FORMAT reg

/-- In both loops the register offset is the local `offset`, which the loop body does
not change. -/
def xilinx_drm_dp_sub_av_buf_init_sf (s : xilinx_drm_dp_sub)
    (vid_fmt gfx_fmt : xilinx_drm_dp_sub_fmt) : xilinx_drm_dp_sub :=
  let offset := XILINX_DP_SUB_AV_BUF_GFX_COMP0_SF
  let s := for_loop 0 XILINX_DP_SUB_AV_BUF_NUM_SF
    (fun i s => s.writel .av_buf offset (gfx_fmt.sf i)) s
  let offset := XILINX_DP_SUB_AV_BUF_VID_COMP0_SF
  for_loop 0 XILINX_DP_SUB_AV_BUF_NUM_SF
    (fun i s => s.writel .av_buf offset (vid_fmt.sf i)) s

def xilinx_drm_dp_sub_aud_init (s : xilinx_drm_dp_sub) : xilinx_drm_dp_sub :=
  s.set_bits .aud XILINX_DP_SUB_AUD_MIXER_VOLUME XILINX_DP_SUB_AUD_MIXER_VOLUME_NO_SCALE

/-- Returns `(return value, state after)`. -/
def xilinx_drm_dp_sub_set_output_fmt (s : xilinx_drm_dp_sub) (drm_fmt : Nat) :
    Int × xilinx_drm_dp_sub :=
  match xilinx_drm_dp_sub_map_fmt blend_output_fmts blend_output_fmts.length drm_fmt with
  | none => (-EINVAL, s)
  | some fmt => (0, xilinx_drm_dp_sub_blend_set_output_fmt s fmt.dp_sub_fmt)

def xilinx_drm_dp_sub_set_bg_color (s : xilinx_drm_dp_sub) (c0 c1 c2 : Nat) :
    xilinx_drm_dp_sub :=
  xilinx_drm_dp_sub_blend_set_bg_color s c0 c1 c2

def xilinx_drm_dp_sub_set_alpha (s : xilinx_drm_dp_sub) (alpha : Nat) : xilinx_drm_dp_sub :=
  xilinx_drm_dp_sub_blend_set_alpha s true alpha

/-- Returns the call made, if any, as `(vblank_fn, vblank_data)`, and the state after.
The callback runs under the subsystem lock and may not call back into the
subsystem, so the subsystem state is as before. -/
def xilinx_drm_dp_sub_handle_vblank (s : xilinx_drm_dp_sub) :
    Option (Nat × Option Nat) × xilinx_drm_dp_sub :=
  match s.vblank_fn with
  | some fn => (some (fn, s.vblank_data), s)
  | none => (none, s)

/-- A null `vblank_fn` or `vblank_data` argument is `none`. -/
def xilinx_drm_dp_sub_enable_vblank (s : xilinx_drm_dp_sub) (vblank_fn vblank_data : Option Nat) :
    xilinx_drm_dp_sub :=
  let s := { s with vblank_fn := vblank_fn }
  { s with vblank_data := vblank_data }

def xilinx_drm_dp_sub_disable_vblank (s : xilinx_drm_dp_sub) : xilinx_drm_dp_sub :=
  let s := { s with vblank_fn := none }
  { s with vblank_data := none }

def xilinx_drm_dp_sub_enable (s : xilinx_drm_dp_sub) : xilinx_drm_dp_sub :=
  let vid_fmt := (s.layers XILINX_DRM_DP_SUB_LAYER_VID.idx).fmt
  let gfx_fmt := (s.layers XILINX_DRM_DP_SUB_LAYER_GFX.idx).fmt
  let s := xilinx_drm_dp_sub_av_buf_init_fmts s vid_fmt gfx_fmt
  let s := xilinx_drm_dp_sub_av_buf_init_sf s vid_fmt gfx_fmt
  let s := xilinx_drm_dp_sub_av_buf_set_vid_clock_src s true
  let s := xilinx_drm_dp_sub_av_buf_set_vid_timing_src s true
  let s := xilinx_drm_dp_sub_av_buf_set_aud_clock_src s true
  let s := xilinx_drm_dp_sub_av_buf_enable_buf s
  let s := xilinx_drm_dp_sub_av_buf_enable_aud s
  xilinx_drm_dp_sub_aud_init s

def xilinx_drm_dp_sub_disable (s : xilinx_drm_dp_sub) : xilinx_drm_dp_sub :=
  let s := xilinx_drm_dp_sub_av_buf_disable_aud s
  xilinx_drm_dp_sub_av_buf_disable_buf s

/-! ## Subsystem registry -/

/-- A subsystem instance as the global list sees it: the address of its
`struct xilinx_drm_dp_sub` and the device node `dev->of_node`. -/
structure dp_sub_instance where
  addr : Nat
  of_node : Nat
  deriving DecidableEq, Repr

/-- The caller's device node as `xilinx_drm_dp_sub_of_get` reads it: whether it has
the property `xlnx,dp-sub`, and the node its phandle resolves to (`none` when it
resolves to nothing). -/
structure parent_node where
  has_dp_sub : Bool
  phandle : Option Nat
  deriving DecidableEq, Repr

/-- Modelled from the spec: `of_find_property(np, "xlnx,dp-sub", NULL)` of `linux/of.h`
(not among the sources), as a test for the presence of the reference. -/
def of_find_property (np : parent_node) : Bool := np.has_dp_sub

/-- Modelled from the spec: `of_parse_phandle(np, "xlnx,dp-sub", 0)` of `linux/of.h`
(not among the sources); `none` is the `NULL` node. -/
def of_parse_phandle (np : parent_node) : Option Nat := np.phandle

/-- The scan `list_for_each_entry` of `xilinx_drm_dp_sub_of_get` with its `break`: the
first entry of the list whose device node is the one looked for. -/
def xilinx_drm_dp_sub_of_get.scan (list : List dp_sub_instance) (node : Nat) :
    Option dp_sub_instance :=
  match list with
  | [] => none
  | dp_sub :: rest =>
    if dp_sub.of_node = node then some dp_sub else xilinx_drm_dp_sub_of_get.scan rest node

/-- The argument `list` is the global `xilinx_drm_dp_sub_list`, which the function only
reads. `.ok none` is the `NULL` result, `.error e` is `ERR_PTR(e)`. -/
def xilinx_drm_dp_sub_of_get (list : List dp_sub_instance) (np : parent_node) :
    Except Int (Option dp_sub_instance) :=
  if !of_find_property np then .ok none
  else
    match of_parse_phandle np with
    | none => .error (-EINVAL)
    | some xilinx_drm_dp_sub_node =>
      match xilinx_drm_dp_sub_of_get.scan list xilinx_drm_dp_sub_node with
      | none => .error (-EPROBE_DEFER)
      | some found => .ok (some found)

/-- The body is empty: returns the global list as it was. -/
def xilinx_drm_dp_sub_put (list : List dp_sub_instance) (_dp_sub : dp_sub_instance) :
    List dp_sub_instance := list

/-- Returns the global list after `list_add_tail`. -/
def xilinx_drm_dp_sub_register_device (list : List dp_sub_instance) (dp_sub : dp_sub_instance) :
    List dp_sub_instance := list ++ [dp_sub]

/-- Returns the global list after `list_del` of the entry of the instance. -/
def xilinx_drm_dp_sub_unregister_device (list : List dp_sub_instance)
    (dp_sub : dp_sub_instance) : List dp_sub_instance := list.erase dp_sub

/-! ## Sequences of layer operations -/

/-- The public layer operations, with their arguments. -/
inductive layer_op where
  | get (primary : Bool)
  | put (layer : Fin 2)
  | check_size (layer : Fin 2) (width height : Nat)
  | set_fmt (layer : Fin 2) (drm_fmt : Nat)
  | enable (layer : Fin 2)
  | disable (layer : Fin 2)
  deriving DecidableEq, Repr

/-- State after one operation (the return value is dropped). -/
def layer_op.apply (s : xilinx_drm_dp_sub) : layer_op → xilinx_drm_dp_sub
  | .get primary => (xilinx_drm_dp_sub_layer_get s primary).2
  | .put layer => xilinx_drm_dp_sub_layer_put s layer
  | .check_size layer w h => (xilinx_drm_dp_sub_layer_check_size s layer w h).2
  | .set_fmt layer f => (xilinx_drm_dp_sub_layer_set_fmt s layer f).2
  | .enable layer => xilinx_drm_dp_sub_layer_enable s layer
  | .disable layer => xilinx_drm_dp_sub_layer_disable s layer

/-- State after a sequence of operations, first operation first. -/
def run (s : xilinx_drm_dp_sub) : List layer_op → xilinx_drm_dp_sub
  | [] => s
  | op :: ops => run (op.apply s) ops

/-- The public operations on a probed subsystem: the layer operations and the
subsystem-level ones, with their arguments. -/
inductive dp_sub_op where
  | layer (op : layer_op)
  | set_output_fmt (drm_fmt : Nat)
  | set_bg_color (c0 c1 c2 : Nat)
  | set_alpha (alpha : Nat)
  | handle_vblank
  | enable_vblank (vblank_fn vblank_data : Option Nat)
  | disable_vblank
  | enable
  | disable
  deriving DecidableEq, Repr

/-- State after one public operation (the return value is dropped). -/
def dp_sub_op.apply (s : xilinx_drm_dp_sub) : dp_sub_op → xilinx_drm_dp_sub
  | .layer op => op.apply s
  | .set_output_fmt drm_fmt => (xilinx_drm_dp_sub_set_output_fmt s drm_fmt).2
  | .set_bg_color c0 c1 c2 => xilinx_drm_dp_sub_set_bg_color s c0 c1 c2
  | .set_alpha alpha => xilinx_drm_dp_sub_set_alpha s alpha
  | .handle_vblank => (xilinx_drm_dp_sub_handle_vblank s).2
  | .enable_vblank fn data => xilinx_drm_dp_sub_enable_vblank s fn data
  | .disable_vblank => xilinx_drm_dp_sub_disable_vblank s
  | .enable => xilinx_drm_dp_sub_enable s
  | .disable => xilinx_drm_dp_sub_disable s

/-- State after a sequence of public operations, first operation first. -/
def run_ops (s : xilinx_drm_dp_sub) : List dp_sub_op → xilinx_drm_dp_sub
  | [] => s
  | op :: ops => run_ops (op.apply s) ops

/-! ## Notions of the specification -/

/-- The fixed fields of the two layers as `probe` assigns them: layer 0 is the video
layer at register offset 0, layer 1 the graphics layer at offset 4, and each is the
other's `other`. No operation assigns these fields. -/
def probed_layout (s : xilinx_drm_dp_sub) : Prop :=
  (s.layers 0).id = XILINX_DRM_DP_SUB_LAYER_VID ∧ (s.layers 0).offset = 0 ∧
  (s.layers 0).other = 1 ∧
  (s.layers 1).id = XILINX_DRM_DP_SUB_LAYER_GFX ∧ (s.layers 1).offset = 4 ∧
  (s.layers 1).other = 0

instance (s : xilinx_drm_dp_sub) : Decidable (probed_layout s) := by
  unfold probed_layout; infer_instance

/-- The observable state of a layer in the words of the specification. -/
inductive layer_state where
  | Disabled
  | EnabledBypass
  | EnabledBlend
  deriving DecidableEq, Repr

/-- The observable state of layer `i`, derived from its `enabled` flag and its
sibling's, as the specification defines it. -/
def xilinx_drm_dp_sub.state_of (s : xilinx_drm_dp_sub) (i : Fin 2) : layer_state :=
  if (s.layers i).enabled then
    if (s.layers (s.layers i).other).enabled then .EnabledBlend else .EnabledBypass
  else .Disabled

/-- The blend-control word the specification describes: the RGB bit of the
descriptor, plus the bypass bit or the enable bit. -/
def control_word (fmt : xilinx_drm_dp_sub_fmt) (bypass : Bool) : Nat :=
  (if fmt.rgb then BIT 1 else 0) ||| (if bypass then BIT 8 else BIT 0)

/-- Offset of the blend-control register of a layer. -/
def control_reg (l : xilinx_drm_dp_sub_layer) : Nat := 0x18 + l.offset

/-- A register window in which every register reads zero, used for concrete runs. -/
def zero_window : iomem := fun _ => 0

/-- A concrete device tree: colorimetry "rgb", graphics layer primary. -/
def node_gfx_primary : device_node := ⟨some "rgb", false⟩

/-- The subsystem `probe` registers for `node_gfx_primary` when all registers read
zero (see `probe_gfx_primary`). -/
def dp_sub0 : xilinx_drm_dp_sub :=
  (xilinx_drm_dp_sub_parse_of (probe_layers zero_window zero_window zero_window)
    node_gfx_primary "").2

/-- The state `dp_sub0` after the graphics layer has been sized and enabled. -/
def dp_sub_gfx_on : xilinx_drm_dp_sub :=
  run dp_sub0 [.get true, .check_size 1 1920 1080, .enable 1]

/-- The catalog matching a layer kind: the video table for the video layer, the
graphics table for the graphics layer. -/
def catalog : xilinx_drm_dp_sub_layer_type → List xilinx_drm_dp_sub_fmt
  | XILINX_DRM_DP_SUB_LAYER_VID => av_buf_vid_fmts
  | XILINX_DRM_DP_SUB_LAYER_GFX => av_buf_gfx_fmts

/-- The bitfield of the input-format register owned by a layer kind: `0x1f` for
video, `0xf00` for graphics. -/
def own_mask : xilinx_drm_dp_sub_layer_type → Nat
  | XILINX_DRM_DP_SUB_LAYER_VID => 0x1f
  | XILINX_DRM_DP_SUB_LAYER_GFX => 0xf00

/-- The guard under which the equal-size property survives an operation: an
`enable` is issued only when the sibling is disabled or the stored sizes agree. -/
def enable_sized (s : xilinx_drm_dp_sub) : layer_op → Bool
  | .enable layer =>
    !(s.layers (s.layers layer).other).enabled ||
      ((s.layers layer).w == (s.layers (s.layers layer).other).w &&
       (s.layers layer).h == (s.layers (s.layers layer).other).h)
  | _ => true

/-- Every `enable` of the sequence satisfies `enable_sized` in the state it is
issued in. -/
def sized_run (s : xilinx_drm_dp_sub) : List layer_op → Bool
  | [] => true
  | op :: ops => enable_sized s op && sized_run (op.apply s) ops

/-- The state `dp_sub0` after the graphics layer has taken the format RGBA8888. -/
def dp_sub_gfx_rgba : xilinx_drm_dp_sub :=
  (xilinx_drm_dp_sub_layer_set_fmt dp_sub0 1 DRM_FORMAT_RGBA8888).2

/-- The invariant behind the equal-size property: the layout is the probed one, and
if both layers are enabled their stored sizes agree. -/
def equal_size_inv (s : xilinx_drm_dp_sub) : Prop :=
  probed_layout s ∧
  ((s.layers 0).enabled = true → (s.layers 1).enabled = true →
    (s.layers 0).w = (s.layers 1).w ∧ (s.layers 0).h = (s.layers 1).h)

/-- A realistic call sequence: both layers acquired and formatted, sized to
different dimensions while both are disabled, then both enabled. -/
def mismatched_sizes_ops : List layer_op :=
  [.get true, .get false, .set_fmt 1 DRM_FORMAT_RGBA8888, .set_fmt 0 DRM_FORMAT_BGR888,
   .check_size 1 1920 1080, .check_size 0 1280 720, .enable 1, .enable 0]

/-- A call sequence in which the second layer is sized to the first one's
dimensions before it is enabled. -/
def matched_sizes_ops : List layer_op :=
  [.get true, .get false, .check_size 1 1920 1080, .enable 1,
   .check_size 0 1920 1080, .enable 0]

/-- Consistency of one blend-control word `v` with the `enabled` flag `en` of its layer
and the flag `sib` of the sibling: zero for a disabled layer; for an enabled layer
the EN bit (bit 0) is set exactly when the sibling is enabled and the BYPASS bit
(bit 8) exactly when it is not. -/
def ctl_ok (v : Nat) (en sib : Bool) : Prop :=
  if en then v.testBit 0 = sib ∧ v.testBit 8 = !sib else v = 0

/-- The invariant of the blend state machine: probed layout, and both blend-control
registers (0x18 video, 0x1c graphics) consistent with the `enabled` flags. -/
def blend_inv (s : xilinx_drm_dp_sub) : Prop :=
  probed_layout s ∧
  ctl_ok (s.blend 0x18) (s.layers 0).enabled (s.layers 1).enabled ∧
  ctl_ok (s.blend 0x1c) (s.layers 1).enabled (s.layers 0).enabled

/-- A sequence of public operations mixing format changes with subsystem enable and
disable. -/
def demo_public_ops : List dp_sub_op :=
  [.layer (.set_fmt 0 DRM_FORMAT_BGR888), .enable, .layer (.set_fmt 1 DRM_FORMAT_RGB888),
   .layer (.set_fmt 1 DRM_FORMAT_YUYV), .enable_vblank (some 1) none, .disable]

/-- The state `dp_sub0` after the video layer has taken the format YUYV, whose third
scaling factor is the null one. -/
def dp_sub_vid_yuyv : xilinx_drm_dp_sub :=
  (xilinx_drm_dp_sub_layer_set_fmt dp_sub0 0 DRM_FORMAT_YUYV).2

/-- The end-to-end call sequence of the specification: graphics acquired, formatted,
sized and enabled; video acquired, formatted, sized and enabled; video disabled. -/
def scenario_ops : List layer_op :=
  [.get true, .set_fmt 1 DRM_FORMAT_RGBA8888, .check_size 1 1920 1080, .enable 1,
   .get false, .set_fmt 0 DRM_FORMAT_BGR888, .check_size 0 1920 1080, .enable 0, .disable 0]

/-- The colorimetry table in the words of the specification: the output format code
of each of the four recognised strings, nothing for any other string. -/
def colorimetry_code (str : String) : Option Nat :=
  if str = "rgb" then some 0
  else if str = "ycrcb444" then some 1
  else if str = "ycrcb422" then some 2
  else if str = "yonly" then some 3
  else none

/-- A device tree without the colorimetry property. -/
def node_no_colorimetry : device_node := ⟨none, false⟩

/-- A registry with two instances on different device nodes. -/
def demo_registry : List dp_sub_instance := [⟨0x1000, 7⟩, ⟨0x2000, 9⟩]

/-- The 2-bit field of a layer kind in the output-routing register (offset 0x70):
bits 0-1 for the video layer, bits 2-3 for the graphics layer. -/
def routing_mask : xilinx_drm_dp_sub_layer_type → Nat
  | .XILINX_DRM_DP_SUB_LAYER_VID => 0x3
  | .XILINX_DRM_DP_SUB_LAYER_GFX => 0xc

/-- The field value 'memory' (1) of a layer kind, at the position of its field. -/
def routing_mem : xilinx_drm_dp_sub_layer_type → Nat
  | .XILINX_DRM_DP_SUB_LAYER_VID => 1
  | .XILINX_DRM_DP_SUB_LAYER_GFX => 1 <<< 2

/-- The field value of a layer kind that is switched off, at the position of its
field: 'none' (3) for the video layer, 'disable' (0) for the graphics layer. -/
def routing_off : xilinx_drm_dp_sub_layer_type → Nat
  | .XILINX_DRM_DP_SUB_LAYER_VID => 3
  | .XILINX_DRM_DP_SUB_LAYER_GFX => 0 <<< 2

/-- The layer whose size has just been accepted: `some layer` for a
`check_size(layer, w, h)` that returns 0 in state `s`, `none` for a rejected
`check_size` and for every other operation. -/
def checked_layer (s : xilinx_drm_dp_sub) : layer_op → Option (Fin 2)
  | .check_size layer w h =>
    if (xilinx_drm_dp_sub_layer_check_size s layer w h).1 = 0 then some layer else none
  | _ => none

/-- The caller discipline on a sequence of operations: every `enable(layer)` comes
immediately after a `check_size` on the same layer that returned 0. The argument
`prev` is the layer accepted by the operation issued just before the sequence,
`none` at the start. -/
def checked_run (s : xilinx_drm_dp_sub) (prev : Option (Fin 2)) : List layer_op → Bool
  | [] => true
  | op :: ops =>
    (match op with
      | .enable layer => decide (prev = some layer)
      | _ => true) && checked_run (op.apply s) (checked_layer s op) ops

/-- The guard under which the RGB bit of the blend-control registers stays in step
with the descriptors: a `set_fmt` is issued on a disabled layer, or leaves the
`rgb` flag of the layer's descriptor as it was. -/
def rgb_kept (s : xilinx_drm_dp_sub) : layer_op → Bool
  | .set_fmt layer drm_fmt =>
    !(s.layers layer).enabled ||
      (((xilinx_drm_dp_sub_layer_set_fmt s layer drm_fmt).2.layers layer).fmt.rgb ==
        (s.layers layer).fmt.rgb)
  | _ => true

/-- Every `set_fmt` of the sequence satisfies `rgb_kept` in the state it is issued
in. -/
def rgb_kept_run (s : xilinx_drm_dp_sub) : List layer_op → Bool
  | [] => true
  | op :: ops => rgb_kept s op && rgb_kept_run (op.apply s) ops

/-- The invariant behind the RGB-bit property: probed layout, and for each enabled
layer the RGB bit (bit 1) of its blend-control register (0x18 video, 0x1c graphics)
is the `rgb` flag of its descriptor. -/
def rgb_inv (s : xilinx_drm_dp_sub) : Prop :=
  probed_layout s ∧
  ((s.layers 0).enabled = true → (s.blend 0x18).testBit 1 = (s.layers 0).fmt.rgb) ∧
  ((s.layers 1).enabled = true → (s.blend 0x1c).testBit 1 = (s.layers 1).fmt.rgb)

/-- A call sequence that changes the colour model of an enabled layer: the video
layer is enabled on its default RGB format, then given the format YUYV. -/
def stale_rgb_ops : List layer_op := [.enable 0, .set_fmt 0 DRM_FORMAT_YUYV]

/-- A call sequence in which the video layer takes the format YUYV before it is
enabled, and the graphics layer changes format while enabled. -/
def fresh_rgb_ops : List layer_op :=
  [.set_fmt 0 DRM_FORMAT_YUYV, .enable 0, .enable 1, .set_fmt 1 DRM_FORMAT_RGBA8888]

/-! ## Projections of the state updates -/

@[simp] theorem writel_layers (s : xilinx_drm_dp_sub) (b : reg_bank) (o v : Nat) :
    (s.writel b o v).layers = s.layers := by
  cases b <;> rfl

@[simp] theorem writel_io_log (s : xilinx_drm_dp_sub) (b : reg_bank) (o v : Nat) :
    (s.writel b o v).io_log = s.io_log ++ [⟨b, o, v % 2 ^ 32⟩] := by
  cases b <;> rfl

@[simp] theorem writel_vblank_fn (s : xilinx_drm_dp_sub) (b : reg_bank) (o v : Nat) :
    (s.writel b o v).vblank_fn = s.vblank_fn := by
  cases b <;> rfl

@[simp] theorem writel_vblank_data (s : xilinx_drm_dp_sub) (b : reg_bank) (o v : Nat) :
    (s.writel b o v).vblank_data = s.vblank_data := by
  cases b <;> rfl

@[simp] theorem writel_blend_blend (s : xilinx_drm_dp_sub) (o v : Nat) :
    (s.writel .blend o v).blend = xilinx_drm_writel s.blend o v := rfl

@[simp] theorem writel_blend_av_buf (s : xilinx_drm_dp_sub) (o v : Nat) :
    (s.writel .blend o v).av_buf = s.av_buf := rfl

@[simp] theorem writel_blend_aud (s : xilinx_drm_dp_sub) (o v : Nat) :
    (s.writel .blend o v).aud = s.aud := rfl

@[simp] theorem writel_av_buf_av_buf (s : xilinx_drm_dp_sub) (o v : Nat) :
    (s.writel .av_buf o v).av_buf = xilinx_drm_writel s.av_buf o v := rfl

@[simp] theorem writel_av_buf_blend (s : xilinx_drm_dp_sub) (o v : Nat) :
    (s.writel .av_buf o v).blend = s.blend := rfl

@[simp] theorem writel_av_buf_aud (s : xilinx_drm_dp_sub) (o v : Nat) :
    (s.writel .av_buf o v).aud = s.aud := rfl

@[simp] theorem set_layer_layers (s : xilinx_drm_dp_sub) (i j : Fin 2)
    (l : xilinx_drm_dp_sub_layer) :
    (s.set_layer i l).layers j = if j = i then l else s.layers j := rfl

@[simp] theorem set_layer_blend (s : xilinx_drm_dp_sub) (i : Fin 2)
    (l : xilinx_drm_dp_sub_layer) : (s.set_layer i l).blend = s.blend := rfl

@[simp] theorem set_layer_av_buf (s : xilinx_drm_dp_sub) (i : Fin 2)
    (l : xilinx_drm_dp_sub_layer) : (s.set_layer i l).av_buf = s.av_buf := rfl

@[simp] theorem set_layer_aud (s : xilinx_drm_dp_sub) (i : Fin 2)
    (l : xilinx_drm_dp_sub_layer) : (s.set_layer i l).aud = s.aud := rfl

@[simp] theorem set_layer_io_log (s : xilinx_drm_dp_sub) (i : Fin 2)
    (l : xilinx_drm_dp_sub_layer) : (s.set_layer i l).io_log = s.io_log := rfl

@[simp] theorem set_layer_vblank_fn (s : xilinx_drm_dp_sub) (i : Fin 2)
    (l : xilinx_drm_dp_sub_layer) : (s.set_layer i l).vblank_fn = s.vblank_fn := rfl

@[simp] theorem set_layer_vblank_data (s : xilinx_drm_dp_sub) (i : Fin 2)
    (l : xilinx_drm_dp_sub_layer) : (s.set_layer i l).vblank_data = s.vblank_data := rfl

theorem writel_apply (base : iomem) (o v p : Nat) :
    xilinx_drm_writel base o v p = if p = o then v % 2 ^ 32 else base p := rfl

/-- In a probed layout the `other` of a layer is the other index. -/
theorem probed_other_ne (s : xilinx_drm_dp_sub) (hl : probed_layout s) (i : Fin 2) :
    (s.layers i).other ≠ i ∧ (s.layers (s.layers i).other).other = i ∧
    (s.layers (s.layers i).other).offset ≠ (s.layers i).offset := by
  obtain ⟨_, h1, h2, _, h4, h5⟩ := hl
  fin_cases i <;> simp_all

/-- The control word fits a register. -/
theorem control_word_lt (fmt : xilinx_drm_dp_sub_fmt) (bypass : Bool) :
    control_word fmt bypass < 4294967296 := by
  cases hr : fmt.rgb <;> cases bypass <;> simp [control_word, hr, BIT]

@[simp] theorem control_word_mod (fmt : xilinx_drm_dp_sub_fmt) (bypass : Bool) :
    control_word fmt bypass % 4294967296 = control_word fmt bypass :=
  Nat.mod_eq_of_lt (control_word_lt fmt bypass)

/-- The bits of the control word: RGB is bit 1, EN is bit 0, BYPASS is bit 8. -/
theorem control_word_bits (fmt : xilinx_drm_dp_sub_fmt) (bypass : Bool) :
    (control_word fmt bypass).testBit 1 = fmt.rgb ∧
    (control_word fmt bypass).testBit 0 = !bypass ∧
    (control_word fmt bypass).testBit 8 = bypass := by
  cases hr : fmt.rgb <;> cases bypass <;> simp [control_word, hr, BIT] <;> decide

/-- The blender enable writes the control word of the layer to its control register. -/
theorem blend_layer_enable_eq (s : xilinx_drm_dp_sub) (layer : Fin 2) (bypass : Bool) :
    xilinx_drm_dp_sub_blend_layer_enable s layer bypass =
      s.writel .blend (control_reg (s.layers layer)) (control_word (s.layers layer).fmt bypass) := by
  cases bypass <;> rfl

/-- The blender disable writes zero to the control register of the layer. -/
theorem blend_layer_disable_eq (s : xilinx_drm_dp_sub) (layer : Fin 2) :
    xilinx_drm_dp_sub_blend_layer_disable s layer =
      s.writel .blend (control_reg (s.layers layer)) 0 := rfl

/-- The probe of the concrete device tree succeeds and yields `dp_sub0`. -/
theorem probe_gfx_primary :
    xilinx_drm_dp_sub_probe true (.ok zero_window) (.ok zero_window) (.ok zero_window)
      node_gfx_primary "" = .ok dp_sub0 := by
  rfl

/-! ## The enable/disable state machine -/

/-- C1: in a probed layout, enabling a layer whose sibling is enabled sets the layer's
`enabled`, leaves the sibling enabled, and issues, after the buffer-route write, a
write of each layer's own control word (RGB bit of its descriptor, EN bit, no BYPASS
bit) to that layer's blend-control register `0x18 + offset`; both registers hold
these words afterwards and both layers are `EnabledBlend`. -/
theorem layer_enable_sibling_enabled (s : xilinx_drm_dp_sub) (layer : Fin 2)
    (hl : probed_layout s) (hen : (s.layers (s.layers layer).other).enabled = true) :
    let l := s.layers layer
    let o := s.layers l.other
    let s1 := xilinx_drm_dp_sub_layer_enable s layer
    (s1.layers layer).enabled = true ∧ (s1.layers l.other).enabled = true ∧
    (∃ v, s1.io_log = s.io_log ++
      [⟨.av_buf, 0x70, v⟩,
       ⟨.blend, 0x18 + l.offset, control_word l.fmt false⟩,
       ⟨.blend, 0x18 + o.offset, control_word o.fmt false⟩]) ∧
    s1.blend (0x18 + l.offset) = control_word l.fmt false ∧
    s1.blend (0x18 + o.offset) = control_word o.fmt false ∧
    (∀ f : xilinx_drm_dp_sub_fmt, control_word f false = (if f.rgb then 2 else 0) ||| 1 ∧
      (control_word f false).testBit 1 = f.rgb ∧ (control_word f false).testBit 0 = true ∧
      (control_word f false).testBit 8 = false) ∧
    s1.state_of layer = .EnabledBlend ∧ s1.state_of l.other = .EnabledBlend := by
  intro l o s1
  obtain ⟨hne, hoo, hoff⟩ := probed_other_ne s hl layer
  have hreg : control_reg (s.layers (s.layers layer).other) ≠ control_reg (s.layers layer) := by
    simp [control_reg, hoff]
  have hbits : ∀ f : xilinx_drm_dp_sub_fmt, control_word f false = (if f.rgb then 2 else 0) ||| 1 ∧
      (control_word f false).testBit 1 = f.rgb ∧ (control_word f false).testBit 0 = true ∧
      (control_word f false).testBit 8 = false := by
    intro f
    have h := control_word_bits f false
    exact ⟨by simp [control_word, BIT], h.1, by simpa using h.2.1, h.2.2⟩
  simp only [control_reg] at hreg
  refine ⟨?_, ?_, ?_, ?_, ?_, hbits, ?_, ?_⟩ <;>
    simp [s1, l, o, xilinx_drm_dp_sub_layer_enable, blend_layer_enable_eq,
      xilinx_drm_dp_sub_av_buf_enable_vid, hen, hne, writel_apply, hreg, hreg.symm,
      XILINX_DP_SUB_AV_BUF_OUTPUT, xilinx_drm_dp_sub.state_of, hoo, control_reg]

/-- Instance of C1: the video layer is enabled while the graphics layer is on; both
control registers (0x18 and 0x1c) then hold RGB|EN = 3. -/
theorem layer_enable_sibling_enabled_witness :
    probed_layout dp_sub_gfx_on ∧
    (dp_sub_gfx_on.layers (dp_sub_gfx_on.layers 0).other).enabled = true ∧
    (xilinx_drm_dp_sub_layer_enable dp_sub_gfx_on 0).blend 0x18 = 3 ∧
    (xilinx_drm_dp_sub_layer_enable dp_sub_gfx_on 0).blend 0x1c = 3 ∧
    (xilinx_drm_dp_sub_layer_enable dp_sub_gfx_on 0).state_of 1 = .EnabledBlend :=
  have h := layer_enable_sibling_enabled dp_sub_gfx_on 0 (by decide) (by decide)
  ⟨by decide, by decide, h.2.2.2.1, h.2.2.2.2.1, h.2.2.2.2.2.2.2⟩

/-- C2: in a probed layout, enabling a layer whose sibling is disabled sets the
layer's `enabled`, leaves the sibling disabled, and issues, after the buffer-route
write, exactly one blend write: the layer's control word with the RGB bit of its
descriptor and the BYPASS bit (EN clear) to the layer's own control register. The
sibling's control register is not written and keeps its value; the layer is
`EnabledBypass` and the sibling `Disabled`. -/
theorem layer_enable_sibling_disabled (s : xilinx_drm_dp_sub) (layer : Fin 2)
    (hl : probed_layout s) (hdis : (s.layers (s.layers layer).other).enabled = false) :
    let l := s.layers layer
    let o := s.layers l.other
    let s1 := xilinx_drm_dp_sub_layer_enable s layer
    (s1.layers layer).enabled = true ∧ (s1.layers l.other).enabled = false ∧
    (∃ v, s1.io_log = s.io_log ++
      [⟨.av_buf, 0x70, v⟩, ⟨.blend, 0x18 + l.offset, control_word l.fmt true⟩]) ∧
    (∀ w ∈ s1.io_log.drop s.io_log.length, ¬ (w.bank = .blend ∧ w.offset = 0x18 + o.offset)) ∧
    s1.blend (0x18 + l.offset) = control_word l.fmt true ∧
    s1.blend (0x18 + o.offset) = s.blend (0x18 + o.offset) ∧
    (control_word l.fmt true = (if l.fmt.rgb then 2 else 0) ||| 0x100 ∧
      (control_word l.fmt true).testBit 1 = l.fmt.rgb ∧
      (control_word l.fmt true).testBit 8 = true ∧
      (control_word l.fmt true).testBit 0 = false) ∧
    s1.state_of layer = .EnabledBypass ∧ s1.state_of l.other = .Disabled := by
  intro l o s1
  obtain ⟨hne, hoo, hoff⟩ := probed_other_ne s hl layer
  have hreg : control_reg (s.layers (s.layers layer).other) ≠ control_reg (s.layers layer) := by
    simp [control_reg, hoff]
  have hbits := control_word_bits l.fmt true
  simp only [control_reg] at hreg
  refine ⟨?_, ?_, ?_, ?_, ?_, ?_,
      ⟨by simp [control_word, BIT], hbits.1, hbits.2.2, by simpa using hbits.2.1⟩, ?_, ?_⟩ <;>
    simp [s1, l, o, xilinx_drm_dp_sub_layer_enable, blend_layer_enable_eq,
      xilinx_drm_dp_sub_av_buf_enable_vid, hdis, hne, writel_apply, hreg, hreg.symm,
      XILINX_DP_SUB_AV_BUF_OUTPUT, xilinx_drm_dp_sub.state_of, hoo, control_reg, hoff]

/-- Instance of C2: the graphics layer is enabled from the probed state, where the
video layer is disabled; its control register 0x1c holds RGB|BYPASS = 0x102. -/
theorem layer_enable_sibling_disabled_witness :
    probed_layout dp_sub0 ∧
    (dp_sub0.layers (dp_sub0.layers 1).other).enabled = false ∧
    (xilinx_drm_dp_sub_layer_enable dp_sub0 1).blend 0x1c = 0x102 ∧
    (xilinx_drm_dp_sub_layer_enable dp_sub0 1).state_of 1 = .EnabledBypass :=
  have h := layer_enable_sibling_disabled dp_sub0 1 (by decide) (by decide)
  ⟨by decide, by decide, h.2.2.2.2.1, h.2.2.2.2.2.2.2.1⟩

/-- C3: in a probed layout, disabling a layer clears its `enabled` and writes 0 to its
blend-control register. If the sibling is enabled, the sibling's control register is
then rewritten with the sibling's RGB bit and the BYPASS bit (EN clear) and the
sibling is `EnabledBypass`; if the sibling is disabled, its register is not written
and both layers are `Disabled`. -/
theorem layer_disable_effect (s : xilinx_drm_dp_sub) (layer : Fin 2) (hl : probed_layout s) :
    let l := s.layers layer
    let o := s.layers l.other
    let s1 := xilinx_drm_dp_sub_layer_disable s layer
    (s1.layers layer).enabled = false ∧ s1.blend (0x18 + l.offset) = 0 ∧
    s1.state_of layer = .Disabled ∧
    (o.enabled = true →
      (∃ v, s1.io_log = s.io_log ++
        [⟨.av_buf, 0x70, v⟩, ⟨.blend, 0x18 + l.offset, 0⟩,
         ⟨.blend, 0x18 + o.offset, control_word o.fmt true⟩]) ∧
      s1.blend (0x18 + o.offset) = control_word o.fmt true ∧
      (control_word o.fmt true = (if o.fmt.rgb then 2 else 0) ||| 0x100 ∧
        (control_word o.fmt true).testBit 1 = o.fmt.rgb ∧
        (control_word o.fmt true).testBit 8 = true ∧
        (control_word o.fmt true).testBit 0 = false) ∧
      (s1.layers l.other).enabled = true ∧ s1.state_of l.other = .EnabledBypass) ∧
    (o.enabled = false →
      (∃ v, s1.io_log = s.io_log ++ [⟨.av_buf, 0x70, v⟩, ⟨.blend, 0x18 + l.offset, 0⟩]) ∧
      (∀ w ∈ s1.io_log.drop s.io_log.length,
        ¬ (w.bank = .blend ∧ w.offset = 0x18 + o.offset)) ∧
      s1.blend (0x18 + o.offset) = s.blend (0x18 + o.offset) ∧
      (s1.layers l.other).enabled = false ∧ s1.state_of l.other = .Disabled) := by
  intro l o s1
  obtain ⟨hne, hoo, hoff⟩ := probed_other_ne s hl layer
  have hreg : control_reg (s.layers (s.layers layer).other) ≠ control_reg (s.layers layer) := by
    simp [control_reg, hoff]
  have hbits := control_word_bits o.fmt true
  simp only [control_reg] at hreg
  refine ⟨?_, ?_, ?_, ?_, ?_⟩
  · simp [s1, xilinx_drm_dp_sub_layer_disable]
  · by_cases hen : (s.layers (s.layers layer).other).enabled = true <;>
      simp [s1, l, xilinx_drm_dp_sub_layer_disable, blend_layer_enable_eq,
        blend_layer_disable_eq, xilinx_drm_dp_sub_av_buf_disable_vid, hen, writel_apply,
        hreg, hreg.symm, control_reg]
  · simp [s1, xilinx_drm_dp_sub_layer_disable, xilinx_drm_dp_sub.state_of]
  · intro hen
    refine ⟨?_, ?_, ⟨by simp [control_word, BIT], hbits.1, hbits.2.2, by simpa using hbits.2.1⟩,
      ?_, ?_⟩ <;>
    simp [s1, l, o, xilinx_drm_dp_sub_layer_disable, blend_layer_enable_eq,
      blend_layer_disable_eq, xilinx_drm_dp_sub_av_buf_disable_vid, (show (s.layers
      (s.layers layer).other).enabled = true from hen), hne, writel_apply, hreg, hreg.symm,
      XILINX_DP_SUB_AV_BUF_OUTPUT, xilinx_drm_dp_sub.state_of, hoo, control_reg]
  · intro hdis
    refine ⟨?_, ?_, ?_, ?_, ?_⟩ <;>
    simp [s1, l, o, xilinx_drm_dp_sub_layer_disable, blend_layer_enable_eq,
      blend_layer_disable_eq, xilinx_drm_dp_sub_av_buf_disable_vid, (show (s.layers
      (s.layers layer).other).enabled = false from hdis), hne, writel_apply, hreg, hreg.symm,
      XILINX_DP_SUB_AV_BUF_OUTPUT, xilinx_drm_dp_sub.state_of, hoo, control_reg, hoff]

/-- Instance of C3: with both layers on, disabling the video layer zeroes register
0x18 and puts RGB|BYPASS = 0x102 into the graphics control register 0x1c. -/
theorem layer_disable_effect_witness :
    probed_layout (xilinx_drm_dp_sub_layer_enable dp_sub_gfx_on 0) ∧
    (xilinx_drm_dp_sub_layer_disable (xilinx_drm_dp_sub_layer_enable dp_sub_gfx_on 0) 0).blend
      0x18 = 0 ∧
    (xilinx_drm_dp_sub_layer_disable (xilinx_drm_dp_sub_layer_enable dp_sub_gfx_on 0) 0).blend
      0x1c = 0x102 :=
  have h := layer_disable_effect (xilinx_drm_dp_sub_layer_enable dp_sub_gfx_on 0) 0 (by decide)
  ⟨by decide, h.2.1, (h.2.2.2.1 (by decide)).2.1⟩

/-! ## Size check -/

/-- C5: `check_size` returns `-EINVAL` exactly when the sibling is enabled and its
stored size differs from the requested one, and 0 otherwise (so always 0 when the
sibling is disabled, whatever the stored sizes and whether or not the layer is
enabled). On success the layer's stored size is the requested one and every other
field of the layer, the other layer, the registers, the write log and the vblank
slot are as before. -/
theorem layer_check_size_spec (s : xilinx_drm_dp_sub) (layer : Fin 2) (width height : Nat) :
    let o := s.layers (s.layers layer).other
    let r := xilinx_drm_dp_sub_layer_check_size s layer width height
    (r.1 = -EINVAL ↔ (o.enabled = true ∧ (o.w, o.h) ≠ (width, height))) ∧
    (r.1 ≠ -EINVAL ↔ r.1 = 0) ∧
    (o.enabled = false → r.1 = 0) ∧
    (r.1 = 0 →
      r.2.layers layer = { s.layers layer with w := width, h := height } ∧
      (∀ j, j ≠ layer → r.2.layers j = s.layers j) ∧
      r.2.blend = s.blend ∧ r.2.av_buf = s.av_buf ∧ r.2.aud = s.aud ∧
      r.2.io_log = s.io_log ∧ r.2.vblank_fn = s.vblank_fn ∧
      r.2.vblank_data = s.vblank_data) := by
  intro o r
  by_cases hc : (o.enabled && (o.w != width || o.h != height)) = true
  · have hr : r = (-EINVAL, s) := by
      simp only [r, xilinx_drm_dp_sub_layer_check_size]
      rw [if_pos hc]
    have hc2 : o.enabled = true ∧ (¬ o.w = width ∨ ¬ o.h = height) := by
      simpa using hc
    have hc3 : o.w = width → ¬ o.h = height := fun h1 =>
      hc2.2.elim (fun h => absurd h1 h) id
    simpa [hr, EINVAL, hc2.1] using hc3
  · have hr : r = (0, (s.set_layer layer { s.layers layer with w := width }).set_layer layer
        { s.layers layer with w := width, h := height }) := by
      simp only [r, xilinx_drm_dp_sub_layer_check_size]
      rw [if_neg hc]
      simp
    have hc2 : o.enabled = true → o.w = width ∧ o.h = height := by
      simpa using hc
    simp only [hr]
    refine ⟨?_, ?_, ?_, ?_⟩
    · simp only [EINVAL]
      constructor
      · intro h; exact absurd h (by decide)
      · rintro ⟨he, hne⟩
        exact absurd (Prod.ext (hc2 he).1 (hc2 he).2) hne
    · simp [EINVAL]
    · intro _; trivial
    · intro _
      refine ⟨by simp, ?_, rfl, rfl, rfl, rfl, rfl, rfl⟩
      intro j hj
      simp [hj]

/-- Instances of C5 at concrete states: with the graphics layer enabled at 1920x1080
the video layer is refused 1280x720 and granted 1920x1080; from the probed state
(sibling disabled) any size is granted. -/
theorem layer_check_size_spec_witness :
    (xilinx_drm_dp_sub_layer_check_size dp_sub_gfx_on 0 1280 720).1 = -EINVAL ∧
    (xilinx_drm_dp_sub_layer_check_size dp_sub_gfx_on 0 1920 1080).1 = 0 ∧
    (xilinx_drm_dp_sub_layer_check_size dp_sub0 0 1280 720).1 = 0 :=
  ⟨(layer_check_size_spec dp_sub_gfx_on 0 1280 720).1.2 (by decide),
   by decide,
   (layer_check_size_spec dp_sub0 0 1280 720).2.2.1 (by decide)⟩

/-- C6: when the sibling is enabled with a stored size different from the requested
one, `check_size` returns `-EINVAL` and the state after the call is the state
before it: the layer's stored width and height, the sibling, every register and
the write log are untouched. -/
theorem layer_check_size_reject (s : xilinx_drm_dp_sub) (layer : Fin 2) (w2 h2 : Nat)
    (hen : (s.layers (s.layers layer).other).enabled = true)
    (hne : ((s.layers (s.layers layer).other).w, (s.layers (s.layers layer).other).h)
      ≠ (w2, h2)) :
    (xilinx_drm_dp_sub_layer_check_size s layer w2 h2).1 = -EINVAL ∧
    (xilinx_drm_dp_sub_layer_check_size s layer w2 h2).2 = s := by
  have hc : ((s.layers (s.layers layer).other).enabled &&
      ((s.layers (s.layers layer).other).w != w2 ||
       (s.layers (s.layers layer).other).h != h2)) = true := by
    have : ¬ (s.layers (s.layers layer).other).w = w2 ∨
        ¬ (s.layers (s.layers layer).other).h = h2 := by
      by_cases h1 : (s.layers (s.layers layer).other).w = w2
      · exact Or.inr (fun h2e => hne (Prod.ext h1 h2e))
      · exact Or.inl h1
    simp [hen, this]
  simp only [xilinx_drm_dp_sub_layer_check_size]
  rw [if_pos hc]
  exact ⟨rfl, rfl⟩

/-- Instance of C6: graphics enabled at 1920x1080, video asks for 1280x720. -/
theorem layer_check_size_reject_witness :
    (dp_sub_gfx_on.layers (dp_sub_gfx_on.layers 0).other).enabled = true ∧
    (xilinx_drm_dp_sub_layer_check_size dp_sub_gfx_on 0 1280 720).1 = -EINVAL ∧
    (xilinx_drm_dp_sub_layer_check_size dp_sub_gfx_on 0 1280 720).2 = dp_sub_gfx_on :=
  ⟨by decide, layer_check_size_reject dp_sub_gfx_on 0 1280 720 (by decide) (by decide)⟩

/-! ## Format negotiation -/

/-- The table scan over a whole table finds nothing exactly when no entry has the id. -/
theorem map_fmt_eq_none_iff (fmts : List xilinx_drm_dp_sub_fmt) (drm_fmt : Nat) :
    xilinx_drm_dp_sub_map_fmt fmts fmts.length drm_fmt = none ↔
      ∀ e ∈ fmts, e.drm_fmt ≠ drm_fmt := by
  induction fmts with
  | nil => simp [xilinx_drm_dp_sub_map_fmt]
  | cons f rest ih =>
    by_cases hf : f.drm_fmt = drm_fmt
    · simp [xilinx_drm_dp_sub_map_fmt, hf]
    · simp [xilinx_drm_dp_sub_map_fmt, hf, ih]

/-- A descriptor found by the table scan is an entry of the table with the id asked for. -/
theorem map_fmt_some_mem (fmts : List xilinx_drm_dp_sub_fmt) (drm_fmt : Nat)
    (f : xilinx_drm_dp_sub_fmt)
    (h : xilinx_drm_dp_sub_map_fmt fmts fmts.length drm_fmt = some f) :
    f ∈ fmts ∧ f.drm_fmt = drm_fmt := by
  induction fmts with
  | nil => simp [xilinx_drm_dp_sub_map_fmt] at h
  | cons g rest ih =>
    by_cases hg : g.drm_fmt = drm_fmt
    · simp [xilinx_drm_dp_sub_map_fmt, hg] at h
      subst h
      exact ⟨List.mem_cons_self _ _, hg⟩
    · simp [xilinx_drm_dp_sub_map_fmt, hg] at h
      exact ⟨List.mem_cons_of_mem _ (ih h).1, (ih h).2⟩

/-- The successful branch of `set_fmt`: one read-modify-write of the input-format
register, then the descriptor is stored. -/
theorem layer_set_fmt_of_some (s : xilinx_drm_dp_sub) (layer : Fin 2) (drm_fmt : Nat)
    (f : xilinx_drm_dp_sub_fmt)
    (h : xilinx_drm_dp_sub_map_fmt (catalog (s.layers layer).id)
      (catalog (s.layers layer).id).length drm_fmt = some f) :
    xilinx_drm_dp_sub_layer_set_fmt s layer drm_fmt =
      (0, (s.writel .av_buf 0
            ((xilinx_drm_readl s.av_buf 0 &&& not32 (own_mask (s.layers layer).id))
              ||| f.dp_sub_fmt)).set_layer layer { s.layers layer with fmt := f }) := by
  cases hid : (s.layers layer).id <;> rw [hid] at h <;>
    simp only [catalog] at h <;>
    simp [xilinx_drm_dp_sub_layer_set_fmt, hid, h, xilinx_drm_dp_sub_av_buf_get_fmt,
      xilinx_drm_dp_sub_av_buf_set_fmt, XILINX_DP_SUB_AV_BUF_FORMAT, own_mask,
      XILINX_DP_SUB_AV_BUF_FORMAT_NL_VID_MASK, XILINX_DP_SUB_AV_BUF_FORMAT_NL_GFX_MASK]

/-- The failing branch of `set_fmt`: `-EINVAL` and the state as it was. -/
theorem layer_set_fmt_of_none (s : xilinx_drm_dp_sub) (layer : Fin 2) (drm_fmt : Nat)
    (h : xilinx_drm_dp_sub_map_fmt (catalog (s.layers layer).id)
      (catalog (s.layers layer).id).length drm_fmt = none) :
    xilinx_drm_dp_sub_layer_set_fmt s layer drm_fmt = (-EINVAL, s) := by
  cases hid : (s.layers layer).id <;> rw [hid] at h <;>
    simp only [catalog] at h <;>
    simp [xilinx_drm_dp_sub_layer_set_fmt, hid, h]

/-- Read-modify-write of a bitfield: the field itself becomes the new code. -/
theorem rmw_own_field (r c m nm : Nat) (hm : nm &&& m = 0) (hc : c &&& m = c) :
    ((r &&& nm) ||| c) &&& m = c := by
  rw [Nat.and_distrib_right, Nat.and_assoc, hm, hc, Nat.and_zero, Nat.zero_or]

/-- Read-modify-write of a bitfield: bits under a mask `k` disjoint from the field
keep their prior value. -/
theorem rmw_other_field (r c k nm : Nat) (hk : nm &&& k = k) (hc : c &&& k = 0) :
    ((r &&& nm) ||| c) &&& k = r &&& k := by
  rw [Nat.and_distrib_right, Nat.and_assoc, hk, hc, Nat.or_zero]

/-- Every device code of a catalog lies inside the bitfield of its kind, outside the
bitfield of the other kind, and outside the complement of both. -/
theorem catalog_codes (t : xilinx_drm_dp_sub_layer_type) :
    ∀ f ∈ catalog t, f.dp_sub_fmt < 2 ^ 32 ∧ f.dp_sub_fmt &&& own_mask t = f.dp_sub_fmt ∧
      (∀ u, u ≠ t → f.dp_sub_fmt &&& own_mask u = 0) ∧
      f.dp_sub_fmt &&& not32 (0x1f ||| 0xf00) = 0 := by
  cases t <;> decide

/-- The masks: the complement of a field misses the field, and contains the other
field and the complement of both. -/
theorem own_mask_facts (t : xilinx_drm_dp_sub_layer_type) :
    not32 (own_mask t) &&& own_mask t = 0 ∧
    (∀ u, u ≠ t → not32 (own_mask t) &&& own_mask u = own_mask u) ∧
    not32 (own_mask t) &&& not32 (0x1f ||| 0xf00) = not32 (0x1f ||| 0xf00) := by
  cases t <;> decide

/-- C7: in a probed layout, for an id supported by the layer's catalog, `set_fmt`
succeeds with the descriptor `f` the lookup finds and issues exactly one register
write: the input-format register receives `(r AND NOT own_mask) OR f.dp_sub_fmt`,
`r` being its prior value and `own_mask` 0x1f for the video layer, 0xf00 for the
graphics layer. Afterwards the layer's own bitfield is the new code, the sibling's
bitfield and the bits outside both fields are as in `r`, and the sibling layer
(its descriptor included) is unchanged. -/
theorem layer_set_fmt_frame (s : xilinx_drm_dp_sub) (layer : Fin 2) (drm_fmt : Nat)
    (hl : probed_layout s)
    (hsup : ∃ e ∈ catalog (s.layers layer).id, e.drm_fmt = drm_fmt) :
    let l := s.layers layer
    let r := xilinx_drm_readl s.av_buf XILINX_DP_SUB_AV_BUF_FORMAT
    let res := xilinx_drm_dp_sub_layer_set_fmt s layer drm_fmt
    let v := res.2.av_buf XILINX_DP_SUB_AV_BUF_FORMAT
    own_mask (s.layers 0).id = 0x1f ∧ own_mask (s.layers 1).id = 0xf00 ∧
    ∃ f, xilinx_drm_dp_sub_map_fmt (catalog l.id) (catalog l.id).length drm_fmt = some f ∧
      f ∈ catalog l.id ∧ f.drm_fmt = drm_fmt ∧ res.1 = 0 ∧
      res.2.io_log = s.io_log ++
        [⟨.av_buf, XILINX_DP_SUB_AV_BUF_FORMAT, (r &&& not32 (own_mask l.id)) ||| f.dp_sub_fmt⟩] ∧
      v = (r &&& not32 (own_mask l.id)) ||| f.dp_sub_fmt ∧
      v &&& own_mask l.id = f.dp_sub_fmt ∧
      v &&& own_mask (s.layers l.other).id = r &&& own_mask (s.layers l.other).id ∧
      v &&& not32 (0x1f ||| 0xf00) = r &&& not32 (0x1f ||| 0xf00) ∧
      (res.2.layers layer).fmt = f ∧
      res.2.layers l.other = s.layers l.other := by
  intro l r res v
  obtain ⟨hne, _, _⟩ := probed_other_ne s hl layer
  have hid : (s.layers l.other).id ≠ l.id := by
    obtain ⟨h0, _, h2, h3, _, h5⟩ := hl
    simp only [l]
    fin_cases layer <;> simp_all
  have hids : own_mask (s.layers 0).id = 0x1f ∧ own_mask (s.layers 1).id = 0xf00 := by
    rw [hl.1, hl.2.2.2.1]; exact ⟨rfl, rfl⟩
  cases hm : xilinx_drm_dp_sub_map_fmt (catalog l.id) (catalog l.id).length drm_fmt with
  | none =>
    obtain ⟨e, he, hed⟩ := hsup
    exact absurd hed ((map_fmt_eq_none_iff _ _).1 hm e he)
  | some f =>
    obtain ⟨hmem, hfid⟩ := map_fmt_some_mem _ _ _ hm
    obtain ⟨hlt, hown, hoth, hout⟩ := catalog_codes l.id f hmem
    obtain ⟨m1, m2, m3⟩ := own_mask_facts l.id
    have hr : r < 2 ^ 32 := Nat.mod_lt _ (by norm_num)
    have hv : (r &&& not32 (own_mask l.id)) ||| f.dp_sub_fmt < 2 ^ 32 :=
      Nat.or_lt_two_pow (Nat.lt_of_le_of_lt Nat.and_le_left hr) hlt
    have hres : res = (0, (s.writel .av_buf 0
        ((r &&& not32 (own_mask l.id)) ||| f.dp_sub_fmt)).set_layer layer
          { s.layers layer with fmt := f }) := layer_set_fmt_of_some s layer drm_fmt f hm
    have hvv : v = (r &&& not32 (own_mask l.id)) ||| f.dp_sub_fmt := by
      simp only [v, hres, XILINX_DP_SUB_AV_BUF_FORMAT, set_layer_av_buf, writel_av_buf_av_buf,
        writel_apply, if_true]
      exact Nat.mod_eq_of_lt hv
    refine ⟨hids.1, hids.2, f, rfl, hmem, hfid, by rw [hres], ?_, hvv, ?_, ?_, ?_, ?_, ?_⟩
    · rw [hres]
      simp only [set_layer_io_log, writel_io_log, XILINX_DP_SUB_AV_BUF_FORMAT,
        Nat.mod_eq_of_lt hv]
    · rw [hvv]; exact rmw_own_field _ _ _ _ m1 hown
    · rw [hvv]; exact rmw_other_field _ _ _ _ (m2 _ hid) (hoth _ hid)
    · rw [hvv]; exact rmw_other_field _ _ _ _ m3 hout
    · rw [hres]; simp
    · rw [hres]; simp [l, hne]

/-- Instance of C7: with the graphics field already set to RGBA8888 (code 0x100), the
video layer takes BGR888 (code 10): the register becomes 0x10a, video field 10,
graphics field still 0x100. -/
theorem layer_set_fmt_frame_witness :
    probed_layout dp_sub_gfx_rgba ∧
    (∃ e ∈ catalog (dp_sub_gfx_rgba.layers 0).id, e.drm_fmt = DRM_FORMAT_BGR888) ∧
    own_mask (dp_sub_gfx_rgba.layers 0).id = 0x1f ∧
    dp_sub_gfx_rgba.av_buf 0 = 0x100 ∧
    (xilinx_drm_dp_sub_layer_set_fmt dp_sub_gfx_rgba 0 DRM_FORMAT_BGR888).2.av_buf 0 = 0x10a :=
  ⟨by decide, by decide,
   (layer_set_fmt_frame dp_sub_gfx_rgba 0 DRM_FORMAT_BGR888 (by decide) (by decide)).1,
   by decide, by decide⟩

/-- C8: `set_fmt` returns `-EINVAL` exactly when the catalog of the layer's own kind
has no entry with the id (otherwise it returns 0); when it returns `-EINVAL` the
state after the call is the state before it, so the descriptor is the previous one
and no register write is logged. RGB565, an entry of the graphics catalog, is
rejected for a video layer. -/
theorem layer_set_fmt_unsupported (s : xilinx_drm_dp_sub) (layer : Fin 2) (drm_fmt : Nat) :
    let res := xilinx_drm_dp_sub_layer_set_fmt s layer drm_fmt
    (res.1 = -EINVAL ↔ ∀ e ∈ catalog (s.layers layer).id, e.drm_fmt ≠ drm_fmt) ∧
    (res.1 ≠ -EINVAL ↔ res.1 = 0) ∧
    (res.1 = -EINVAL → res.2 = s) ∧
    (∃ e ∈ catalog XILINX_DRM_DP_SUB_LAYER_GFX, e.drm_fmt = DRM_FORMAT_RGB565) ∧
    ((s.layers layer).id = XILINX_DRM_DP_SUB_LAYER_VID →
      xilinx_drm_dp_sub_layer_set_fmt s layer DRM_FORMAT_RGB565 = (-EINVAL, s)) := by
  intro res
  have hlast : (s.layers layer).id = XILINX_DRM_DP_SUB_LAYER_VID →
      xilinx_drm_dp_sub_layer_set_fmt s layer DRM_FORMAT_RGB565 = (-EINVAL, s) := by
    intro hid
    apply layer_set_fmt_of_none
    rw [hid]
    decide
  cases hm : xilinx_drm_dp_sub_map_fmt (catalog (s.layers layer).id)
      (catalog (s.layers layer).id).length drm_fmt with
  | none =>
    have hres : res = (-EINVAL, s) := layer_set_fmt_of_none s layer drm_fmt hm
    have hno := (map_fmt_eq_none_iff _ _).1 hm
    refine ⟨?_, ?_, ?_, by decide, hlast⟩
    · rw [hres]; exact ⟨fun _ => hno, fun _ => rfl⟩
    · rw [hres]; simp [EINVAL]
    · intro _; rw [hres]
  | some f =>
    have hres := layer_set_fmt_of_some s layer drm_fmt f hm
    obtain ⟨hmem, hfid⟩ := map_fmt_some_mem _ _ _ hm
    have h0 : res.1 = 0 := by simp only [res, hres]
    have hne : res.1 ≠ -EINVAL := by rw [h0]; decide
    refine ⟨?_, ?_, ?_, by decide, hlast⟩
    · exact ⟨fun h => absurd h hne, fun h => absurd hfid (h f hmem)⟩
    · exact ⟨fun _ => h0, fun _ => hne⟩
    · intro h; exact absurd h hne

/-- Instances of C8 at the probed state: the video layer rejects RGB565 and the state
is unchanged; the graphics layer accepts it. -/
theorem layer_set_fmt_unsupported_witness :
    (xilinx_drm_dp_sub_layer_set_fmt dp_sub0 0 DRM_FORMAT_RGB565).1 = -EINVAL ∧
    (xilinx_drm_dp_sub_layer_set_fmt dp_sub0 0 DRM_FORMAT_RGB565).2 = dp_sub0 ∧
    (xilinx_drm_dp_sub_layer_set_fmt dp_sub0 1 DRM_FORMAT_RGB565).1 = 0 :=
  have h := (layer_set_fmt_unsupported dp_sub0 0 DRM_FORMAT_RGB565).2.2.2.2 (by decide)
  ⟨by rw [h], by rw [h], by decide⟩

/-- C9: round trip. If `set_fmt` returns 0, `get_fmt` afterwards returns the id that
was set; if it returns an error, `get_fmt` afterwards returns what it returned
before the call. `set_fmt` returns 0 for every id of the layer's catalog, so the
first case occurs. -/
theorem layer_fmt_round_trip (s : xilinx_drm_dp_sub) (layer : Fin 2) (drm_fmt : Nat) :
    let res := xilinx_drm_dp_sub_layer_set_fmt s layer drm_fmt
    (res.1 = 0 → xilinx_drm_dp_sub_layer_get_fmt res.2 layer = drm_fmt) ∧
    (res.1 ≠ 0 →
      xilinx_drm_dp_sub_layer_get_fmt res.2 layer = xilinx_drm_dp_sub_layer_get_fmt s layer) ∧
    ((∃ e ∈ catalog (s.layers layer).id, e.drm_fmt = drm_fmt) → res.1 = 0) := by
  intro res
  cases hm : xilinx_drm_dp_sub_map_fmt (catalog (s.layers layer).id)
      (catalog (s.layers layer).id).length drm_fmt with
  | none =>
    have hres : res = (-EINVAL, s) := layer_set_fmt_of_none s layer drm_fmt hm
    have hno := (map_fmt_eq_none_iff _ _).1 hm
    refine ⟨?_, ?_, ?_⟩
    · rw [hres]; intro h; simp [EINVAL] at h
    · rw [hres]; intro _; rfl
    · rintro ⟨e, he, hed⟩; exact absurd hed (hno e he)
  | some f =>
    have hres := layer_set_fmt_of_some s layer drm_fmt f hm
    obtain ⟨_, hfid⟩ := map_fmt_some_mem _ _ _ hm
    have h0 : res.1 = 0 := by simp only [res, hres]
    refine ⟨?_, fun h => absurd h0 h, fun _ => h0⟩
    intro _
    simp only [res, hres, xilinx_drm_dp_sub_layer_get_fmt, set_layer_layers, if_true]
    exact hfid

/-- Instances of C9 at the probed state: the graphics layer takes RGBA8888 and
reports it; the video layer refuses RGB565 and still reports its previous format. -/
theorem layer_fmt_round_trip_witness :
    xilinx_drm_dp_sub_layer_get_fmt
      (xilinx_drm_dp_sub_layer_set_fmt dp_sub0 1 DRM_FORMAT_RGBA8888).2 1
      = DRM_FORMAT_RGBA8888 ∧
    xilinx_drm_dp_sub_layer_get_fmt
      (xilinx_drm_dp_sub_layer_set_fmt dp_sub0 0 DRM_FORMAT_RGB565).2 0
      = xilinx_drm_dp_sub_layer_get_fmt dp_sub0 0 :=
  ⟨(layer_fmt_round_trip dp_sub0 1 DRM_FORMAT_RGBA8888).1 (by decide),
   (layer_fmt_round_trip dp_sub0 0 DRM_FORMAT_RGB565).2.1 (by decide)⟩

/-! ## Acquire and release -/

/-- `layer_get` assigns nothing: the state after it is the state before it. -/
theorem layer_get_state (s : xilinx_drm_dp_sub) (primary : Bool) :
    (xilinx_drm_dp_sub_layer_get s primary).2 = s := by
  unfold xilinx_drm_dp_sub_layer_get
  split
  · rfl
  · split <;> rfl

/-- C10 (the code at the failing input): from the probed state with the graphics layer
primary, `layer_get(primary = true)` returns the graphics layer and leaves its
`avail` flag set, and a second `layer_get(primary = true)` issued immediately
afterwards returns the same layer again instead of `-ENODEV`. -/
theorem layer_get_twice_succeeds :
    (xilinx_drm_dp_sub_layer_get dp_sub0 true).1 = .ok 1 ∧
    (((xilinx_drm_dp_sub_layer_get dp_sub0 true).2).layers 1).avail = true ∧
    (xilinx_drm_dp_sub_layer_get (xilinx_drm_dp_sub_layer_get dp_sub0 true).2 true).1 = .ok 1 ∧
    (xilinx_drm_dp_sub_layer_get (xilinx_drm_dp_sub_layer_get dp_sub0 true).2 true).1
      ≠ .error (-ENODEV) := by
  have h2 : (xilinx_drm_dp_sub_layer_get (xilinx_drm_dp_sub_layer_get dp_sub0 true).2 true).1
      = .ok 1 := rfl
  refine ⟨rfl, by decide, h2, ?_⟩
  rw [h2]
  intro h
  cases h

/-! ## The equal-size property -/

/-- The layers after `enable`: only the `enabled` flag of the layer changes. -/
theorem layer_enable_layers (s : xilinx_drm_dp_sub) (layer j : Fin 2) :
    (xilinx_drm_dp_sub_layer_enable s layer).layers j =
      if j = layer then { s.layers layer with enabled := true } else s.layers j := by
  by_cases hen : (s.layers (s.layers layer).other).enabled = true <;>
    simp [xilinx_drm_dp_sub_layer_enable, blend_layer_enable_eq,
      xilinx_drm_dp_sub_av_buf_enable_vid, hen]

/-- The layers after `disable`: only the `enabled` flag of the layer changes. -/
theorem layer_disable_layers (s : xilinx_drm_dp_sub) (layer j : Fin 2) :
    (xilinx_drm_dp_sub_layer_disable s layer).layers j =
      if j = layer then { s.layers layer with enabled := false } else s.layers j := by
  by_cases hen : (s.layers (s.layers layer).other).enabled = true <;>
    simp [xilinx_drm_dp_sub_layer_disable, blend_layer_enable_eq, blend_layer_disable_eq,
      xilinx_drm_dp_sub_av_buf_disable_vid, hen]

/-- The layers after `set_fmt`: at most the descriptor of the layer changes. -/
theorem layer_set_fmt_layers (s : xilinx_drm_dp_sub) (layer j : Fin 2) (drm_fmt : Nat) :
    ∃ f, (xilinx_drm_dp_sub_layer_set_fmt s layer drm_fmt).2.layers j =
      if j = layer then { s.layers layer with fmt := f } else s.layers j := by
  cases hm : xilinx_drm_dp_sub_map_fmt (catalog (s.layers layer).id)
      (catalog (s.layers layer).id).length drm_fmt with
  | none =>
    refine ⟨(s.layers layer).fmt, ?_⟩
    rw [layer_set_fmt_of_none s layer drm_fmt hm]
    by_cases hj : j = layer <;> simp [hj]
  | some f =>
    refine ⟨f, ?_⟩
    rw [layer_set_fmt_of_some s layer drm_fmt f hm]
    simp

/-- The layers after `check_size`: the size of the layer is stored unless the call is
rejected. -/
theorem layer_check_size_layers (s : xilinx_drm_dp_sub) (layer j : Fin 2) (w h : Nat) :
    (xilinx_drm_dp_sub_layer_check_size s layer w h).2.layers j =
      if j = layer ∧ ¬ ((s.layers (s.layers layer).other).enabled = true ∧
          ¬ ((s.layers (s.layers layer).other).w = w ∧ (s.layers (s.layers layer).other).h = h))
      then { s.layers layer with w := w, h := h } else s.layers j := by
  by_cases hc : ((s.layers (s.layers layer).other).enabled &&
      ((s.layers (s.layers layer).other).w != w ||
       (s.layers (s.layers layer).other).h != h)) = true
  · have hc2 : (s.layers (s.layers layer).other).enabled = true ∧
        (¬ (s.layers (s.layers layer).other).w = w ∨
         ¬ (s.layers (s.layers layer).other).h = h) := by
      simpa using hc
    simp only [xilinx_drm_dp_sub_layer_check_size]
    rw [if_pos hc, if_neg]
    rintro ⟨_, hn⟩
    exact hn ⟨hc2.1, fun hh => hc2.2.elim (fun a => a hh.1) (fun a => a hh.2)⟩
  · have hc2 : (s.layers (s.layers layer).other).enabled = true →
        ((s.layers (s.layers layer).other).w = w ∧
         (s.layers (s.layers layer).other).h = h) := by
      simpa using hc
    simp only [xilinx_drm_dp_sub_layer_check_size]
    rw [if_neg hc]
    by_cases hj : j = layer
    · subst hj
      rw [if_pos ⟨rfl, fun hh => hh.2 (hc2 hh.1)⟩]
      simp
    · rw [if_neg (fun hh => hj hh.1)]
      simp [hj]

/-- One operation preserves the invariant when an `enable` is sized. -/
theorem step_inv (s : xilinx_drm_dp_sub) (op : layer_op) (hi : equal_size_inv s)
    (hg : enable_sized s op = true) : equal_size_inv (op.apply s) := by
  obtain ⟨hl, hsz⟩ := hi
  obtain ⟨h0, h1, h2, h3, h4, h5⟩ := hl
  cases op with
  | get p =>
    simp only [layer_op.apply, layer_get_state]
    exact ⟨⟨h0, h1, h2, h3, h4, h5⟩, hsz⟩
  | put layer =>
    fin_cases layer <;>
      simp_all [layer_op.apply, xilinx_drm_dp_sub_layer_put, equal_size_inv, probed_layout]
  | check_size layer w h =>
    fin_cases layer <;>
      simp_all [layer_op.apply, layer_check_size_layers, equal_size_inv, probed_layout]
    all_goals (split_ifs <;> simp_all)

  | set_fmt layer f =>
    obtain ⟨f0, hf0⟩ := layer_set_fmt_layers s layer 0 f
    obtain ⟨f1, hf1⟩ := layer_set_fmt_layers s layer 1 f
    fin_cases layer <;>
      simp_all [layer_op.apply, equal_size_inv, probed_layout]
  | enable layer =>
    fin_cases layer <;>
      simp_all [layer_op.apply, layer_enable_layers, equal_size_inv, probed_layout, enable_sized]
    all_goals
      intro he
      rcases hg with h | h
      · rw [h] at he; cases he
      · first | exact h | exact ⟨h.1.symm, h.2.symm⟩

  | disable layer =>
    fin_cases layer <;>
      simp_all [layer_op.apply, layer_disable_layers, equal_size_inv, probed_layout]

/-- Parsing the device tree leaves every layer field but `primary` as it was. -/
theorem parse_of_layers (s : xilinx_drm_dp_sub) (node : device_node) (string0 : String)
    (i : Fin 2) :
    ((xilinx_drm_dp_sub_parse_of s node string0).2.layers i).id = (s.layers i).id ∧
    ((xilinx_drm_dp_sub_parse_of s node string0).2.layers i).offset = (s.layers i).offset ∧
    ((xilinx_drm_dp_sub_parse_of s node string0).2.layers i).other = (s.layers i).other ∧
    ((xilinx_drm_dp_sub_parse_of s node string0).2.layers i).enabled = (s.layers i).enabled ∧
    ((xilinx_drm_dp_sub_parse_of s node string0).2.layers i).w = (s.layers i).w ∧
    ((xilinx_drm_dp_sub_parse_of s node string0).2.layers i).h = (s.layers i).h := by
  unfold xilinx_drm_dp_sub_parse_of
  simp only []
  split_ifs <;> fin_cases i <;> simp [xilinx_drm_dp_sub_layer_type.idx]

/-- A subsystem registered by `probe` has the probed layout and both layers disabled. -/
theorem probe_ok_inv (kzalloc_ok : Bool) (blend av_buf aud : Except Int iomem)
    (node : device_node) (string0 : String) (s0 : xilinx_drm_dp_sub)
    (h : xilinx_drm_dp_sub_probe kzalloc_ok blend av_buf aud node string0 = .ok s0) :
    equal_size_inv s0 := by
  unfold xilinx_drm_dp_sub_probe at h
  cases kzalloc_ok <;> simp only [Bool.not_true, Bool.not_false, if_true] at h
  · cases h
  · cases blend with
    | error e => simp at h
    | ok b =>
      cases av_buf with
      | error e => simp at h
      | ok a =>
        cases aud with
        | error e => simp at h
        | ok d =>
          simp only [Bool.false_eq_true, if_false] at h
          split at h
          · cases h
          · injection h with h
            subst h
            have p0 := parse_of_layers (probe_layers b a d) node string0 0
            have p1 := parse_of_layers (probe_layers b a d) node string0 1
            refine ⟨⟨p0.1.trans rfl, p0.2.1.trans rfl, p0.2.2.1.trans rfl,
              p1.1.trans rfl, p1.2.1.trans rfl, p1.2.2.1.trans rfl⟩, fun he => ?_⟩
            have h0 : ((probe_layers b a d).layers 0).enabled = false := rfl
            rw [p0.2.2.2.1, h0] at he
            cases he

/-- A sequence of operations preserves the invariant when its enables are sized. -/
theorem run_inv (ops : List layer_op) (s : xilinx_drm_dp_sub) (hi : equal_size_inv s)
    (hg : sized_run s ops = true) : equal_size_inv (run s ops) := by
  induction ops generalizing s with
  | nil => exact hi
  | cons op ops ih =>
    simp only [sized_run, Bool.and_eq_true] at hg
    exact ih (op.apply s) (step_inv s op hi hg.1) hg.2

/-- C4 (as stated, refuted): from the probed state, the sequence acquire both layers,
`set_fmt` both, `check_size(graphics, 1920, 1080)`, `check_size(video, 1280, 720)`
(both accepted, no layer being enabled yet), `enable(graphics)`, `enable(video)`
ends with both layers enabled and different stored sizes. -/
theorem equal_size_invariant_fails :
    xilinx_drm_dp_sub_probe true (.ok zero_window) (.ok zero_window) (.ok zero_window)
      node_gfx_primary "" = .ok dp_sub0 ∧
    ((run dp_sub0 mismatched_sizes_ops).layers 0).enabled = true ∧
    ((run dp_sub0 mismatched_sizes_ops).layers 1).enabled = true ∧
    (((run dp_sub0 mismatched_sizes_ops).layers 0).w,
      ((run dp_sub0 mismatched_sizes_ops).layers 0).h) = (1280, 720) ∧
    (((run dp_sub0 mismatched_sizes_ops).layers 1).w,
      ((run dp_sub0 mismatched_sizes_ops).layers 1).h) = (1920, 1080) ∧
    (((run dp_sub0 mismatched_sizes_ops).layers 0).w,
      ((run dp_sub0 mismatched_sizes_ops).layers 0).h) ≠
    (((run dp_sub0 mismatched_sizes_ops).layers 1).w,
      ((run dp_sub0 mismatched_sizes_ops).layers 1).h) :=
  ⟨probe_gfx_primary, by decide, by decide, by decide, by decide, by decide⟩

/-- C4 (amended): in every state reached from a probed subsystem by a sequence of the
public layer operations in which each `enable(layer)` is issued only when the
sibling is disabled or the layer's stored size equals the sibling's, if both layers
are enabled then their stored (width, height) pairs are equal. -/
theorem equal_size_when_enables_sized (kzalloc_ok : Bool) (blend av_buf aud : Except Int iomem)
    (node : device_node) (string0 : String) (s0 : xilinx_drm_dp_sub) (ops : List layer_op)
    (hp : xilinx_drm_dp_sub_probe kzalloc_ok blend av_buf aud node string0 = .ok s0)
    (hg : sized_run s0 ops = true)
    (h0 : ((run s0 ops).layers 0).enabled = true)
    (h1 : ((run s0 ops).layers 1).enabled = true) :
    (((run s0 ops).layers 0).w, ((run s0 ops).layers 0).h) =
      (((run s0 ops).layers 1).w, ((run s0 ops).layers 1).h) := by
  have hi := run_inv ops s0 (probe_ok_inv kzalloc_ok blend av_buf aud node string0 s0 hp) hg
  obtain ⟨hw, hh⟩ := hi.2 h0 h1
  exact Prod.ext hw hh

/-- Instance of amended C4: graphics sized and enabled, then video sized to the same
dimensions and enabled; every enable is sized, both layers end enabled, and the
sizes agree. -/
theorem equal_size_when_enables_sized_witness :
    sized_run dp_sub0 matched_sizes_ops = true ∧
    ((run dp_sub0 matched_sizes_ops).layers 0).enabled = true ∧
    ((run dp_sub0 matched_sizes_ops).layers 1).enabled = true ∧
    (((run dp_sub0 matched_sizes_ops).layers 0).w, ((run dp_sub0 matched_sizes_ops).layers 0).h) =
      (((run dp_sub0 matched_sizes_ops).layers 1).w,
        ((run dp_sub0 matched_sizes_ops).layers 1).h) :=
  ⟨by decide, by decide, by decide,
   equal_size_when_enables_sized true (.ok zero_window) (.ok zero_window) (.ok zero_window)
     node_gfx_primary "" dp_sub0 matched_sizes_ops probe_gfx_primary (by decide) (by decide)
     (by decide)⟩

/-! ## Acquire and release, continued -/

/-- Storing into `layers[i]` the value it already holds leaves the state as it is. -/
theorem set_layer_self (s : xilinx_drm_dp_sub) (i : Fin 2) (l : xilinx_drm_dp_sub_layer)
    (h : s.layers i = l) : s.set_layer i l = s := by
  cases s with
  | mk b a d ls f v lg =>
    simp only [xilinx_drm_dp_sub.set_layer, xilinx_drm_dp_sub.mk.injEq, true_and, and_true]
    funext j
    by_cases hj : j = i
    · subst hj; simp at h; simp [h]
    · simp [hj]

/-- C11: in a state with exactly one primary layer, for every flag value there is a
layer `i` whose `primary` equals the flag, it is the first such layer in index order
and the only one; `layer_get` returns `i` when `i` is available, returns `-ENODEV`
exactly when `i` is not available, and never returns a layer whose `primary` differs
from the flag. -/
theorem layer_get_spec (s : xilinx_drm_dp_sub) (primary : Bool)
    (h1 : (s.layers 0).primary ≠ (s.layers 1).primary) :
    ∃ i : Fin 2, (s.layers i).primary = primary ∧
      (∀ j, (s.layers j).primary = primary → i ≤ j) ∧
      (∀ j, j ≠ i → (s.layers j).primary ≠ primary) ∧
      ((s.layers i).avail = true → (xilinx_drm_dp_sub_layer_get s primary).1 = .ok i) ∧
      ((xilinx_drm_dp_sub_layer_get s primary).1 = .error (-ENODEV) ↔
        (s.layers i).avail = false) ∧
      (∀ k, (xilinx_drm_dp_sub_layer_get s primary).1 = .ok k →
        (s.layers k).primary = primary) := by
  by_cases h0 : (s.layers 0).primary = primary
  · have h1' : (s.layers 1).primary ≠ primary := fun h => h1 (h0.trans h.symm)
    refine ⟨0, h0, fun j _ => Fin.zero_le j, ?_, ?_, ?_, ?_⟩
    · intro j hj; fin_cases j
      · exact absurd rfl hj
      · exact h1'
    · intro ha
      simp [xilinx_drm_dp_sub_layer_get, xilinx_drm_dp_sub_layer_get.scan, h0, ha]
    · cases ha : (s.layers 0).avail <;>
        simp [xilinx_drm_dp_sub_layer_get, xilinx_drm_dp_sub_layer_get.scan, h0, ha]
    · intro k
      cases ha : (s.layers 0).avail <;>
        simp [xilinx_drm_dp_sub_layer_get, xilinx_drm_dp_sub_layer_get.scan, h0, ha]
      intro hk; rw [← hk]; exact h0
  · have h1' : (s.layers 1).primary = primary := by
      cases hp0 : (s.layers 0).primary <;> cases hp1 : (s.layers 1).primary <;>
        cases primary <;> simp_all
    refine ⟨1, h1', ?_, ?_, ?_, ?_, ?_⟩
    · intro j hj; fin_cases j
      · exact absurd hj h0
      · exact le_refl _
    · intro j hj; fin_cases j
      · exact h0
      · exact absurd rfl hj
    · intro ha
      simp [xilinx_drm_dp_sub_layer_get, xilinx_drm_dp_sub_layer_get.scan, h0, h1', ha]
    · cases ha : (s.layers 1).avail <;>
        simp [xilinx_drm_dp_sub_layer_get, xilinx_drm_dp_sub_layer_get.scan, h0, h1', ha]
    · intro k
      cases ha : (s.layers 1).avail <;>
        simp [xilinx_drm_dp_sub_layer_get, xilinx_drm_dp_sub_layer_get.scan, h0, h1', ha]
      intro hk; rw [← hk]; exact h1'

/-- Instance of C11: in the probed state (graphics primary, both layers available) the
request for the primary layer returns the layer selected by the flag. -/
theorem layer_get_spec_witness :
    (dp_sub0.layers 0).primary ≠ (dp_sub0.layers 1).primary ∧
    ∃ i : Fin 2, (dp_sub0.layers i).primary = true ∧
      (xilinx_drm_dp_sub_layer_get dp_sub0 true).1 = .ok i := by
  refine ⟨by decide, ?_⟩
  obtain ⟨i, hi, _, _, hok, _⟩ := layer_get_spec dp_sub0 true (by decide)
  exact ⟨i, hi, hok (by fin_cases i <;> decide)⟩

/-- C12: `layer_put` sets `avail` of the layer and changes nothing else: the other fields
of the layer, the other layer, the registers, the write log and the vblank slot are
as before. It is idempotent, and on a layer that is already available (never
acquired, or released before) it leaves the whole state as it is. -/
theorem layer_put_spec (s : xilinx_drm_dp_sub) (layer : Fin 2) :
    let s1 := xilinx_drm_dp_sub_layer_put s layer
    s1.layers layer = { s.layers layer with avail := true } ∧
    (∀ j, j ≠ layer → s1.layers j = s.layers j) ∧
    s1.blend = s.blend ∧ s1.av_buf = s.av_buf ∧ s1.aud = s.aud ∧ s1.io_log = s.io_log ∧
    s1.vblank_fn = s.vblank_fn ∧ s1.vblank_data = s.vblank_data ∧
    xilinx_drm_dp_sub_layer_put s1 layer = s1 ∧
    ((s.layers layer).avail = true → s1 = s) := by
  intro s1
  refine ⟨by simp [s1, xilinx_drm_dp_sub_layer_put], ?_, rfl, rfl, rfl, rfl, rfl, rfl, ?_, ?_⟩
  · intro j hj; simp [s1, xilinx_drm_dp_sub_layer_put, hj]
  · apply set_layer_self
    simp [s1, xilinx_drm_dp_sub_layer_put]
  · intro ha
    apply set_layer_self
    rw [← ha]

/-- Instance of C12 at the probed state, where the graphics layer was never acquired. -/
theorem layer_put_spec_witness :
    ((xilinx_drm_dp_sub_layer_put dp_sub0 1).layers 1).avail = true ∧
    xilinx_drm_dp_sub_layer_put dp_sub0 1 = dp_sub0 ∧
    xilinx_drm_dp_sub_layer_put (xilinx_drm_dp_sub_layer_put dp_sub0 1) 1 =
      xilinx_drm_dp_sub_layer_put dp_sub0 1 :=
  ⟨by decide, (layer_put_spec dp_sub0 1).2.2.2.2.2.2.2.2.2 (by decide),
   (layer_put_spec dp_sub0 1).2.2.2.2.2.2.2.2.1⟩


/-! ## The bypass invariant -/

/-- Bit 0 (EN) of a control word. -/
@[simp] theorem control_word_testBit_zero (fmt : xilinx_drm_dp_sub_fmt) (bypass : Bool) :
    (control_word fmt bypass).testBit 0 = !bypass := (control_word_bits fmt bypass).2.1

/-- Bit 8 (BYPASS) of a control word. -/
@[simp] theorem control_word_testBit_eight (fmt : xilinx_drm_dp_sub_fmt) (bypass : Bool) :
    (control_word fmt bypass).testBit 8 = bypass := (control_word_bits fmt bypass).2.2

/-- A bypass control word is even: EN is clear. -/
@[simp] theorem control_word_true_mod_two (fmt : xilinx_drm_dp_sub_fmt) :
    control_word fmt true % 2 = 0 := by
  cases hr : fmt.rgb <;> simp [control_word, hr, BIT]

/-- A blend control word is odd: EN is set. -/
@[simp] theorem control_word_false_mod_two (fmt : xilinx_drm_dp_sub_fmt) :
    control_word fmt false % 2 = 1 := by
  cases hr : fmt.rgb <;> simp [control_word, hr, BIT]

/-- The blend window after `enable`. -/
theorem layer_enable_blend (s : xilinx_drm_dp_sub) (layer : Fin 2) :
    (xilinx_drm_dp_sub_layer_enable s layer).blend =
      if (s.layers (s.layers layer).other).enabled = true then
        xilinx_drm_writel
          (xilinx_drm_writel s.blend (control_reg (s.layers layer))
            (control_word (s.layers layer).fmt false))
          (control_reg (s.layers (s.layers layer).other))
          (control_word (s.layers (s.layers layer).other).fmt false)
      else
        xilinx_drm_writel s.blend (control_reg (s.layers layer))
          (control_word (s.layers layer).fmt true) := by
  by_cases hen : (s.layers (s.layers layer).other).enabled = true <;>
    simp [xilinx_drm_dp_sub_layer_enable, blend_layer_enable_eq,
      xilinx_drm_dp_sub_av_buf_enable_vid, hen]

/-- The blend window after `disable`. -/
theorem layer_disable_blend (s : xilinx_drm_dp_sub) (layer : Fin 2) :
    (xilinx_drm_dp_sub_layer_disable s layer).blend =
      if (s.layers (s.layers layer).other).enabled = true then
        xilinx_drm_writel
          (xilinx_drm_writel s.blend (control_reg (s.layers layer)) 0)
          (control_reg (s.layers (s.layers layer).other))
          (control_word (s.layers (s.layers layer).other).fmt true)
      else
        xilinx_drm_writel s.blend (control_reg (s.layers layer)) 0 := by
  by_cases hen : (s.layers (s.layers layer).other).enabled = true <;>
    simp [xilinx_drm_dp_sub_layer_disable, blend_layer_enable_eq, blend_layer_disable_eq,
      xilinx_drm_dp_sub_av_buf_disable_vid, hen]

/-- `set_fmt` does not touch the blend window. -/
theorem layer_set_fmt_blend (s : xilinx_drm_dp_sub) (layer : Fin 2) (drm_fmt : Nat) :
    (xilinx_drm_dp_sub_layer_set_fmt s layer drm_fmt).2.blend = s.blend := by
  cases hm : xilinx_drm_dp_sub_map_fmt (catalog (s.layers layer).id)
      (catalog (s.layers layer).id).length drm_fmt with
  | none => rw [layer_set_fmt_of_none s layer drm_fmt hm]
  | some f => rw [layer_set_fmt_of_some s layer drm_fmt f hm]; simp

/-- `check_size` does not touch the blend window. -/
theorem layer_check_size_blend (s : xilinx_drm_dp_sub) (layer : Fin 2) (w h : Nat) :
    (xilinx_drm_dp_sub_layer_check_size s layer w h).2.blend = s.blend := by
  simp only [xilinx_drm_dp_sub_layer_check_size]
  split_ifs <;> rfl

/-- One layer operation preserves the blend invariant. -/
theorem blend_step_inv (s : xilinx_drm_dp_sub) (op : layer_op) (hi : blend_inv s) :
    blend_inv (op.apply s) := by
  obtain ⟨hl, c0, c1⟩ := hi
  obtain ⟨h0, h1, h2, h3, h4, h5⟩ := hl
  cases op with
  | get p =>
    simp only [layer_op.apply, layer_get_state]
    exact ⟨⟨h0, h1, h2, h3, h4, h5⟩, c0, c1⟩
  | put layer =>
    fin_cases layer <;>
      simp_all [layer_op.apply, xilinx_drm_dp_sub_layer_put, blend_inv, probed_layout]
  | check_size layer w h =>
    fin_cases layer <;>
      simp_all [layer_op.apply, layer_check_size_layers, layer_check_size_blend, blend_inv,
        probed_layout]
    all_goals (split_ifs <;> simp_all)
  | set_fmt layer f =>
    obtain ⟨f0, hf0⟩ := layer_set_fmt_layers s layer 0 f
    obtain ⟨f1, hf1⟩ := layer_set_fmt_layers s layer 1 f
    fin_cases layer <;>
      simp_all [layer_op.apply, layer_set_fmt_blend, blend_inv, probed_layout]
  | enable layer =>
    fin_cases layer
    · cases he : (s.layers 1).enabled <;>
        simp_all [layer_op.apply, layer_enable_layers, layer_enable_blend, blend_inv,
          probed_layout, ctl_ok, writel_apply, control_reg]
    · cases he : (s.layers 0).enabled <;>
        simp_all [layer_op.apply, layer_enable_layers, layer_enable_blend, blend_inv,
          probed_layout, ctl_ok, writel_apply, control_reg]
  | disable layer =>
    fin_cases layer
    · cases he : (s.layers 1).enabled <;>
        simp_all [layer_op.apply, layer_disable_layers, layer_disable_blend, blend_inv,
          probed_layout, ctl_ok, writel_apply, control_reg]
    · cases he : (s.layers 0).enabled <;>
        simp_all [layer_op.apply, layer_disable_layers, layer_disable_blend, blend_inv,
          probed_layout, ctl_ok, writel_apply, control_reg]


/-- A successful probe: the three windows were mapped, the device tree parsed with
status 0, and the registered state is the one `parse_of` left. -/
theorem probe_ok_eq (kzalloc_ok : Bool) (blend av_buf aud : Except Int iomem)
    (node : device_node) (string0 : String) (s0 : xilinx_drm_dp_sub)
    (h : xilinx_drm_dp_sub_probe kzalloc_ok blend av_buf aud node string0 = .ok s0) :
    ∃ b a d, blend = .ok b ∧ av_buf = .ok a ∧ aud = .ok d ∧
      (xilinx_drm_dp_sub_parse_of (probe_layers b a d) node string0).1 = 0 ∧
      s0 = (xilinx_drm_dp_sub_parse_of (probe_layers b a d) node string0).2 := by
  unfold xilinx_drm_dp_sub_probe at h
  cases kzalloc_ok <;> simp only [Bool.not_true, Bool.not_false, if_true] at h
  · cases h
  · cases blend with
    | error e => simp at h
    | ok b =>
      cases av_buf with
      | error e => simp at h
      | ok a =>
        cases aud with
        | error e => simp at h
        | ok d =>
          simp only [Bool.false_eq_true, if_false] at h
          split at h
          · cases h
          · rename_i hz
            injection h with h
            exact ⟨b, a, d, rfl, rfl, rfl, not_not.1 hz, h.symm⟩

/-- Parsing the device tree writes no blend register but the output format. -/
theorem parse_of_blend (s : xilinx_drm_dp_sub) (node : device_node) (string0 : String)
    (p : Nat) (hp : p ≠ XILINX_DP_SUB_V_BLEND_OUTPUT_VID_FMT) :
    (xilinx_drm_dp_sub_parse_of s node string0).2.blend p = s.blend p := by
  unfold xilinx_drm_dp_sub_parse_of
  simp only []
  split_ifs <;> simp [writel_apply, hp]

/-- A subsystem probed over zero blend-control registers satisfies the blend invariant. -/
theorem probe_ok_blend_inv (kzalloc_ok : Bool) (b : iomem) (av_buf aud : Except Int iomem)
    (node : device_node) (string0 : String) (s0 : xilinx_drm_dp_sub)
    (h : xilinx_drm_dp_sub_probe kzalloc_ok (.ok b) av_buf aud node string0 = .ok s0)
    (hz : b 0x18 = 0 ∧ b 0x1c = 0) : blend_inv s0 := by
  have hi := probe_ok_inv kzalloc_ok (.ok b) av_buf aud node string0 s0 h
  obtain ⟨b', a, d, hb, _, _, _, hs⟩ := probe_ok_eq kzalloc_ok (.ok b) av_buf aud node string0 s0 h
  injection hb with hb
  subst hb
  have e0 : (s0.layers 0).enabled = false := by
    rw [hs, (parse_of_layers _ node string0 0).2.2.2.1]; rfl
  have e1 : (s0.layers 1).enabled = false := by
    rw [hs, (parse_of_layers _ node string0 1).2.2.2.1]; rfl
  have b0 : s0.blend 0x18 = 0 := by
    rw [hs, parse_of_blend _ node string0 0x18 (by decide)]; exact hz.1
  have b1 : s0.blend 0x1c = 0 := by
    rw [hs, parse_of_blend _ node string0 0x1c (by decide)]; exact hz.2
  exact ⟨hi.1, by simp [ctl_ok, e0, b0], by simp [ctl_ok, e1, b1]⟩

/-- A sequence of layer operations preserves the blend invariant. -/
theorem blend_run_inv (ops : List layer_op) (s : xilinx_drm_dp_sub) (hi : blend_inv s) :
    blend_inv (run s ops) := by
  induction ops generalizing s with
  | nil => exact hi
  | cons op ops ih => exact ih (op.apply s) (blend_step_inv s op hi)

/-- C13: in every state reached from a subsystem probed over zero blend-control
registers by any sequence of layer operations (acquire, release, check_size,
set_format, enable, disable), at most one layer is `EnabledBypass` and at most one
of the two blend-control registers has the BYPASS bit (bit 8) set. -/
theorem at_most_one_bypass (kzalloc_ok : Bool) (b : iomem) (av_buf aud : Except Int iomem)
    (node : device_node) (string0 : String) (s0 : xilinx_drm_dp_sub) (ops : List layer_op)
    (hp : xilinx_drm_dp_sub_probe kzalloc_ok (.ok b) av_buf aud node string0 = .ok s0)
    (hz : b 0x18 = 0 ∧ b 0x1c = 0) :
    (∀ i j : Fin 2, (run s0 ops).state_of i = .EnabledBypass →
      (run s0 ops).state_of j = .EnabledBypass → i = j) ∧
    (∀ i j : Fin 2,
      ((run s0 ops).blend (0x18 + ((run s0 ops).layers i).offset)).testBit 8 = true →
      ((run s0 ops).blend (0x18 + ((run s0 ops).layers j).offset)).testBit 8 = true → i = j) := by
  obtain ⟨⟨h0, h1, h2, h3, h4, h5⟩, c0, c1⟩ :=
    blend_run_inv ops s0 (probe_ok_blend_inv kzalloc_ok b av_buf aud node string0 s0 hp hz)
  generalize run s0 ops = s at *
  constructor
  · intro i j hi hj
    cases e0 : (s.layers 0).enabled <;> cases e1 : (s.layers 1).enabled <;>
      fin_cases i <;> fin_cases j <;> simp_all [xilinx_drm_dp_sub.state_of]
  · intro i j hi hj
    cases e0 : (s.layers 0).enabled <;> cases e1 : (s.layers 1).enabled <;>
      fin_cases i <;> fin_cases j <;> simp_all [ctl_ok]

/-- Instance of C13: graphics enabled, video enabled, video disabled again; only the
graphics register ends with the BYPASS bit. -/
theorem at_most_one_bypass_witness :
    (zero_window 0x18 = 0 ∧ zero_window 0x1c = 0) ∧
    (run dp_sub0 [.enable 1, .enable 0, .disable 0]).state_of 1 = .EnabledBypass ∧
    (run dp_sub0 [.enable 1, .enable 0, .disable 0]).blend 0x1c = 0x102 ∧
    (run dp_sub0 [.enable 1, .enable 0, .disable 0]).blend 0x18 = 0 ∧
    (∀ i j : Fin 2,
      (run dp_sub0 [.enable 1, .enable 0, .disable 0]).state_of i = .EnabledBypass →
      (run dp_sub0 [.enable 1, .enable 0, .disable 0]).state_of j = .EnabledBypass → i = j) :=
  ⟨by decide, by decide, by decide, by decide,
   (at_most_one_bypass true zero_window (.ok zero_window) (.ok zero_window) node_gfx_primary ""
     dp_sub0 [.enable 1, .enable 0, .disable 0] probe_gfx_primary (by decide)).1⟩


/-! ## Fields fixed by the public operations -/

/-- A run of register writes leaves the layers as they are. -/
theorem foldl_writel_layers (b : reg_bank) (f g : Nat → Nat) (l : List Nat)
    (s : xilinx_drm_dp_sub) :
    (l.foldl (fun acc i => acc.writel b (f i) (g i)) s).layers = s.layers := by
  induction l generalizing s with
  | nil => rfl
  | cons a l ih => simp [List.foldl_cons, ih]

/-- Setting bits in a register leaves the layers as they are. -/
theorem set_bits_layers (s : xilinx_drm_dp_sub) (b : reg_bank) (o m : Nat) :
    (s.set_bits b o m).layers = s.layers := by
  simp [xilinx_drm_dp_sub.set_bits]

/-- Subsystem enable assigns no layer field. -/
theorem dp_sub_enable_layers (s : xilinx_drm_dp_sub) :
    (xilinx_drm_dp_sub_enable s).layers = s.layers := by
  simp [xilinx_drm_dp_sub_enable, xilinx_drm_dp_sub_aud_init, set_bits_layers,
    xilinx_drm_dp_sub_av_buf_enable_aud, xilinx_drm_dp_sub_av_buf_enable_buf, for_loop,
    foldl_writel_layers, xilinx_drm_dp_sub_av_buf_set_aud_clock_src,
    xilinx_drm_dp_sub_av_buf_set_vid_timing_src, xilinx_drm_dp_sub_av_buf_set_vid_clock_src,
    xilinx_drm_dp_sub_av_buf_init_sf, xilinx_drm_dp_sub_av_buf_init_fmts]

/-- Subsystem disable assigns no layer field. -/
theorem dp_sub_disable_layers (s : xilinx_drm_dp_sub) :
    (xilinx_drm_dp_sub_disable s).layers = s.layers := by
  simp [xilinx_drm_dp_sub_disable, xilinx_drm_dp_sub_av_buf_disable_buf, for_loop,
    foldl_writel_layers, xilinx_drm_dp_sub_av_buf_disable_aud]

/-- The public operations that are not layer operations assign no layer field. -/
theorem subsystem_op_layers (s : xilinx_drm_dp_sub) (op : dp_sub_op)
    (hop : ∀ lop, op ≠ .layer lop) : (op.apply s).layers = s.layers := by
  cases op with
  | layer lop => exact absurd rfl (hop lop)
  | set_output_fmt f =>
    simp only [dp_sub_op.apply, xilinx_drm_dp_sub_set_output_fmt]
    split <;> simp [xilinx_drm_dp_sub_blend_set_output_fmt]
  | set_bg_color c0 c1 c2 =>
    simp [dp_sub_op.apply, xilinx_drm_dp_sub_set_bg_color, xilinx_drm_dp_sub_blend_set_bg_color]
  | set_alpha a =>
    simp [dp_sub_op.apply, xilinx_drm_dp_sub_set_alpha, xilinx_drm_dp_sub_blend_set_alpha]
  | handle_vblank =>
    simp only [dp_sub_op.apply, xilinx_drm_dp_sub_handle_vblank]
    split <;> rfl
  | enable_vblank fn d => rfl
  | disable_vblank => rfl
  | enable => exact dp_sub_enable_layers s
  | disable => exact dp_sub_disable_layers s

/-- The layers after `set_fmt`: the descriptor of the layer is the previous one or an
entry of the catalog of its kind; nothing else changes. -/
theorem layer_set_fmt_layers_mem (s : xilinx_drm_dp_sub) (layer j : Fin 2) (drm_fmt : Nat) :
    ∃ f, (f = (s.layers layer).fmt ∨ f ∈ catalog (s.layers layer).id) ∧
      (xilinx_drm_dp_sub_layer_set_fmt s layer drm_fmt).2.layers j =
        if j = layer then { s.layers layer with fmt := f } else s.layers j := by
  cases hm : xilinx_drm_dp_sub_map_fmt (catalog (s.layers layer).id)
      (catalog (s.layers layer).id).length drm_fmt with
  | none =>
    refine ⟨(s.layers layer).fmt, Or.inl rfl, ?_⟩
    rw [layer_set_fmt_of_none s layer drm_fmt hm]
    by_cases hj : j = layer <;> simp [hj]
  | some f =>
    refine ⟨f, Or.inr (map_fmt_some_mem _ _ _ hm).1, ?_⟩
    rw [layer_set_fmt_of_some s layer drm_fmt f hm]
    simp

/-- A layer operation keeps `id`, `offset`, `other` and `primary` of every layer, and
stores only descriptors of the catalog of the layer's kind. -/
theorem layer_op_fixed_fields (s : xilinx_drm_dp_sub) (op : layer_op) (i : Fin 2) :
    ((op.apply s).layers i).id = (s.layers i).id ∧
    ((op.apply s).layers i).offset = (s.layers i).offset ∧
    ((op.apply s).layers i).other = (s.layers i).other ∧
    ((op.apply s).layers i).primary = (s.layers i).primary ∧
    (((op.apply s).layers i).fmt = (s.layers i).fmt ∨
      ((op.apply s).layers i).fmt ∈ catalog (s.layers i).id) := by
  cases op with
  | get p => simp [layer_op.apply, layer_get_state]
  | put layer =>
    by_cases hi : i = layer <;> simp [layer_op.apply, xilinx_drm_dp_sub_layer_put, hi]
  | check_size layer w h =>
    simp only [layer_op.apply, layer_check_size_layers]
    split_ifs with hc
    · obtain ⟨rfl, _⟩ := hc; simp
    · simp
  | set_fmt layer f =>
    obtain ⟨f0, hf0, hl⟩ := layer_set_fmt_layers_mem s layer i f
    simp only [layer_op.apply, hl]
    by_cases hi : i = layer
    · subst hi; simpa using hf0
    · simp [hi]
  | enable layer =>
    by_cases hi : i = layer <;> simp [layer_op.apply, layer_enable_layers, hi]
  | disable layer =>
    by_cases hi : i = layer <;> simp [layer_op.apply, layer_disable_layers, hi]

/-- The same for every public operation. -/
theorem dp_sub_op_fixed_fields (s : xilinx_drm_dp_sub) (op : dp_sub_op) (i : Fin 2) :
    ((op.apply s).layers i).id = (s.layers i).id ∧
    ((op.apply s).layers i).offset = (s.layers i).offset ∧
    ((op.apply s).layers i).other = (s.layers i).other ∧
    ((op.apply s).layers i).primary = (s.layers i).primary ∧
    (((op.apply s).layers i).fmt = (s.layers i).fmt ∨
      ((op.apply s).layers i).fmt ∈ catalog (s.layers i).id) := by
  by_cases hop : ∃ lop, op = .layer lop
  · obtain ⟨lop, rfl⟩ := hop
    exact layer_op_fixed_fields s lop i
  · rw [subsystem_op_layers s op (fun lop h => hop ⟨lop, h⟩)]
    simp

/-- The same for every sequence of public operations. -/
theorem run_ops_fixed_fields (ops : List dp_sub_op) (s : xilinx_drm_dp_sub) (i : Fin 2)
    (hf : (s.layers i).fmt ∈ catalog (s.layers i).id) :
    ((run_ops s ops).layers i).id = (s.layers i).id ∧
    ((run_ops s ops).layers i).offset = (s.layers i).offset ∧
    ((run_ops s ops).layers i).other = (s.layers i).other ∧
    ((run_ops s ops).layers i).primary = (s.layers i).primary ∧
    ((run_ops s ops).layers i).fmt ∈ catalog (s.layers i).id := by
  induction ops generalizing s with
  | nil => exact ⟨rfl, rfl, rfl, rfl, hf⟩
  | cons op ops ih =>
    obtain ⟨a, b, c, d, e⟩ := dp_sub_op_fixed_fields s op i
    have hf' : ((op.apply s).layers i).fmt ∈ catalog ((op.apply s).layers i).id := by
      rw [a]; rcases e with e | e
      · rw [e]; exact hf
      · exact e
    obtain ⟨a', b', c', d', e'⟩ := ih (op.apply s) hf'
    exact ⟨a'.trans a, b'.trans b, c'.trans c, d'.trans d, a ▸ e'⟩

/-- A successful parse sets `primary` of the video layer when `xlnx,vid-primary` is
present and of the graphics layer otherwise, and keeps the descriptors. -/
theorem parse_of_primary (s : xilinx_drm_dp_sub) (node : device_node) (string0 : String)
    (h : (xilinx_drm_dp_sub_parse_of s node string0).1 = 0) :
    ((xilinx_drm_dp_sub_parse_of s node string0).2.layers 0).primary =
      ((s.layers 0).primary || node.vid_primary) ∧
    ((xilinx_drm_dp_sub_parse_of s node string0).2.layers 1).primary =
      ((s.layers 1).primary || !node.vid_primary) ∧
    ((xilinx_drm_dp_sub_parse_of s node string0).2.layers 0).fmt = (s.layers 0).fmt ∧
    ((xilinx_drm_dp_sub_parse_of s node string0).2.layers 1).fmt = (s.layers 1).fmt := by
  unfold xilinx_drm_dp_sub_parse_of at h ⊢
  simp only [] at h ⊢
  split_ifs at h ⊢ <;>
    simp_all [xilinx_drm_dp_sub_layer_type.idx, of_property_read_bool, EINVAL]


/-- The layers of a subsystem registered by `probe`. -/
theorem probe_ok_layers (kzalloc_ok : Bool) (blend av_buf aud : Except Int iomem)
    (node : device_node) (string0 : String) (s0 : xilinx_drm_dp_sub)
    (hp : xilinx_drm_dp_sub_probe kzalloc_ok blend av_buf aud node string0 = .ok s0) :
    probed_layout s0 ∧
    (s0.layers 0).primary = node.vid_primary ∧ (s0.layers 1).primary = !node.vid_primary ∧
    (s0.layers 0).fmt = fmt_at av_buf_vid_fmts AV_BUF_DEFAULT_VID_FMT_ID ∧
    (s0.layers 1).fmt = fmt_at av_buf_gfx_fmts AV_BUF_DEFAULT_GFX_FMT_ID := by
  have hi := probe_ok_inv kzalloc_ok blend av_buf aud node string0 s0 hp
  obtain ⟨b, a, d, _, _, _, hz, hs⟩ := probe_ok_eq kzalloc_ok blend av_buf aud node string0 s0 hp
  obtain ⟨p0, p1, f0, f1⟩ := parse_of_primary (probe_layers b a d) node string0 hz
  rw [← hs] at p0 p1 f0 f1
  refine ⟨hi.1, ?_, ?_, ?_, ?_⟩
  · rw [p0]; simp [probe_layers]
  · rw [p1]; simp [probe_layers]
  · rw [f0]; rfl
  · rw [f1]; rfl

/-- The default descriptors assigned by `probe` are entries of their own catalogs. -/
theorem probe_ok_fmt_mem (kzalloc_ok : Bool) (blend av_buf aud : Except Int iomem)
    (node : device_node) (string0 : String) (s0 : xilinx_drm_dp_sub)
    (hp : xilinx_drm_dp_sub_probe kzalloc_ok blend av_buf aud node string0 = .ok s0)
    (i : Fin 2) : (s0.layers i).fmt ∈ catalog (s0.layers i).id := by
  obtain ⟨hl, _, _, f0, f1⟩ := probe_ok_layers kzalloc_ok blend av_buf aud node string0 s0 hp
  fin_cases i
  · show (s0.layers 0).fmt ∈ catalog (s0.layers 0).id
    rw [f0, hl.1]; decide
  · show (s0.layers 1).fmt ∈ catalog (s0.layers 1).id
    rw [f1, hl.2.2.2.1]; decide

/-- C14: the two default indices are inside their tables, and in the state `probe`
registers and after any sequence of public operations the video layer (`layers[0]`,
`id` video) holds an entry of the video table and the graphics layer (`layers[1]`,
`id` graphics) holds an entry of the graphics table. -/
theorem fmt_in_own_catalog (kzalloc_ok : Bool) (blend av_buf aud : Except Int iomem)
    (node : device_node) (string0 : String) (s0 : xilinx_drm_dp_sub) (ops : List dp_sub_op)
    (hp : xilinx_drm_dp_sub_probe kzalloc_ok blend av_buf aud node string0 = .ok s0) :
    AV_BUF_DEFAULT_VID_FMT_ID < av_buf_vid_fmts.length ∧
    AV_BUF_DEFAULT_GFX_FMT_ID < av_buf_gfx_fmts.length ∧
    ((run_ops s0 ops).layers 0).id = .XILINX_DRM_DP_SUB_LAYER_VID ∧
    ((run_ops s0 ops).layers 0).fmt ∈ av_buf_vid_fmts ∧
    ((run_ops s0 ops).layers 1).id = .XILINX_DRM_DP_SUB_LAYER_GFX ∧
    ((run_ops s0 ops).layers 1).fmt ∈ av_buf_gfx_fmts := by
  obtain ⟨hl, _⟩ := probe_ok_layers kzalloc_ok blend av_buf aud node string0 s0 hp
  obtain ⟨a0, _, _, _, e0⟩ := run_ops_fixed_fields ops s0 0
    (probe_ok_fmt_mem kzalloc_ok blend av_buf aud node string0 s0 hp 0)
  obtain ⟨a1, _, _, _, e1⟩ := run_ops_fixed_fields ops s0 1
    (probe_ok_fmt_mem kzalloc_ok blend av_buf aud node string0 s0 hp 1)
  rw [hl.1] at a0 e0
  rw [hl.2.2.2.1] at a1 e1
  exact ⟨by decide, by decide, a0, e0, a1, e1⟩

/-- C15: after a successful `probe` the video layer is primary exactly when the
`xlnx,vid-primary` boolean is set and the graphics layer exactly when it is not, so
exactly one layer is primary; every public operation, in every state, leaves both
`primary` flags as they are, and so does every sequence of public operations
after `probe`. -/
theorem primary_assigned_once (kzalloc_ok : Bool) (blend av_buf aud : Except Int iomem)
    (node : device_node) (string0 : String) (s0 : xilinx_drm_dp_sub)
    (hp : xilinx_drm_dp_sub_probe kzalloc_ok blend av_buf aud node string0 = .ok s0) :
    (s0.layers 0).primary = node.vid_primary ∧ (s0.layers 1).primary = !node.vid_primary ∧
    (∃! i : Fin 2, (s0.layers i).primary = true) ∧
    (∀ (s : xilinx_drm_dp_sub) (op : dp_sub_op) (i : Fin 2),
      ((op.apply s).layers i).primary = (s.layers i).primary) ∧
    (∀ (ops : List dp_sub_op) (i : Fin 2),
      ((run_ops s0 ops).layers i).primary = (s0.layers i).primary) := by
  obtain ⟨_, p0, p1, _⟩ := probe_ok_layers kzalloc_ok blend av_buf aud node string0 s0 hp
  refine ⟨p0, p1, ?_, fun s op i => (dp_sub_op_fixed_fields s op i).2.2.2.1, fun ops i =>
    (run_ops_fixed_fields ops s0 i
      (probe_ok_fmt_mem kzalloc_ok blend av_buf aud node string0 s0 hp i)).2.2.2.1⟩
  cases hv : node.vid_primary
  · refine ⟨1, by simp [p1, hv], ?_⟩
    intro j hj
    fin_cases j
    · simp [p0, hv] at hj
    · rfl
  · refine ⟨0, by simp [p0, hv], ?_⟩
    intro j hj
    fin_cases j
    · rfl
    · simp [p1, hv] at hj

/-- Instance of C14: after the demonstration sequence the video layer holds the entry
for BGR888 and the graphics layer the entry for RGB888 (YUYV, a video-only id, was
refused for it). -/
theorem fmt_in_own_catalog_witness :
    ((run_ops dp_sub0 demo_public_ops).layers 0).fmt ∈ av_buf_vid_fmts ∧
    ((run_ops dp_sub0 demo_public_ops).layers 1).fmt ∈ av_buf_gfx_fmts ∧
    xilinx_drm_dp_sub_layer_get_fmt (run_ops dp_sub0 demo_public_ops) 0 = DRM_FORMAT_BGR888 ∧
    xilinx_drm_dp_sub_layer_get_fmt (run_ops dp_sub0 demo_public_ops) 1 = DRM_FORMAT_RGB888 :=
  have h := fmt_in_own_catalog true (.ok zero_window) (.ok zero_window) (.ok zero_window)
    node_gfx_primary "" dp_sub0 demo_public_ops probe_gfx_primary
  ⟨h.2.2.2.1, h.2.2.2.2.2, by decide, by decide⟩

/-- Instance of C15: with `xlnx,vid-primary` absent the graphics layer is the primary
one, also after the demonstration sequence. -/
theorem primary_assigned_once_witness :
    (dp_sub0.layers 0).primary = false ∧ (dp_sub0.layers 1).primary = true ∧
    ((run_ops dp_sub0 demo_public_ops).layers 1).primary = (dp_sub0.layers 1).primary :=
  have h := primary_assigned_once true (.ok zero_window) (.ok zero_window) (.ok zero_window)
    node_gfx_primary "" dp_sub0 probe_gfx_primary
  ⟨h.1, h.2.1, h.2.2.2.2 demo_public_ops 1⟩


/-! ## Subsystem enable and disable -/

/-- The AV-buffer window after subsystem disable. -/
theorem dp_sub_disable_av_buf (s : xilinx_drm_dp_sub) (p : Nat) :
    (xilinx_drm_dp_sub_disable s).av_buf p =
      if p ∈ [0x10, 0x14, 0x18, 0x1c, 0x20, 0x24] then 2
      else if p = 0x70 then
        ((xilinx_drm_readl s.av_buf 0x70 &&& not32 0x30) ||| 0x30) &&& not32 0x40
      else s.av_buf p := by
  have h2 : (2 &&& 4294967294) % 4294967296 = 2 := by decide
  have h3 : ∀ x : Nat, (x &&& 4294967231) % 4294967296 = x &&& 4294967231 := fun x =>
    Nat.mod_eq_of_lt (Nat.and_lt_two_pow x (show 4294967231 < 2 ^ 32 by norm_num))
  simp only [xilinx_drm_dp_sub_disable, xilinx_drm_dp_sub_av_buf_disable_buf, for_loop,
    xilinx_drm_dp_sub_av_buf_disable_aud, XILINX_DP_SUB_AV_BUF_NUM_BUFFERS,
    XILINX_DP_SUB_AV_BUF_CHBUF, XILINX_DP_SUB_AV_BUF_CHBUF_FLUSH,
    XILINX_DP_SUB_AV_BUF_CHBUF_EN, XILINX_DP_SUB_AV_BUF_OUTPUT,
    XILINX_DP_SUB_AV_BUF_OUTPUT_AUD1_MASK, XILINX_DP_SUB_AV_BUF_OUTPUT_AUD1_DISABLE,
    XILINX_DP_SUB_AV_BUF_OUTPUT_AUD2_EN]
  simp [List.range', writel_apply, BIT, not32, h2, h3]
  split_ifs <;> simp_all

/-- The writes of subsystem disable: the output-routing register, then the six
channel-buffer registers. -/
theorem dp_sub_disable_io_log (s : xilinx_drm_dp_sub) :
    (xilinx_drm_dp_sub_disable s).io_log = s.io_log ++
      [⟨.av_buf, 0x70,
         ((xilinx_drm_readl s.av_buf 0x70 &&& not32 0x30) ||| 0x30) &&& not32 0x40⟩,
       ⟨.av_buf, 0x10, 2⟩, ⟨.av_buf, 0x14, 2⟩, ⟨.av_buf, 0x18, 2⟩,
       ⟨.av_buf, 0x1c, 2⟩, ⟨.av_buf, 0x20, 2⟩, ⟨.av_buf, 0x24, 2⟩] := by
  have h2 : (2 &&& 4294967294) % 4294967296 = 2 := by decide
  have h3 : ∀ x : Nat, (x &&& 4294967231) % 4294967296 = x &&& 4294967231 := fun x =>
    Nat.mod_eq_of_lt (Nat.and_lt_two_pow x (show 4294967231 < 2 ^ 32 by norm_num))
  simp only [xilinx_drm_dp_sub_disable, xilinx_drm_dp_sub_av_buf_disable_buf, for_loop,
    xilinx_drm_dp_sub_av_buf_disable_aud, XILINX_DP_SUB_AV_BUF_NUM_BUFFERS,
    XILINX_DP_SUB_AV_BUF_CHBUF, XILINX_DP_SUB_AV_BUF_CHBUF_FLUSH,
    XILINX_DP_SUB_AV_BUF_CHBUF_EN, XILINX_DP_SUB_AV_BUF_OUTPUT,
    XILINX_DP_SUB_AV_BUF_OUTPUT_AUD1_MASK, XILINX_DP_SUB_AV_BUF_OUTPUT_AUD1_DISABLE,
    XILINX_DP_SUB_AV_BUF_OUTPUT_AUD2_EN]
  simp [List.range', BIT, not32, h2, h3]

/-- Subsystem disable touches neither the blend window, nor the audio window, nor the
vblank slot. -/
theorem dp_sub_disable_other (s : xilinx_drm_dp_sub) :
    (xilinx_drm_dp_sub_disable s).blend = s.blend ∧ (xilinx_drm_dp_sub_disable s).aud = s.aud ∧
    (xilinx_drm_dp_sub_disable s).vblank_fn = s.vblank_fn ∧
    (xilinx_drm_dp_sub_disable s).vblank_data = s.vblank_data := by
  simp [xilinx_drm_dp_sub_disable, xilinx_drm_dp_sub_av_buf_disable_buf, for_loop,
    xilinx_drm_dp_sub_av_buf_disable_aud, XILINX_DP_SUB_AV_BUF_NUM_BUFFERS, List.range']

/-- C19: subsystem disable writes each of the six channel-buffer registers
(0x10, 0x14, ..., 0x24) with 0x2 (flush set, enable clear), and rewrites the
output-routing register 0x70 with the audio-1 field (mask 0x30) set to
'disable' (3 << 4) and the audio-2 enable bit (0x40) clear, every other bit as in
its prior value `r`. These seven writes are all it issues: every other AV-buffer
register (the input-format register 0x0, the clock-source register 0x120 and
the scaling-factor registers among them), the blend and audio windows, the layers
and the vblank slot are unchanged. -/
theorem subsystem_disable_effect (s : xilinx_drm_dp_sub) :
    let r := xilinx_drm_readl s.av_buf 0x70
    let s1 := xilinx_drm_dp_sub_disable s
    (∀ i, i < 6 → s1.av_buf (0x10 + 4 * i) = 2) ∧
    ((2 : Nat).testBit 1 = true ∧ (2 : Nat).testBit 0 = false) ∧
    s1.av_buf 0x70 = ((r &&& not32 0x30) ||| 0x30) &&& not32 0x40 ∧
    s1.av_buf 0x70 &&& 0x30 = 0x30 ∧ s1.av_buf 0x70 &&& 0x40 = 0 ∧
    s1.av_buf 0x70 &&& not32 0x70 = r &&& not32 0x70 ∧
    s1.io_log = s.io_log ++
      [⟨.av_buf, 0x70, ((r &&& not32 0x30) ||| 0x30) &&& not32 0x40⟩,
       ⟨.av_buf, 0x10, 2⟩, ⟨.av_buf, 0x14, 2⟩, ⟨.av_buf, 0x18, 2⟩,
       ⟨.av_buf, 0x1c, 2⟩, ⟨.av_buf, 0x20, 2⟩, ⟨.av_buf, 0x24, 2⟩] ∧
    (∀ p, p ∉ [0x10, 0x14, 0x18, 0x1c, 0x20, 0x24, 0x70] → s1.av_buf p = s.av_buf p) ∧
    s1.av_buf 0x0 = s.av_buf 0x0 ∧ s1.av_buf 0x120 = s.av_buf 0x120 ∧
    (∀ p ∈ [0x200, 0x204, 0x208, 0x20c, 0x210, 0x214], s1.av_buf p = s.av_buf p) ∧
    s1.blend = s.blend ∧ s1.aud = s.aud ∧ s1.layers = s.layers ∧
    s1.vblank_fn = s.vblank_fn ∧ s1.vblank_data = s.vblank_data := by
  intro r s1
  have hv : s1.av_buf 0x70 = ((r &&& not32 0x30) ||| 0x30) &&& not32 0x40 := by
    rw [dp_sub_disable_av_buf]; simp
  have hfr : ∀ p, p ∉ [0x10, 0x14, 0x18, 0x1c, 0x20, 0x24, 0x70] → s1.av_buf p = s.av_buf p := by
    intro p hp
    rw [dp_sub_disable_av_buf]
    simp only [List.mem_cons, List.mem_singleton, not_or, List.mem_nil_iff, or_false] at hp
    simp [hp]
  obtain ⟨o1, o2, o3, o4⟩ := dp_sub_disable_other s
  refine ⟨?_, by decide, hv, ?_, ?_, ?_, dp_sub_disable_io_log s, hfr, hfr _ (by decide),
    hfr _ (by decide), ?_, o1, o2, dp_sub_disable_layers s, o3, o4⟩
  · intro i hi
    rw [dp_sub_disable_av_buf]
    interval_cases i <;> simp
  · rw [hv, Nat.and_assoc, show not32 0x40 &&& 0x30 = 0x30 by decide]
    exact rmw_own_field _ _ _ _ (by decide) (by decide)
  · rw [hv, Nat.and_assoc, show not32 0x40 &&& 0x40 = 0 by decide, Nat.and_zero]
  · rw [hv, Nat.and_assoc, show not32 0x40 &&& not32 0x70 = not32 0x70 by decide]
    exact rmw_other_field _ _ _ _ (by decide) (by decide)
  · intro p hp
    apply hfr
    simp only [List.mem_cons, List.mem_singleton, List.mem_nil_iff, or_false] at hp
    rcases hp with h | h | h | h | h | h <;> subst h <;> decide

/-- Instance of C19: disabling after an enable from the probed state turns the
output-routing register from 0x50 into 0x30 and the first channel buffer from 0x3d
into 0x2, and keeps the input-format register. -/
theorem subsystem_disable_effect_witness :
    (xilinx_drm_dp_sub_enable dp_sub0).av_buf 0x70 = 0x50 ∧
    (xilinx_drm_dp_sub_disable (xilinx_drm_dp_sub_enable dp_sub0)).av_buf 0x70 &&& 0x30 = 0x30 ∧
    (xilinx_drm_dp_sub_disable (xilinx_drm_dp_sub_enable dp_sub0)).av_buf 0x70 = 0x30 ∧
    (xilinx_drm_dp_sub_disable (xilinx_drm_dp_sub_enable dp_sub0)).av_buf 0x10 = 0x2 ∧
    (xilinx_drm_dp_sub_disable (xilinx_drm_dp_sub_enable dp_sub0)).av_buf 0x0 =
      (xilinx_drm_dp_sub_enable dp_sub0).av_buf 0x0 :=
  have h := subsystem_disable_effect (xilinx_drm_dp_sub_enable dp_sub0)
  ⟨by decide, h.2.2.2.1, by decide, by decide, h.2.2.2.2.2.2.2.2.1⟩


/-- A write to the audio window, read back through the audio window. -/
@[simp] theorem writel_aud_aud (s : xilinx_drm_dp_sub) (o v : Nat) :
    (s.writel .aud o v).aud = xilinx_drm_writel s.aud o v := rfl

/-- A write to the audio window leaves the blend window. -/
@[simp] theorem writel_aud_blend (s : xilinx_drm_dp_sub) (o v : Nat) :
    (s.writel .aud o v).blend = s.blend := rfl

/-- A write to the audio window leaves the AV-buffer window. -/
@[simp] theorem writel_aud_av_buf (s : xilinx_drm_dp_sub) (o v : Nat) :
    (s.writel .aud o v).av_buf = s.av_buf := rfl

/-- The AV-buffer registers below 0x10 after subsystem enable: only the input-format
register is written. -/
theorem dp_sub_enable_av_buf_low (s : xilinx_drm_dp_sub) (p : Nat) (hp : p < 0x10) :
    (xilinx_drm_dp_sub_enable s).av_buf p =
      if p = 0 then ((s.layers 0).fmt.dp_sub_fmt ||| (s.layers 1).fmt.dp_sub_fmt) % 2 ^ 32
      else s.av_buf p := by
  simp only [xilinx_drm_dp_sub_enable, xilinx_drm_dp_sub_aud_init, xilinx_drm_dp_sub.set_bits,
    xilinx_drm_dp_sub_av_buf_enable_aud, xilinx_drm_dp_sub_av_buf_enable_buf, for_loop,
    xilinx_drm_dp_sub_av_buf_set_aud_clock_src,
    xilinx_drm_dp_sub_av_buf_set_vid_timing_src, xilinx_drm_dp_sub_av_buf_set_vid_clock_src,
    xilinx_drm_dp_sub_av_buf_init_sf, xilinx_drm_dp_sub_av_buf_init_fmts,
    XILINX_DP_SUB_AV_BUF_NUM_BUFFERS, XILINX_DP_SUB_AV_BUF_NUM_VID_GFX_BUFFERS,
    XILINX_DP_SUB_AV_BUF_NUM_SF, XILINX_DP_SUB_AV_BUF_CHBUF, XILINX_DP_SUB_AV_BUF_OUTPUT,
    XILINX_DP_SUB_AV_BUF_CLK_SRC, XILINX_DP_SUB_AV_BUF_GFX_COMP0_SF,
    XILINX_DP_SUB_AV_BUF_VID_COMP0_SF, XILINX_DP_SUB_AV_BUF_FORMAT,
    XILINX_DP_SUB_AUD_MIXER_VOLUME, xilinx_drm_dp_sub_layer_type.idx]
  simp [List.range', writel_apply]
  have : p ≠ 36 ∧ p ≠ 32 ∧ p ≠ 28 ∧ p ≠ 24 ∧ p ≠ 20 ∧ p ≠ 16 ∧ p ≠ 112 ∧ p ≠ 288 ∧ p ≠ 524 ∧
      p ≠ 512 := by omega
  simp [this]


/-- The AV-buffer registers from 0x200 on after subsystem enable: only 0x200 and
0x20c are written, and they hold the value of the last write, `sf[2]`. -/
theorem dp_sub_enable_av_buf_high (s : xilinx_drm_dp_sub) (p : Nat) (hp : 0x200 ≤ p) :
    (xilinx_drm_dp_sub_enable s).av_buf p =
      if p = 0x20c then (s.layers 0).fmt.sf2 % 2 ^ 32
      else if p = 0x200 then (s.layers 1).fmt.sf2 % 2 ^ 32
      else s.av_buf p := by
  simp only [xilinx_drm_dp_sub_enable, xilinx_drm_dp_sub_aud_init, xilinx_drm_dp_sub.set_bits,
    xilinx_drm_dp_sub_av_buf_enable_aud, xilinx_drm_dp_sub_av_buf_enable_buf, for_loop,
    xilinx_drm_dp_sub_av_buf_set_aud_clock_src,
    xilinx_drm_dp_sub_av_buf_set_vid_timing_src, xilinx_drm_dp_sub_av_buf_set_vid_clock_src,
    xilinx_drm_dp_sub_av_buf_init_sf, xilinx_drm_dp_sub_av_buf_init_fmts,
    XILINX_DP_SUB_AV_BUF_NUM_BUFFERS, XILINX_DP_SUB_AV_BUF_NUM_VID_GFX_BUFFERS,
    XILINX_DP_SUB_AV_BUF_NUM_SF, XILINX_DP_SUB_AV_BUF_CHBUF, XILINX_DP_SUB_AV_BUF_OUTPUT,
    XILINX_DP_SUB_AV_BUF_CLK_SRC, XILINX_DP_SUB_AV_BUF_GFX_COMP0_SF,
    XILINX_DP_SUB_AV_BUF_VID_COMP0_SF, XILINX_DP_SUB_AV_BUF_FORMAT,
    XILINX_DP_SUB_AUD_MIXER_VOLUME, xilinx_drm_dp_sub_layer_type.idx]
  have : p ≠ 36 ∧ p ≠ 32 ∧ p ≠ 28 ∧ p ≠ 24 ∧ p ≠ 20 ∧ p ≠ 16 ∧ p ≠ 112 ∧ p ≠ 288 ∧ p ≠ 0 := by
    omega
  simp [List.range', writel_apply, this, xilinx_drm_dp_sub_fmt.sf]
  by_cases h1 : p = 524 <;> by_cases h2 : p = 512 <;> simp [h1, h2]

/-- The writes of subsystem enable, in order. -/
theorem dp_sub_enable_io_log (s : xilinx_drm_dp_sub) :
    ∃ c1 c2 c3 o m, (xilinx_drm_dp_sub_enable s).io_log = s.io_log ++
      [⟨.av_buf, 0x0, ((s.layers 0).fmt.dp_sub_fmt ||| (s.layers 1).fmt.dp_sub_fmt) % 2 ^ 32⟩,
       ⟨.av_buf, 0x200, (s.layers 1).fmt.sf0 % 2 ^ 32⟩,
       ⟨.av_buf, 0x200, (s.layers 1).fmt.sf1 % 2 ^ 32⟩,
       ⟨.av_buf, 0x200, (s.layers 1).fmt.sf2 % 2 ^ 32⟩,
       ⟨.av_buf, 0x20c, (s.layers 0).fmt.sf0 % 2 ^ 32⟩,
       ⟨.av_buf, 0x20c, (s.layers 0).fmt.sf1 % 2 ^ 32⟩,
       ⟨.av_buf, 0x20c, (s.layers 0).fmt.sf2 % 2 ^ 32⟩,
       ⟨.av_buf, 0x120, c1⟩, ⟨.av_buf, 0x120, c2⟩, ⟨.av_buf, 0x120, c3⟩,
       ⟨.av_buf, 0x10, 0x3d⟩, ⟨.av_buf, 0x14, 0x3d⟩, ⟨.av_buf, 0x18, 0x3d⟩,
       ⟨.av_buf, 0x1c, 0x3d⟩, ⟨.av_buf, 0x20, 0xd⟩, ⟨.av_buf, 0x24, 0xd⟩,
       ⟨.av_buf, 0x70, o⟩, ⟨.aud, 0x0, m⟩] := by
  simp only [xilinx_drm_dp_sub_enable, xilinx_drm_dp_sub_aud_init, xilinx_drm_dp_sub.set_bits,
    xilinx_drm_dp_sub_av_buf_enable_aud, xilinx_drm_dp_sub_av_buf_enable_buf, for_loop,
    xilinx_drm_dp_sub_av_buf_set_aud_clock_src,
    xilinx_drm_dp_sub_av_buf_set_vid_timing_src, xilinx_drm_dp_sub_av_buf_set_vid_clock_src,
    xilinx_drm_dp_sub_av_buf_init_sf, xilinx_drm_dp_sub_av_buf_init_fmts,
    XILINX_DP_SUB_AV_BUF_NUM_BUFFERS, XILINX_DP_SUB_AV_BUF_NUM_VID_GFX_BUFFERS,
    XILINX_DP_SUB_AV_BUF_NUM_SF, XILINX_DP_SUB_AV_BUF_CHBUF, XILINX_DP_SUB_AV_BUF_OUTPUT,
    XILINX_DP_SUB_AV_BUF_CLK_SRC, XILINX_DP_SUB_AV_BUF_GFX_COMP0_SF,
    XILINX_DP_SUB_AV_BUF_VID_COMP0_SF, XILINX_DP_SUB_AV_BUF_FORMAT,
    XILINX_DP_SUB_AUD_MIXER_VOLUME, xilinx_drm_dp_sub_layer_type.idx,
    XILINX_DP_SUB_AV_BUF_CHBUF_EN, XILINX_DP_SUB_AV_BUF_CHBUF_BURST_LEN_MAX,
    XILINX_DP_SUB_AV_BUF_CHBUF_BURST_LEN_AUD_MAX, XILINX_DP_SUB_AV_BUF_CHBUF_BURST_LEN_SHIFT]
  simp [List.range', xilinx_drm_dp_sub_fmt.sf, BIT]


/-- C17 (the code): in every state, subsystem enable issues its six scaling-factor
writes to two registers only: `sf[0]`, `sf[1]`, `sf[2]` of the graphics descriptor
all go to 0x200 and those of the video descriptor all go to 0x20c, and no other
write reaches 0x200 or above. Afterwards 0x200 and 0x20c hold `sf[2]`, and 0x204,
0x208, 0x210, 0x214 hold what they held before. With the video layer on YUYV and
the graphics layer on its default RGB565 over zeroed registers, 0x20c reads 0
where `sf[0]` of the video descriptor is 0x10101, and 0x204 reads 0 where `sf[1]`
of the graphics descriptor is 0x10410. -/
theorem subsystem_enable_sf_one_register (s : xilinx_drm_dp_sub) :
    let s1 := xilinx_drm_dp_sub_enable s
    (∃ c0 rest, s1.io_log = s.io_log ++ c0 ::
        [⟨.av_buf, 0x200, (s.layers 1).fmt.sf0 % 2 ^ 32⟩,
         ⟨.av_buf, 0x200, (s.layers 1).fmt.sf1 % 2 ^ 32⟩,
         ⟨.av_buf, 0x200, (s.layers 1).fmt.sf2 % 2 ^ 32⟩,
         ⟨.av_buf, 0x20c, (s.layers 0).fmt.sf0 % 2 ^ 32⟩,
         ⟨.av_buf, 0x20c, (s.layers 0).fmt.sf1 % 2 ^ 32⟩,
         ⟨.av_buf, 0x20c, (s.layers 0).fmt.sf2 % 2 ^ 32⟩] ++ rest ∧
      ∀ w ∈ c0 :: rest, w.offset < 0x200) ∧
    s1.av_buf 0x200 = (s.layers 1).fmt.sf2 % 2 ^ 32 ∧
    s1.av_buf 0x204 = s.av_buf 0x204 ∧ s1.av_buf 0x208 = s.av_buf 0x208 ∧
    s1.av_buf 0x20c = (s.layers 0).fmt.sf2 % 2 ^ 32 ∧
    s1.av_buf 0x210 = s.av_buf 0x210 ∧ s1.av_buf 0x214 = s.av_buf 0x214 ∧
    (dp_sub_vid_yuyv.layers 0).fmt.sf 0 = 0x10101 ∧
    (xilinx_drm_dp_sub_enable dp_sub_vid_yuyv).av_buf 0x20c = 0 ∧
    (dp_sub_vid_yuyv.layers 1).fmt.sf 1 = 0x10410 ∧
    (xilinx_drm_dp_sub_enable dp_sub_vid_yuyv).av_buf 0x204 = 0 := by
  intro s1
  obtain ⟨c1, c2, c3, o, m, hlog⟩ := dp_sub_enable_io_log s
  refine ⟨⟨⟨.av_buf, 0x0, ((s.layers 0).fmt.dp_sub_fmt ||| (s.layers 1).fmt.dp_sub_fmt) % 2 ^ 32⟩,
      [⟨.av_buf, 0x120, c1⟩, ⟨.av_buf, 0x120, c2⟩, ⟨.av_buf, 0x120, c3⟩,
       ⟨.av_buf, 0x10, 0x3d⟩, ⟨.av_buf, 0x14, 0x3d⟩, ⟨.av_buf, 0x18, 0x3d⟩,
       ⟨.av_buf, 0x1c, 0x3d⟩, ⟨.av_buf, 0x20, 0xd⟩, ⟨.av_buf, 0x24, 0xd⟩,
       ⟨.av_buf, 0x70, o⟩, ⟨.aud, 0x0, m⟩], ?_, ?_⟩,
    ?_, ?_, ?_, ?_, ?_, ?_, by decide, by decide, by decide, by decide⟩
  · rw [hlog]; simp
  · intro w hw
    simp only [List.mem_cons, List.mem_singleton, List.mem_nil_iff, or_false] at hw
    rcases hw with h | h | h | h | h | h | h | h | h | h | h | h <;> subst h <;> simp
  all_goals
    simp only [s1]
    rw [dp_sub_enable_av_buf_high s _ (by decide)]
    simp

/-- C18: when the video layer (`layers[0]`) holds an entry of the video table and the
graphics layer (`layers[1]`) an entry of the graphics table, subsystem enable
writes the input-format register once, with video code OR graphics code, and that
is its value afterwards: the video bitfield (mask 0x1f) is the video code, the
graphics bitfield (mask 0xf00) the graphics code, and the two codes share no bit. -/
theorem subsystem_enable_format (s : xilinx_drm_dp_sub)
    (hv : (s.layers 0).fmt ∈ av_buf_vid_fmts) (hg : (s.layers 1).fmt ∈ av_buf_gfx_fmts) :
    let vc := (s.layers 0).fmt.dp_sub_fmt
    let gc := (s.layers 1).fmt.dp_sub_fmt
    let s1 := xilinx_drm_dp_sub_enable s
    (∃ rest, s1.io_log = s.io_log ++ ⟨.av_buf, 0x0, vc ||| gc⟩ :: rest ∧
      ∀ w ∈ rest, ¬ (w.bank = .av_buf ∧ w.offset = 0x0)) ∧
    s1.av_buf 0x0 = vc ||| gc ∧
    s1.av_buf 0x0 &&& 0x1f = vc ∧ s1.av_buf 0x0 &&& 0xf00 = gc ∧ vc &&& gc = 0 := by
  intro vc gc s1
  obtain ⟨vlt, vown, voth, _⟩ := catalog_codes .XILINX_DRM_DP_SUB_LAYER_VID _ hv
  obtain ⟨glt, gown, goth, _⟩ := catalog_codes .XILINX_DRM_DP_SUB_LAYER_GFX _ hg
  have v1 : vc &&& 0x1f = vc := vown
  have v2 : vc &&& 0xf00 = 0 := voth .XILINX_DRM_DP_SUB_LAYER_GFX (by decide)
  have g1 : gc &&& 0xf00 = gc := gown
  have g2 : gc &&& 0x1f = 0 := goth .XILINX_DRM_DP_SUB_LAYER_VID (by decide)
  have hlt : vc ||| gc < 2 ^ 32 := Nat.or_lt_two_pow vlt glt
  have hval : s1.av_buf 0x0 = vc ||| gc := by
    simp only [s1]
    rw [dp_sub_enable_av_buf_low s 0 (by decide), if_pos rfl]
    exact Nat.mod_eq_of_lt hlt
  obtain ⟨c1, c2, c3, o, m, hlog⟩ := dp_sub_enable_io_log s
  refine ⟨⟨[⟨.av_buf, 0x200, (s.layers 1).fmt.sf0 % 2 ^ 32⟩,
       ⟨.av_buf, 0x200, (s.layers 1).fmt.sf1 % 2 ^ 32⟩,
       ⟨.av_buf, 0x200, (s.layers 1).fmt.sf2 % 2 ^ 32⟩,
       ⟨.av_buf, 0x20c, (s.layers 0).fmt.sf0 % 2 ^ 32⟩,
       ⟨.av_buf, 0x20c, (s.layers 0).fmt.sf1 % 2 ^ 32⟩,
       ⟨.av_buf, 0x20c, (s.layers 0).fmt.sf2 % 2 ^ 32⟩,
       ⟨.av_buf, 0x120, c1⟩, ⟨.av_buf, 0x120, c2⟩, ⟨.av_buf, 0x120, c3⟩,
       ⟨.av_buf, 0x10, 0x3d⟩, ⟨.av_buf, 0x14, 0x3d⟩, ⟨.av_buf, 0x18, 0x3d⟩,
       ⟨.av_buf, 0x1c, 0x3d⟩, ⟨.av_buf, 0x20, 0xd⟩, ⟨.av_buf, 0x24, 0xd⟩,
       ⟨.av_buf, 0x70, o⟩, ⟨.aud, 0x0, m⟩], ?_, ?_⟩, hval, ?_, ?_, ?_⟩
  · rw [hlog, Nat.mod_eq_of_lt hlt]
  · intro w hw
    simp only [List.mem_cons, List.mem_singleton, List.mem_nil_iff, or_false] at hw
    rcases hw with h | h | h | h | h | h | h | h | h | h | h | h | h | h | h | h | h <;>
      subst h <;> simp
  · rw [hval, Nat.and_distrib_right, v1, g2, Nat.or_zero]
  · rw [hval, Nat.and_distrib_right, v2, g1, Nat.zero_or]
  · rw [← v1, Nat.and_assoc, Nat.and_comm 0x1f gc, g2, Nat.and_zero]

/-! ## Format lookup -/

/-- A descriptor found by the table scan is preceded only by entries with other ids. -/
theorem map_fmt_first_match (fmts : List xilinx_drm_dp_sub_fmt) (drm_fmt : Nat)
    (d : xilinx_drm_dp_sub_fmt)
    (h : xilinx_drm_dp_sub_map_fmt fmts fmts.length drm_fmt = some d) :
    ∃ pre post, fmts = pre ++ d :: post ∧ ∀ e ∈ pre, e.drm_fmt ≠ drm_fmt := by
  induction fmts with
  | nil => simp [xilinx_drm_dp_sub_map_fmt] at h
  | cons g rest ih =>
    by_cases hg : g.drm_fmt = drm_fmt
    · simp [xilinx_drm_dp_sub_map_fmt, hg] at h
      subst h
      exact ⟨[], rest, rfl, by simp⟩
    · simp [xilinx_drm_dp_sub_map_fmt, hg] at h
      obtain ⟨pre, post, hp, hne⟩ := ih h
      refine ⟨g :: pre, post, by rw [hp]; rfl, ?_⟩
      intro e he
      rcases List.mem_cons.1 he with rfl | he
      · exact hg
      · exact hne e he

/-- C20: for every table scanned over its whole length (the three catalogs are passed
with `ARRAY_SIZE`) and every abstract id: the lookup returns `NULL` exactly when no
entry has the id; when some entry has it, the lookup returns a descriptor; and a
returned descriptor is an entry of the table with that id, the first one in table
order. -/
theorem map_fmt_spec (fmts : List xilinx_drm_dp_sub_fmt) (drm_fmt : Nat) :
    (xilinx_drm_dp_sub_map_fmt fmts fmts.length drm_fmt = none ↔
      ∀ e ∈ fmts, e.drm_fmt ≠ drm_fmt) ∧
    ((∃ e ∈ fmts, e.drm_fmt = drm_fmt) →
      ∃ d, xilinx_drm_dp_sub_map_fmt fmts fmts.length drm_fmt = some d) ∧
    (∀ d, xilinx_drm_dp_sub_map_fmt fmts fmts.length drm_fmt = some d →
      d ∈ fmts ∧ d.drm_fmt = drm_fmt ∧
      ∃ pre post, fmts = pre ++ d :: post ∧ ∀ e ∈ pre, e.drm_fmt ≠ drm_fmt) := by
  refine ⟨map_fmt_eq_none_iff fmts drm_fmt, ?_, ?_⟩
  · rintro ⟨e, he, hed⟩
    cases hm : xilinx_drm_dp_sub_map_fmt fmts fmts.length drm_fmt with
    | none => exact absurd hed ((map_fmt_eq_none_iff fmts drm_fmt).1 hm e he)
    | some d => exact ⟨d, rfl⟩
  · intro d hd
    exact ⟨(map_fmt_some_mem fmts drm_fmt d hd).1, (map_fmt_some_mem fmts drm_fmt d hd).2,
      map_fmt_first_match fmts drm_fmt d hd⟩

/-- Instance of C18 at the probed state: the defaults XBGR8888 (code 11) and RGB565
(code 6 << 8) give the register value 0x60b. -/
theorem subsystem_enable_format_witness :
    (dp_sub0.layers 0).fmt ∈ av_buf_vid_fmts ∧ (dp_sub0.layers 1).fmt ∈ av_buf_gfx_fmts ∧
    (xilinx_drm_dp_sub_enable dp_sub0).av_buf 0x0 = 0x60b ∧
    (xilinx_drm_dp_sub_enable dp_sub0).av_buf 0x0 &&& 0x1f = 11 ∧
    (xilinx_drm_dp_sub_enable dp_sub0).av_buf 0x0 &&& 0xf00 = 0x600 :=
  have h := subsystem_enable_format dp_sub0 (by decide) (by decide)
  ⟨by decide, by decide, h.2.1, h.2.2.1, h.2.2.2.1⟩

/-- Instances of C20 on the three catalogs: YUV422 is the third output entry, BGR888
the fifth video entry, RGB565 the last graphics entry; RGB565 is in neither the
output nor the video catalog. -/
theorem map_fmt_spec_witness :
    xilinx_drm_dp_sub_map_fmt blend_output_fmts blend_output_fmts.length DRM_FORMAT_YUV422 =
      some ⟨DRM_FORMAT_YUV422, 2, false, 0x10101, 0x11111, 0⟩ ∧
    xilinx_drm_dp_sub_map_fmt av_buf_vid_fmts av_buf_vid_fmts.length DRM_FORMAT_BGR888 =
      some ⟨DRM_FORMAT_BGR888, 10, true, 0x10101, 0x10101, 0x10101⟩ ∧
    xilinx_drm_dp_sub_map_fmt av_buf_gfx_fmts av_buf_gfx_fmts.length DRM_FORMAT_RGB565 =
      some ⟨DRM_FORMAT_RGB565, 0x600, true, 0x10842, 0x10410, 0x10842⟩ ∧
    xilinx_drm_dp_sub_map_fmt blend_output_fmts blend_output_fmts.length DRM_FORMAT_RGB565 =
      none ∧
    xilinx_drm_dp_sub_map_fmt av_buf_vid_fmts av_buf_vid_fmts.length DRM_FORMAT_RGB565 = none :=
  ⟨by decide, by decide, by decide,
   (map_fmt_spec blend_output_fmts DRM_FORMAT_RGB565).1.2 (by decide),
   (map_fmt_spec av_buf_vid_fmts DRM_FORMAT_RGB565).1.2 (by decide)⟩


/-! ## End-to-end scenario -/

/-- The layers after a successful parse: only a `primary` flag is set. -/
theorem parse_of_layers_eq (s : xilinx_drm_dp_sub) (node : device_node) (string0 : String)
    (h : (xilinx_drm_dp_sub_parse_of s node string0).1 = 0) :
    (xilinx_drm_dp_sub_parse_of s node string0).2.layers 0 =
      { s.layers 0 with primary := ((s.layers 0).primary || node.vid_primary) } ∧
    (xilinx_drm_dp_sub_parse_of s node string0).2.layers 1 =
      { s.layers 1 with primary := ((s.layers 1).primary || !node.vid_primary) } := by
  unfold xilinx_drm_dp_sub_parse_of at h ⊢
  simp only [] at h ⊢
  split_ifs at h ⊢ <;>
    simp_all [xilinx_drm_dp_sub_layer_type.idx, of_property_read_bool, EINVAL]

/-- Whatever the register contents and the colorimetry, a probe without
`xlnx,vid-primary` registers the layers of `dp_sub0`. -/
theorem probe_ok_gfx_primary_layers (kzalloc_ok : Bool) (blend av_buf aud : Except Int iomem)
    (node : device_node) (string0 : String) (s0 : xilinx_drm_dp_sub)
    (hp : xilinx_drm_dp_sub_probe kzalloc_ok blend av_buf aud node string0 = .ok s0)
    (hprim : node.vid_primary = false) :
    s0.layers 0 = dp_sub0.layers 0 ∧ s0.layers 1 = dp_sub0.layers 1 := by
  obtain ⟨b, a, d, _, _, _, hz, hs⟩ := probe_ok_eq kzalloc_ok blend av_buf aud node string0 s0 hp
  obtain ⟨p0, p1⟩ := parse_of_layers_eq (probe_layers b a d) node string0 hz
  rw [← hs, hprim] at p0 p1
  rw [p0, p1]
  exact ⟨rfl, rfl⟩


/-- C16: from any subsystem probed with the graphics layer primary (both layers then
disabled), whatever the registers hold: acquire(primary) returns the graphics
layer; set_format(graphics, RGBA8888) succeeds, puts that entry's device code 0x100
into the graphics bitfield of the format register and keeps the video bitfield;
check_size(graphics, 1920, 1080) succeeds; enable(graphics) makes graphics
`EnabledBypass` with control register 0x102 (RGB|BYPASS); acquire(non-primary)
returns the video layer; set_format(video, BGR888) and check_size(video, 1920, 1080)
succeed; enable(video) makes both layers `EnabledBlend` with both control
registers 0x3 (RGB|EN); disable(video) leaves video `Disabled` with register 0 and
graphics `EnabledBypass` with register 0x102. -/
theorem end_to_end_scenario (kzalloc_ok : Bool) (blend av_buf aud : Except Int iomem)
    (node : device_node) (string0 : String) (s0 : xilinx_drm_dp_sub)
    (hp : xilinx_drm_dp_sub_probe kzalloc_ok blend av_buf aud node string0 = .ok s0)
    (hprim : node.vid_primary = false) :
    let r1 := xilinx_drm_dp_sub_layer_get s0 true
    let r2 := xilinx_drm_dp_sub_layer_set_fmt r1.2 1 DRM_FORMAT_RGBA8888
    let r3 := xilinx_drm_dp_sub_layer_check_size r2.2 1 1920 1080
    let s4 := xilinx_drm_dp_sub_layer_enable r3.2 1
    let r5 := xilinx_drm_dp_sub_layer_get s4 false
    let r6 := xilinx_drm_dp_sub_layer_set_fmt r5.2 0 DRM_FORMAT_BGR888
    let r7 := xilinx_drm_dp_sub_layer_check_size r6.2 0 1920 1080
    let s8 := xilinx_drm_dp_sub_layer_enable r7.2 0
    let s9 := xilinx_drm_dp_sub_layer_disable s8 0
    r1.1 = .ok 1 ∧ (s0.layers 1).id = .XILINX_DRM_DP_SUB_LAYER_GFX ∧ r2.1 = 0 ∧
    (∃ e ∈ av_buf_gfx_fmts, e.drm_fmt = DRM_FORMAT_RGBA8888 ∧ e.dp_sub_fmt = 0x100) ∧
    r2.2.av_buf 0x0 &&& 0xf00 = 0x100 ∧
    r2.2.av_buf 0x0 &&& 0x1f = xilinx_drm_readl s0.av_buf 0x0 &&& 0x1f ∧
    r3.1 = 0 ∧ s4.state_of 1 = .EnabledBypass ∧ s4.state_of 0 = .Disabled ∧
    s4.blend 0x1c = 0x102 ∧
    r5.1 = .ok 0 ∧ r6.1 = 0 ∧ r7.1 = 0 ∧
    s8.state_of 0 = .EnabledBlend ∧ s8.state_of 1 = .EnabledBlend ∧
    s8.blend 0x18 = 0x3 ∧ s8.blend 0x1c = 0x3 ∧
    s9.state_of 0 = .Disabled ∧ s9.blend 0x18 = 0x0 ∧
    s9.state_of 1 = .EnabledBypass ∧ s9.blend 0x1c = 0x102 := by
  intro r1 r2 r3 s4 r5 r6 r7 s8 s9
  obtain ⟨h0, h1⟩ :=
    probe_ok_gfx_primary_layers kzalloc_ok blend av_buf aud node string0 s0 hp hprim
  have e0 : dp_sub0.layers 0 = ⟨.XILINX_DRM_DP_SUB_LAYER_VID, 0, true, false, false,
      ⟨DRM_FORMAT_XBGR8888, 11, true, 0x10101, 0x10101, 0x10101⟩, 0, 0, 1⟩ := by decide
  have e1 : dp_sub0.layers 1 = ⟨.XILINX_DRM_DP_SUB_LAYER_GFX, 4, true, true, false,
      ⟨DRM_FORMAT_RGB565, 0x600, true, 0x10842, 0x10410, 0x10842⟩, 0, 0, 0⟩ := by decide
  rw [e0] at h0
  rw [e1] at h1
  have m2 : xilinx_drm_dp_sub_map_fmt (catalog .XILINX_DRM_DP_SUB_LAYER_GFX)
      (catalog .XILINX_DRM_DP_SUB_LAYER_GFX).length DRM_FORMAT_RGBA8888 =
      some ⟨DRM_FORMAT_RGBA8888, 0x100, true, 0x10101, 0x10101, 0x10101⟩ := by decide
  have m6 : xilinx_drm_dp_sub_map_fmt (catalog .XILINX_DRM_DP_SUB_LAYER_VID)
      (catalog .XILINX_DRM_DP_SUB_LAYER_VID).length DRM_FORMAT_BGR888 =
      some ⟨DRM_FORMAT_BGR888, 10, true, 0x10101, 0x10101, 0x10101⟩ := by decide
  have hr1 : r1 = (.ok 1, s0) := by
    simp [r1, xilinx_drm_dp_sub_layer_get, xilinx_drm_dp_sub_layer_get.scan, h0, h1]
  have hr2 : r2 = _ := layer_set_fmt_of_some r1.2 1 DRM_FORMAT_RGBA8888 _
    (by rw [hr1, h1]; exact m2)
  rw [hr1] at hr2
  simp only [h1, own_mask] at hr2
  -- stage 2
  have a2 : r2.2.layers 0 = s0.layers 0 := by rw [hr2]; simp
  have b2 : r2.2.layers 1 = ⟨.XILINX_DRM_DP_SUB_LAYER_GFX, 4, true, true, false,
      ⟨DRM_FORMAT_RGBA8888, 0x100, true, 0x10101, 0x10101, 0x10101⟩, 0, 0, 0⟩ := by
    rw [hr2]; simp
  rw [h0] at a2
  -- stage 3
  have a3 : r3.2.layers 0 = r2.2.layers 0 := by
    simp [r3, layer_check_size_layers]
  have b3 : r3.2.layers 1 = { r2.2.layers 1 with w := 1920, h := 1080 } := by
    simp [r3, layer_check_size_layers, b2, a2]
  have c3 : r3.1 = 0 := by
    simp [r3, xilinx_drm_dp_sub_layer_check_size, b2, a2]
  have d3 : r3.2.blend = s0.blend := by
    simp [r3, layer_check_size_blend, hr2]
  rw [a2] at a3
  rw [b2] at b3
  -- stage 4
  have a4 : s4.layers 0 = r3.2.layers 0 := by simp [s4, layer_enable_layers]
  have b4 : s4.layers 1 = { r3.2.layers 1 with enabled := true } := by
    simp [s4, layer_enable_layers]
  have d4 : s4.blend = xilinx_drm_writel s0.blend 0x1c 0x102 := by
    simp [s4, layer_enable_blend, b3, a3, d3, control_reg, control_word, BIT]
  rw [a3] at a4
  rw [b3] at b4
  -- stage 5
  have hr5 : r5 = (.ok 0, s4) := by
    simp [r5, xilinx_drm_dp_sub_layer_get, xilinx_drm_dp_sub_layer_get.scan, a4, b4]
  -- stage 6
  have hr6 : r6 = _ := layer_set_fmt_of_some r5.2 0 DRM_FORMAT_BGR888 _
    (by rw [hr5, a4]; exact m6)
  rw [hr5] at hr6
  simp only [a4, own_mask] at hr6
  have a6 : r6.2.layers 0 = ⟨.XILINX_DRM_DP_SUB_LAYER_VID, 0, true, false, false,
      ⟨DRM_FORMAT_BGR888, 10, true, 0x10101, 0x10101, 0x10101⟩, 0, 0, 1⟩ := by
    rw [hr6]; simp
  have b6 : r6.2.layers 1 = s4.layers 1 := by rw [hr6]; simp
  have d6 : r6.2.blend = s4.blend := by rw [hr6]; simp
  rw [b4] at b6
  -- stage 7
  have a7 : r7.2.layers 0 = { r6.2.layers 0 with w := 1920, h := 1080 } := by
    simp [r7, layer_check_size_layers, a6, b6]
  have b7 : r7.2.layers 1 = r6.2.layers 1 := by
    simp [r7, layer_check_size_layers]
  have c7 : r7.1 = 0 := by
    simp [r7, xilinx_drm_dp_sub_layer_check_size, a6, b6]
  have d7 : r7.2.blend = s4.blend := by
    simp [r7, layer_check_size_blend, d6]
  rw [a6] at a7
  rw [b6] at b7
  -- stage 8
  have a8 : s8.layers 0 = { r7.2.layers 0 with enabled := true } := by
    simp [s8, layer_enable_layers]
  have b8 : s8.layers 1 = r7.2.layers 1 := by simp [s8, layer_enable_layers]
  have d8 : s8.blend = xilinx_drm_writel (xilinx_drm_writel s4.blend 0x18 0x3) 0x1c 0x3 := by
    simp [s8, layer_enable_blend, a7, b7, d7, control_reg, control_word, BIT]
  rw [a7] at a8
  rw [b7] at b8
  -- stage 9
  have a9 : s9.layers 0 = { s8.layers 0 with enabled := false } := by
    simp [s9, layer_disable_layers]
  have b9 : s9.layers 1 = s8.layers 1 := by simp [s9, layer_disable_layers]
  have d9 : s9.blend = xilinx_drm_writel (xilinx_drm_writel s8.blend 0x18 0x0) 0x1c 0x102 := by
    simp [s9, layer_disable_blend, a8, b8, control_reg, control_word, BIT]
  rw [a8] at a9
  rw [b8] at b9
  have hlt : (xilinx_drm_readl s0.av_buf 0x0 &&& not32 0xf00) ||| 0x100 < 2 ^ 32 :=
    Nat.or_lt_two_pow
      (Nat.lt_of_le_of_lt Nat.and_le_left (Nat.mod_lt _ (by norm_num))) (by norm_num)
  have v2 : r2.2.av_buf 0x0 = (xilinx_drm_readl s0.av_buf 0x0 &&& not32 0xf00) ||| 0x100 := by
    rw [hr2]
    simp only [set_layer_av_buf, writel_av_buf_av_buf, writel_apply, if_true]
    exact Nat.mod_eq_of_lt hlt
  refine ⟨by rw [hr1], by rw [h1], by rw [hr2], by decide, ?_, ?_, c3, ?_, ?_, ?_,
    by rw [hr5], by rw [hr6], c7, ?_, ?_, ?_, ?_, ?_, ?_, ?_, ?_⟩
  · rw [v2]; exact rmw_own_field _ _ _ _ (by decide) (by decide)
  · rw [v2]; exact rmw_other_field _ _ _ _ (by decide) (by decide)
  all_goals
    simp [xilinx_drm_dp_sub.state_of, a4, b4, d4, a8, b8, d8, a9, b9, d9, writel_apply]

/-- Instance of C16 at the probed state `dp_sub0`: the first acquire returns the
graphics layer and the sequence ends with 0x102 in the graphics control register. -/
theorem end_to_end_scenario_witness :
    xilinx_drm_dp_sub_probe true (.ok zero_window) (.ok zero_window) (.ok zero_window)
      node_gfx_primary "" = .ok dp_sub0 ∧
    node_gfx_primary.vid_primary = false ∧
    (xilinx_drm_dp_sub_layer_get dp_sub0 true).1 = .ok 1 ∧
    (run dp_sub0 scenario_ops).blend 0x1c = 0x102 :=
  have h := end_to_end_scenario true (.ok zero_window) (.ok zero_window) (.ok zero_window)
    node_gfx_primary "" dp_sub0 probe_gfx_primary rfl
  ⟨probe_gfx_primary, rfl, h.1, h.2.2.2.2.2.2.2.2.2.2.2.2.2.2.2.2.2.2.2.2⟩

/-! ## Defaults and configuration parsing -/

/-- C21: the subsystem produced by a successful probe holds, for the graphics layer,
the default named by the source comment (index 6 of the graphics table, RGB565), but for the
video layer index 5 of the video table, which is XBGR8888 and not the BGR888 named by the
source comment; BGR888 is entry 4. Both indices are within the bounds of their tables. -/
theorem default_video_format_is_xbgr8888 :
    xilinx_drm_dp_sub_probe true (.ok zero_window) (.ok zero_window) (.ok zero_window)
      node_gfx_primary "" = .ok dp_sub0 ∧
    AV_BUF_DEFAULT_VID_FMT_ID < av_buf_vid_fmts.length ∧
    AV_BUF_DEFAULT_GFX_FMT_ID < av_buf_gfx_fmts.length ∧
    xilinx_drm_dp_sub_layer_get_fmt dp_sub0 1 = DRM_FORMAT_RGB565 ∧
    xilinx_drm_dp_sub_layer_get_fmt dp_sub0 0 = DRM_FORMAT_XBGR8888 ∧
    xilinx_drm_dp_sub_layer_get_fmt dp_sub0 0 ≠ DRM_FORMAT_BGR888 ∧
    (fmt_at av_buf_vid_fmts 4).drm_fmt = DRM_FORMAT_BGR888 :=
  ⟨probe_gfx_primary, by decide, by decide, by decide, by decide, by decide, by decide⟩

/-- When the colorimetry property is present, the parser is a table lookup followed by
one register write and one primary flag. -/
theorem parse_of_present (s : xilinx_drm_dp_sub) (vid_primary : Bool) (string0 str : String) :
    xilinx_drm_dp_sub_parse_of s ⟨some str, vid_primary⟩ string0 =
      match colorimetry_code str with
      | none => (-EINVAL, s)
      | some fmt =>
        (0, (s.writel .blend 0x14 fmt).set_layer (if vid_primary then 0 else 1)
          { s.layers (if vid_primary then 0 else 1) with primary := true }) := by
  unfold xilinx_drm_dp_sub_parse_of colorimetry_code
  simp only [of_property_read_string, of_property_read_bool]
  split_ifs <;> simp_all [xilinx_drm_dp_sub_layer_type.idx,
    XILINX_DP_SUB_V_BLEND_OUTPUT_VID_FMT, XILINX_DP_SUB_V_BLEND_OUTPUT_VID_FMT_RGB,
    XILINX_DP_SUB_V_BLEND_OUTPUT_VID_FMT_YCBCR444, XILINX_DP_SUB_V_BLEND_OUTPUT_VID_FMT_YCBCR422,
    XILINX_DP_SUB_V_BLEND_OUTPUT_VID_FMT_YONLY]

/-- The four colorimetry codes fit in two bits. -/
theorem colorimetry_code_lt (str : String) (c : Nat) (h : colorimetry_code str = some c) :
    c < 4 := by
  unfold colorimetry_code at h
  split_ifs at h <;> simp_all <;> omega

/-- C22: with the colorimetry string present, the parser maps rgb, ycrcb444, ycrcb422
and yonly to 0, 1, 2 and 3, returns 0 and writes that code (one write) to the blend register
at 0x14, leaving the other registers alone; for every other string it returns -EINVAL and
leaves the whole state, so every register and every primary flag, as it was. -/
theorem parse_of_colorimetry (s : xilinx_drm_dp_sub) (node : device_node) (string0 str : String)
    (h : node.output_fmt = some str) :
    let r := xilinx_drm_dp_sub_parse_of s node string0
    (colorimetry_code "rgb" = some 0 ∧ colorimetry_code "ycrcb444" = some 1 ∧
      colorimetry_code "ycrcb422" = some 2 ∧ colorimetry_code "yonly" = some 3 ∧
      (colorimetry_code str = none ↔ str ∉ ["rgb", "ycrcb444", "ycrcb422", "yonly"])) ∧
    (∀ c, colorimetry_code str = some c →
      r.1 = 0 ∧ r.2.io_log = s.io_log ++ [⟨.blend, 0x14, c⟩] ∧ r.2.blend 0x14 = c ∧
      (∀ p, p ≠ 0x14 → r.2.blend p = s.blend p) ∧
      r.2.av_buf = s.av_buf ∧ r.2.aud = s.aud) ∧
    (colorimetry_code str = none →
      r.1 = -EINVAL ∧ r.2 = s ∧ r.2.io_log = s.io_log ∧
      ∀ i, (r.2.layers i).primary = (s.layers i).primary) := by
  intro r
  have hr : r = xilinx_drm_dp_sub_parse_of s ⟨some str, node.vid_primary⟩ string0 := by
    cases node with
    | mk o v => simp only at h; subst h; rfl
  rw [parse_of_present] at hr
  refine ⟨⟨by decide, by decide, by decide, by decide, ?_⟩, ?_, ?_⟩
  · unfold colorimetry_code
    split_ifs <;> simp_all
  · intro c hc
    rw [hc] at hr
    have hlt := colorimetry_code_lt str c hc
    have hm : c % 4294967296 = c := Nat.mod_eq_of_lt (by omega)
    rw [hr]
    refine ⟨rfl, by simp [hm], by simp [writel_apply, hm], ?_, by simp, by simp⟩
    intro p hp
    simp [writel_apply, hp]
  · intro hc
    rw [hc] at hr
    rw [hr]
    exact ⟨rfl, rfl, rfl, fun _ => rfl⟩


/-- The theorem of C22 at the string ycrcb422 (code 2 is written) and at the string
bgr (rejected). -/
theorem parse_of_colorimetry_witness :
    (⟨some "ycrcb422", true⟩ : device_node).output_fmt = some "ycrcb422" ∧
    (xilinx_drm_dp_sub_parse_of (probe_layers zero_window zero_window zero_window)
      ⟨some "ycrcb422", true⟩ "").1 = 0 ∧
    (xilinx_drm_dp_sub_parse_of (probe_layers zero_window zero_window zero_window)
      ⟨some "ycrcb422", true⟩ "").2.blend 0x14 = 2 ∧
    (xilinx_drm_dp_sub_parse_of (probe_layers zero_window zero_window zero_window)
      ⟨some "bgr", true⟩ "").1 = -EINVAL :=
  have h := parse_of_colorimetry (probe_layers zero_window zero_window zero_window)
    ⟨some "ycrcb422", true⟩ "" "ycrcb422" rfl
  have h2 := parse_of_colorimetry (probe_layers zero_window zero_window zero_window)
    ⟨some "bgr", true⟩ "" "bgr" rfl
  ⟨rfl, (h.2.1 2 (by decide)).1, (h.2.1 2 (by decide)).2.2.1, (h2.2.2 (by decide)).1⟩

/-- C23: an absent colorimetry property is not rejected. The status of the property
read is stored in a local of type bool, so the test for a negative status never holds and the
parser goes on exactly as if the property held whatever the uninitialised local holds. On the
node without the property, with the local holding rgb, the property read reports a negative
status and yet the parser returns 0, writes 0 to the blend register at 0x14, sets the primary
flag of the graphics layer, and the probe succeeds. -/
theorem parse_of_absent_not_rejected :
    (∀ (s : xilinx_drm_dp_sub) (vid_primary : Bool) (string0 : String),
      xilinx_drm_dp_sub_parse_of s ⟨none, vid_primary⟩ string0 =
        xilinx_drm_dp_sub_parse_of s ⟨some string0, vid_primary⟩ string0) ∧
    node_no_colorimetry.output_fmt = none ∧
    (of_property_read_string node_no_colorimetry "rgb").1 < 0 ∧
    (xilinx_drm_dp_sub_parse_of (probe_layers zero_window zero_window zero_window)
      node_no_colorimetry "rgb").1 = 0 ∧
    (xilinx_drm_dp_sub_parse_of (probe_layers zero_window zero_window zero_window)
      node_no_colorimetry "rgb").2.io_log = [⟨.blend, 0x14, 0⟩] ∧
    ((xilinx_drm_dp_sub_parse_of (probe_layers zero_window zero_window zero_window)
      node_no_colorimetry "rgb").2.layers 1).primary = true ∧
    xilinx_drm_dp_sub_probe true (.ok zero_window) (.ok zero_window) (.ok zero_window)
      node_no_colorimetry "rgb" =
      .ok (xilinx_drm_dp_sub_parse_of (probe_layers zero_window zero_window zero_window)
        node_no_colorimetry "rgb").2 := by
  refine ⟨?_, rfl, by decide, by decide, by decide, by decide, rfl⟩
  intro s vp string0
  unfold xilinx_drm_dp_sub_parse_of
  simp [of_property_read_string, of_property_read_bool, EINVAL]

/-! ## The vblank slot -/

/-- C24: the vblank slot. Registering sets the pair (callback, data) and touches
nothing else; a second registration replaces the first; unregistering empties both and touches
nothing else; handling a vblank leaves the whole state unchanged and makes exactly the call
(callback, data) of the slot when a callback is registered, the most recently registered one
after two registrations, and no call when the slot is empty or was emptied. -/
theorem vblank_slot_spec (s : xilinx_drm_dp_sub) (f d f2 d2 : Option Nat) :
    let s1 := xilinx_drm_dp_sub_enable_vblank s f d
    let s2 := xilinx_drm_dp_sub_enable_vblank s1 f2 d2
    let s3 := xilinx_drm_dp_sub_disable_vblank s
    (s1.vblank_fn = f ∧ s1.vblank_data = d) ∧
    (s1.layers = s.layers ∧ s1.blend = s.blend ∧ s1.av_buf = s.av_buf ∧ s1.aud = s.aud ∧
      s1.io_log = s.io_log) ∧
    (s2.vblank_fn = f2 ∧ s2.vblank_data = d2 ∧ s2 = xilinx_drm_dp_sub_enable_vblank s f2 d2) ∧
    (s3.vblank_fn = none ∧ s3.vblank_data = none) ∧
    (s3.layers = s.layers ∧ s3.blend = s.blend ∧ s3.av_buf = s.av_buf ∧ s3.aud = s.aud ∧
      s3.io_log = s.io_log) ∧
    (xilinx_drm_dp_sub_handle_vblank s).2 = s ∧
    (∀ fn, s.vblank_fn = some fn →
      (xilinx_drm_dp_sub_handle_vblank s).1 = some (fn, s.vblank_data)) ∧
    (s.vblank_fn = none → (xilinx_drm_dp_sub_handle_vblank s).1 = none) ∧
    (∀ fn, f2 = some fn → (xilinx_drm_dp_sub_handle_vblank s2).1 = some (fn, d2)) ∧
    (xilinx_drm_dp_sub_handle_vblank s3).1 = none ∧
    (xilinx_drm_dp_sub_handle_vblank (xilinx_drm_dp_sub_disable_vblank s2)).1 = none := by
  intro s1 s2 s3
  refine ⟨⟨rfl, rfl⟩, ⟨rfl, rfl, rfl, rfl, rfl⟩, ⟨rfl, rfl, rfl⟩, ⟨rfl, rfl⟩,
    ⟨rfl, rfl, rfl, rfl, rfl⟩, ?_, ?_, ?_, ?_, rfl, rfl⟩
  · unfold xilinx_drm_dp_sub_handle_vblank
    split <;> rfl
  · intro fn hfn
    simp [xilinx_drm_dp_sub_handle_vblank, hfn]
  · intro hfn
    simp [xilinx_drm_dp_sub_handle_vblank, hfn]
  · intro fn hfn
    subst hfn
    rfl

/-- The theorem of C24 on the probed subsystem: no call before any registration, and
the second of two registrations is the one called. -/
theorem vblank_slot_spec_witness :
    (xilinx_drm_dp_sub_handle_vblank dp_sub0).1 = none ∧
    (xilinx_drm_dp_sub_handle_vblank
      (xilinx_drm_dp_sub_enable_vblank
        (xilinx_drm_dp_sub_enable_vblank dp_sub0 (some 1) (some 10)) (some 2) (some 20))).1 =
      some (2, some 20) :=
  ⟨(vblank_slot_spec dp_sub0 none none none none).2.2.2.2.2.2.2.1 rfl,
   (vblank_slot_spec dp_sub0 (some 1) (some 10) (some 2) (some 20)).2.2.2.2.2.2.2.2.1 2 rfl⟩

/-! ## The registry -/

/-- The scan finds nothing exactly when no entry of the list has the node. -/
theorem scan_eq_none_iff (list : List dp_sub_instance) (n : Nat) :
    xilinx_drm_dp_sub_of_get.scan list n = none ↔ ∀ x ∈ list, x.of_node ≠ n := by
  induction list with
  | nil => simp [xilinx_drm_dp_sub_of_get.scan]
  | cons a rest ih =>
    by_cases ha : a.of_node = n
    · simp [xilinx_drm_dp_sub_of_get.scan, ha]
    · simp [xilinx_drm_dp_sub_of_get.scan, ha, ih]

/-- The scan finds an entry exactly when that entry has the node and is preceded only by
entries with other nodes. -/
theorem scan_eq_some_iff (list : List dp_sub_instance) (n : Nat) (found : dp_sub_instance) :
    xilinx_drm_dp_sub_of_get.scan list n = some found ↔
      ∃ pre post, list = pre ++ found :: post ∧ found.of_node = n ∧
        ∀ x ∈ pre, x.of_node ≠ n := by
  induction list with
  | nil => simp [xilinx_drm_dp_sub_of_get.scan]
  | cons a rest ih =>
    by_cases ha : a.of_node = n
    · simp only [xilinx_drm_dp_sub_of_get.scan, ha, if_true, Option.some.injEq]
      constructor
      · intro h
        subst h
        exact ⟨[], rest, rfl, ha, by simp⟩
      · rintro ⟨pre, post, hl, hf, hpre⟩
        cases pre with
        | nil =>
          simp at hl
          exact hl.1
        | cons b pre =>
          simp at hl
          exact absurd ha (by rw [hl.1]; exact hpre b (List.mem_cons_self _ _))
    · simp only [xilinx_drm_dp_sub_of_get.scan, ha, if_false, ih]
      constructor
      · rintro ⟨pre, post, hl, hf, hpre⟩
        refine ⟨a :: pre, post, by rw [hl]; rfl, hf, ?_⟩
        intro x hx
        rcases List.mem_cons.1 hx with rfl | hx
        · exact ha
        · exact hpre x hx
      · rintro ⟨pre, post, hl, hf, hpre⟩
        cases pre with
        | nil =>
          simp at hl
          exact absurd hf (by rw [← hl.1]; exact ha)
        | cons b pre =>
          simp at hl
          exact ⟨pre, post, hl.2, hf, fun x hx => hpre x (List.mem_cons_of_mem _ hx)⟩

/-- An entry found by the scan is on the list and has the node. -/
theorem scan_some_mem (list : List dp_sub_instance) (n : Nat) (found : dp_sub_instance)
    (h : xilinx_drm_dp_sub_of_get.scan list n = some found) :
    found ∈ list ∧ found.of_node = n := by
  obtain ⟨pre, post, hl, hf, _⟩ := (scan_eq_some_iff list n found).1 h
  exact ⟨by rw [hl]; simp, hf⟩

/-- The lookup with a reference that resolves to node `n` is the scan. -/
theorem of_get_resolved (list : List dp_sub_instance) (n : Nat) :
    xilinx_drm_dp_sub_of_get list ⟨true, some n⟩ =
      match xilinx_drm_dp_sub_of_get.scan list n with
      | none => .error (-EPROBE_DEFER)
      | some found => .ok (some found) := by
  simp [xilinx_drm_dp_sub_of_get, of_find_property, of_parse_phandle]

/-- A successful lookup returns an entry of the list. -/
theorem of_get_ok_mem (list : List dp_sub_instance) (np : parent_node)
    (found : dp_sub_instance) (h : xilinx_drm_dp_sub_of_get list np = .ok (some found)) :
    found ∈ list := by
  cases np with
  | mk b ph =>
    cases b with
    | false => simp [xilinx_drm_dp_sub_of_get, of_find_property] at h
    | true =>
      cases ph with
      | none => simp [xilinx_drm_dp_sub_of_get, of_find_property, of_parse_phandle] at h
      | some n =>
        rw [of_get_resolved] at h
        cases hs : xilinx_drm_dp_sub_of_get.scan list n with
        | none => rw [hs] at h; cases h
        | some f =>
          rw [hs] at h
          simp only [Except.ok.injEq, Option.some.injEq] at h
          subst h
          exact (scan_some_mem list n _ hs).1

/-- C25: the registry lookup over an explicit list. A caller node without the
subsystem reference gets the null result, whatever the list holds. With a reference that
resolves to node n, the lookup returns an instance exactly when that instance has node n and
every entry before it has another node (the first such entry), returns -EPROBE_DEFER exactly
when no entry has node n, and always does one of the two. After registering an instance a
lookup for its node finds an instance with that node, the registered one itself when no
earlier entry has the node. After unregistering an instance of a list without repeated
entries no lookup returns it, and when the nodes of the list are pairwise distinct the lookup
for its node returns -EPROBE_DEFER. Releasing an instance leaves the list, and so every
lookup, as before. -/
theorem of_get_spec (list : List dp_sub_instance) (np : parent_node) (n : Nat)
    (inst : dp_sub_instance) :
    (np.has_dp_sub = false → xilinx_drm_dp_sub_of_get list np = .ok none) ∧
    (∀ found, xilinx_drm_dp_sub_of_get list ⟨true, some n⟩ = .ok (some found) ↔
      ∃ pre post, list = pre ++ found :: post ∧ found.of_node = n ∧
        ∀ x ∈ pre, x.of_node ≠ n) ∧
    (xilinx_drm_dp_sub_of_get list ⟨true, some n⟩ = .error (-EPROBE_DEFER) ↔
      ∀ x ∈ list, x.of_node ≠ n) ∧
    (xilinx_drm_dp_sub_of_get list ⟨true, some n⟩ = .error (-EPROBE_DEFER) ∨
      ∃ found, found ∈ list ∧ found.of_node = n ∧
        xilinx_drm_dp_sub_of_get list ⟨true, some n⟩ = .ok (some found)) ∧
    (∃ found, found.of_node = inst.of_node ∧
      xilinx_drm_dp_sub_of_get (xilinx_drm_dp_sub_register_device list inst)
        ⟨true, some inst.of_node⟩ = .ok (some found)) ∧
    ((∀ x ∈ list, x.of_node ≠ inst.of_node) →
      xilinx_drm_dp_sub_of_get (xilinx_drm_dp_sub_register_device list inst)
        ⟨true, some inst.of_node⟩ = .ok (some inst)) ∧
    (list.Nodup →
      xilinx_drm_dp_sub_of_get (xilinx_drm_dp_sub_unregister_device list inst) np ≠
        .ok (some inst)) ∧
    ((list.map fun x => x.of_node).Nodup → inst ∈ list →
      xilinx_drm_dp_sub_of_get (xilinx_drm_dp_sub_unregister_device list inst)
        ⟨true, some inst.of_node⟩ = .error (-EPROBE_DEFER)) ∧
    xilinx_drm_dp_sub_put list inst = list ∧
    xilinx_drm_dp_sub_of_get (xilinx_drm_dp_sub_put list inst) np =
      xilinx_drm_dp_sub_of_get list np := by
  refine ⟨?_, ?_, ?_, ?_, ?_, ?_, ?_, ?_, rfl, rfl⟩
  · intro h
    simp [xilinx_drm_dp_sub_of_get, of_find_property, h]
  · intro found
    rw [of_get_resolved, ← scan_eq_some_iff]
    cases xilinx_drm_dp_sub_of_get.scan list n <;> simp
  · rw [of_get_resolved, ← scan_eq_none_iff]
    cases xilinx_drm_dp_sub_of_get.scan list n <;> simp
  · rw [of_get_resolved]
    cases hs : xilinx_drm_dp_sub_of_get.scan list n with
    | none => exact Or.inl rfl
    | some f => exact Or.inr ⟨f, (scan_some_mem list n f hs).1, (scan_some_mem list n f hs).2, rfl⟩
  · rw [of_get_resolved]
    cases hs : xilinx_drm_dp_sub_of_get.scan (xilinx_drm_dp_sub_register_device list inst)
      inst.of_node with
    | none =>
      have := (scan_eq_none_iff _ _).1 hs inst (by simp [xilinx_drm_dp_sub_register_device])
      exact absurd rfl this
    | some f => exact ⟨f, (scan_some_mem _ _ f hs).2, rfl⟩
  · intro hno
    rw [of_get_resolved]
    have : xilinx_drm_dp_sub_of_get.scan (xilinx_drm_dp_sub_register_device list inst)
        inst.of_node = some inst :=
      (scan_eq_some_iff _ _ _).2 ⟨list, [], rfl, rfl, hno⟩
    rw [this]
  · intro hnd h
    have hmem := of_get_ok_mem _ _ _ h
    unfold xilinx_drm_dp_sub_unregister_device at hmem
    exact absurd hmem (hnd.not_mem_erase)
  · intro hnd hin
    rw [of_get_resolved]
    have : xilinx_drm_dp_sub_of_get.scan (xilinx_drm_dp_sub_unregister_device list inst)
        inst.of_node = none := by
      rw [scan_eq_none_iff]
      intro x hx hxn
      unfold xilinx_drm_dp_sub_unregister_device at hx
      have hnd2 : list.Nodup := List.Nodup.of_map _ hnd
      have hx2 := (List.Nodup.mem_erase_iff hnd2).1 hx
      exact hx2.1 (List.inj_on_of_nodup_map hnd hx2.2 hin hxn)
    rw [this]

/-- The theorem of C25 on a registry of two instances: a caller without the
reference, a lookup after registering a third instance, a lookup after unregistering the
second, and a lookup for the second. -/
theorem of_get_spec_witness :
    xilinx_drm_dp_sub_of_get demo_registry ⟨false, some 9⟩ = .ok none ∧
    xilinx_drm_dp_sub_of_get (xilinx_drm_dp_sub_register_device demo_registry ⟨0x3000, 11⟩)
      ⟨true, some 11⟩ = .ok (some ⟨0x3000, 11⟩) ∧
    xilinx_drm_dp_sub_of_get (xilinx_drm_dp_sub_unregister_device demo_registry ⟨0x2000, 9⟩)
      ⟨true, some 9⟩ = .error (-EPROBE_DEFER) ∧
    xilinx_drm_dp_sub_of_get demo_registry ⟨true, some 9⟩ = .ok (some ⟨0x2000, 9⟩) :=
  have h := of_get_spec demo_registry ⟨false, some 9⟩ 9 ⟨0x3000, 11⟩
  have h2 := of_get_spec demo_registry ⟨true, some 9⟩ 9 ⟨0x2000, 9⟩
  ⟨h.1 rfl, h.2.2.2.2.2.1 (by decide), h2.2.2.2.2.2.2.2.1 (by decide) (by decide),
   (h2.2.1 ⟨0x2000, 9⟩).2 ⟨[⟨0x1000, 7⟩], [], rfl, rfl, by decide⟩⟩

/-! ## Output format and global alpha -/

/-- C26: setting the output format returns -EINVAL exactly when no entry of the
blended-output table has the id, and then leaves the whole state as it was; it returns either
-EINVAL or 0. For an id held by an entry of the table it returns 0 and issues one write, of
the device code of that entry, to the blend register at 0x14, leaving every other register,
the layers and the vblank slot alone. Whenever it returns 0 the code written is that of an
entry of the table with the id asked for. The table holds the ids RGB888, YUV444 and YUV422
with the codes 0, 1 and 2. -/
theorem set_output_fmt_spec (s : xilinx_drm_dp_sub) (drm_fmt : Nat) :
    let r := xilinx_drm_dp_sub_set_output_fmt s drm_fmt
    (r.1 = -EINVAL ↔ ∀ e ∈ blend_output_fmts, e.drm_fmt ≠ drm_fmt) ∧
    (r.1 = -EINVAL ∨ r.1 = 0) ∧
    (r.1 = -EINVAL → r.2 = s) ∧
    (∀ e ∈ blend_output_fmts, e.drm_fmt = drm_fmt →
      r.1 = 0 ∧ r.2.io_log = s.io_log ++ [⟨.blend, 0x14, e.dp_sub_fmt⟩] ∧
      r.2.blend 0x14 = e.dp_sub_fmt ∧ (∀ p, p ≠ 0x14 → r.2.blend p = s.blend p) ∧
      r.2.av_buf = s.av_buf ∧ r.2.aud = s.aud ∧ r.2.layers = s.layers ∧
      r.2.vblank_fn = s.vblank_fn ∧ r.2.vblank_data = s.vblank_data) ∧
    (r.1 = 0 → ∃ e ∈ blend_output_fmts, e.drm_fmt = drm_fmt ∧
      r.2.io_log = s.io_log ++ [⟨.blend, 0x14, e.dp_sub_fmt⟩]) ∧
    blend_output_fmts.map (fun e => e.drm_fmt) =
      [DRM_FORMAT_RGB888, DRM_FORMAT_YUV444, DRM_FORMAT_YUV422] ∧
    blend_output_fmts.map (fun e => e.dp_sub_fmt) = [0, 1, 2] := by
  intro r
  have key : ∀ e ∈ blend_output_fmts, e.drm_fmt = drm_fmt →
      r = (0, s.writel .blend 0x14 e.dp_sub_fmt) ∧ e.dp_sub_fmt < 3 := by
    intro e he hd
    subst hd
    simp only [blend_output_fmts, List.mem_cons, List.mem_singleton, List.not_mem_nil,
      or_false] at he
    rcases he with rfl | rfl | rfl <;> exact ⟨rfl, by decide⟩
  have hnone := map_fmt_eq_none_iff blend_output_fmts drm_fmt
  refine ⟨?_, ?_, ?_, ?_, ?_, by decide, by decide⟩
  · constructor
    · intro h e he hd
      rw [(key e he hd).1] at h
      simp [EINVAL] at h
    · intro h
      have := hnone.2 h
      show (xilinx_drm_dp_sub_set_output_fmt s drm_fmt).1 = -EINVAL
      simp [xilinx_drm_dp_sub_set_output_fmt, this]
  · by_cases h : ∀ e ∈ blend_output_fmts, e.drm_fmt ≠ drm_fmt
    · left
      show (xilinx_drm_dp_sub_set_output_fmt s drm_fmt).1 = -EINVAL
      simp [xilinx_drm_dp_sub_set_output_fmt, hnone.2 h]
    · right
      push_neg at h
      obtain ⟨e, he, hd⟩ := h
      rw [(key e he hd).1]
  · intro h
    by_cases h2 : ∀ e ∈ blend_output_fmts, e.drm_fmt ≠ drm_fmt
    · show (xilinx_drm_dp_sub_set_output_fmt s drm_fmt).2 = s
      simp [xilinx_drm_dp_sub_set_output_fmt, hnone.2 h2]
    · push_neg at h2
      obtain ⟨e, he, hd⟩ := h2
      rw [(key e he hd).1] at h
      simp [EINVAL] at h
  · intro e he hd
    obtain ⟨hr, hlt⟩ := key e he hd
    have hm : e.dp_sub_fmt % 4294967296 = e.dp_sub_fmt := Nat.mod_eq_of_lt (by omega)
    rw [hr]
    refine ⟨rfl, by simp [hm], by simp [writel_apply, hm], ?_, rfl, rfl, rfl, rfl, rfl⟩
    intro p hp
    simp [writel_apply, hp]
  · intro h
    by_cases h2 : ∀ e ∈ blend_output_fmts, e.drm_fmt ≠ drm_fmt
    · have : r.1 = -EINVAL := by
        show (xilinx_drm_dp_sub_set_output_fmt s drm_fmt).1 = -EINVAL
        simp [xilinx_drm_dp_sub_set_output_fmt, hnone.2 h2]
      rw [this] at h
      simp [EINVAL] at h
    · push_neg at h2
      obtain ⟨e, he, hd⟩ := h2
      obtain ⟨hr, hlt⟩ := key e he hd
      have hm : e.dp_sub_fmt % 4294967296 = e.dp_sub_fmt := Nat.mod_eq_of_lt (by omega)
      exact ⟨e, he, hd, by rw [hr]; simp [hm]⟩

/-- The theorem of C26 on the probed subsystem: YUV422 is accepted and code 2 is
written, RGB565 is rejected and nothing changes. -/
theorem set_output_fmt_spec_witness :
    (xilinx_drm_dp_sub_set_output_fmt dp_sub0 DRM_FORMAT_YUV422).1 = 0 ∧
    (xilinx_drm_dp_sub_set_output_fmt dp_sub0 DRM_FORMAT_YUV422).2.blend 0x14 = 2 ∧
    (xilinx_drm_dp_sub_set_output_fmt dp_sub0 DRM_FORMAT_RGB565).2 = dp_sub0 :=
  have h := (set_output_fmt_spec dp_sub0 DRM_FORMAT_YUV422).2.2.2.1
    (fmt_at blend_output_fmts 2) (by decide) (by decide)
  have h2 := set_output_fmt_spec dp_sub0 DRM_FORMAT_RGB565
  ⟨h.1, h.2.2.1, h2.2.2.1 (h2.1.2 (by decide))⟩

set_option maxRecDepth 100000 in
/-- The packing of an 8-bit alpha with the enable bit, bit by bit. -/
theorem alpha_word_facts : ∀ alpha, alpha < 256 →
    ((alpha <<< 1) % 2 ^ 32 ||| 1) = 2 * alpha + 1 ∧
    (2 * alpha + 1).testBit 0 = true ∧
    ((2 * alpha + 1) &&& XILINX_DP_SUB_V_BLEND_SET_GLOBAL_ALPHA_MASK) >>> 1 = alpha ∧
    (2 * alpha + 1) &&& not32 0x1ff = 0 := by
  decide

/-- C27: for an alpha of at most 255, setting the global alpha issues one write, of
the word (alpha << 1) | 1 = 2 * alpha + 1, to the blend register at 0xc. In that word bit 0
is set, the field under the mask 0x1fe shifted right by one is alpha, and no bit outside
0x1ff is set. No other register, no layer and not the vblank slot changes. -/
theorem set_alpha_spec (s : xilinx_drm_dp_sub) (alpha : Nat) (h : alpha ≤ 255) :
    let s1 := xilinx_drm_dp_sub_set_alpha s alpha
    let v := 2 * alpha + 1
    (alpha <<< 1 ||| 1 = v ∧ v < 2 ^ 32) ∧
    s1.io_log = s.io_log ++ [⟨.blend, 0xc, v⟩] ∧
    s1.blend 0xc = v ∧
    v.testBit 0 = true ∧
    (v &&& XILINX_DP_SUB_V_BLEND_SET_GLOBAL_ALPHA_MASK) >>> 1 = alpha ∧
    v &&& not32 0x1ff = 0 ∧
    (∀ p, p ≠ 0xc → s1.blend p = s.blend p) ∧
    s1.av_buf = s.av_buf ∧ s1.aud = s.aud ∧ s1.layers = s.layers ∧
    s1.vblank_fn = s.vblank_fn ∧ s1.vblank_data = s.vblank_data := by
  intro s1 v
  obtain ⟨h1, h2, h3, h4⟩ := alpha_word_facts alpha (by omega)
  have hv : v < 2 ^ 32 := by show 2 * alpha + 1 < 2 ^ 32; omega
  have hsh : (alpha <<< 1) % 2 ^ 32 = alpha <<< 1 := by
    rw [Nat.shiftLeft_eq]; exact Nat.mod_eq_of_lt (by omega)
  have hs1 : s1 = s.writel .blend 0xc v := by
    show xilinx_drm_dp_sub_set_alpha s alpha = _
    simp only [xilinx_drm_dp_sub_set_alpha, xilinx_drm_dp_sub_blend_set_alpha, if_true]
    rw [h1]
    rfl
  have hm : v % 4294967296 = v := Nat.mod_eq_of_lt hv
  refine ⟨⟨by rw [← hsh]; exact h1, hv⟩, ?_, ?_, h2, h3, h4, ?_, ?_, ?_, ?_, ?_, ?_⟩
  · rw [hs1]; simp [hm]
  · rw [hs1]; simp [writel_apply, hm]
  · intro p hp
    rw [hs1]; simp [writel_apply, hp]
  all_goals rw [hs1]; rfl

/-- The theorem of C27 at alpha 128 on the probed subsystem: the word written is
257. -/
theorem set_alpha_spec_witness :
    (128 : Nat) ≤ 255 ∧
    (xilinx_drm_dp_sub_set_alpha dp_sub0 128).blend 0xc = 257 ∧
    (xilinx_drm_dp_sub_set_alpha dp_sub0 128).io_log = dp_sub0.io_log ++ [⟨.blend, 0xc, 257⟩] :=
  have h := set_alpha_spec dp_sub0 128 (by decide)
  ⟨by decide, h.2.2.1, h.2.1⟩

/-! ## The output-routing register under enable and disable of a layer -/

/-- The AV-buffer window after `enable` of a layer: one read-modify-write of the
output-routing register. -/
theorem layer_enable_av_buf (s : xilinx_drm_dp_sub) (layer : Fin 2) (p : Nat) :
    (xilinx_drm_dp_sub_layer_enable s layer).av_buf p =
      if p = 0x70 then
        (((xilinx_drm_readl s.av_buf 0x70 &&& not32 (routing_mask (s.layers layer).id)) |||
          routing_mem (s.layers layer).id)) % 2 ^ 32
      else s.av_buf p := by
  have c1 : XILINX_DP_SUB_AV_BUF_OUTPUT_VID1_MASK = 3 := rfl
  have c2 : XILINX_DP_SUB_AV_BUF_OUTPUT_VID1_MEM = 1 := rfl
  have c3 : XILINX_DP_SUB_AV_BUF_OUTPUT_VID2_MASK = 12 := rfl
  have c4 : XILINX_DP_SUB_AV_BUF_OUTPUT_VID2_MEM = 4 := rfl
  by_cases hen : (s.layers (s.layers layer).other).enabled = true <;>
    cases hid : (s.layers layer).id <;>
    simp [xilinx_drm_dp_sub_layer_enable, blend_layer_enable_eq,
      xilinx_drm_dp_sub_av_buf_enable_vid, hen, hid, writel_apply, routing_mask, routing_mem,
      XILINX_DP_SUB_AV_BUF_OUTPUT, c1, c2, c3, c4]

/-- The AV-buffer window after `disable` of a layer: one read-modify-write of the
output-routing register. -/
theorem layer_disable_av_buf (s : xilinx_drm_dp_sub) (layer : Fin 2) (p : Nat) :
    (xilinx_drm_dp_sub_layer_disable s layer).av_buf p =
      if p = 0x70 then
        (((xilinx_drm_readl s.av_buf 0x70 &&& not32 (routing_mask (s.layers layer).id)) |||
          routing_off (s.layers layer).id)) % 2 ^ 32
      else s.av_buf p := by
  have c1 : XILINX_DP_SUB_AV_BUF_OUTPUT_VID1_MASK = 3 := rfl
  have c2 : XILINX_DP_SUB_AV_BUF_OUTPUT_VID1_NONE = 3 := rfl
  have c3 : XILINX_DP_SUB_AV_BUF_OUTPUT_VID2_MASK = 12 := rfl
  have c4 : XILINX_DP_SUB_AV_BUF_OUTPUT_VID2_DISABLE = 0 := rfl
  by_cases hen : (s.layers (s.layers layer).other).enabled = true <;>
    cases hid : (s.layers layer).id <;>
    simp [xilinx_drm_dp_sub_layer_disable, blend_layer_enable_eq, blend_layer_disable_eq,
      xilinx_drm_dp_sub_av_buf_disable_vid, hen, hid, writel_apply, routing_mask, routing_off,
      XILINX_DP_SUB_AV_BUF_OUTPUT, c1, c2, c3, c4]

/-- The routing masks and codes: each code lies inside the field of its kind, the
complement of a field misses the field. -/
theorem routing_facts (t : xilinx_drm_dp_sub_layer_type) :
    routing_mask t < 2 ^ 32 ∧ routing_mem t < 2 ^ 32 ∧ routing_off t < 2 ^ 32 ∧
    not32 (routing_mask t) &&& routing_mask t = 0 ∧
    routing_mem t &&& routing_mask t = routing_mem t ∧
    routing_off t &&& routing_mask t = routing_off t ∧
    not32 (routing_mask t) &&& not32 (routing_mask t) = not32 (routing_mask t) ∧
    routing_mem t &&& not32 (routing_mask t) = 0 ∧
    routing_off t &&& not32 (routing_mask t) = 0 := by
  cases t <;> decide


/-- C28: in every state, enable and disable of a layer leave the format descriptor,
width, height, available flag and primary flag of both layers unchanged, leave every
AV-buffer register other than the output-routing register (0x70) unchanged, in particular
the input-format register and the six scaling-factor registers, and leave the audio window
unchanged. In the output-routing register, with r its prior value, enable stores
(r AND NOT mask) OR memory and disable stores (r AND NOT mask) OR off, where for the video
layer mask is bits 0-1, memory is 1 and off is 3 ('none'), and for the graphics layer mask
is bits 2-3, memory is 1 << 2 and off is 0 ('disable'). So the field of the layer's own kind
holds the new value and every bit outside that field is as in r. -/
theorem layer_enable_disable_frame (s : xilinx_drm_dp_sub) (layer : Fin 2) :
    let e := xilinx_drm_dp_sub_layer_enable s layer
    let d := xilinx_drm_dp_sub_layer_disable s layer
    let t := (s.layers layer).id
    let r := xilinx_drm_readl s.av_buf XILINX_DP_SUB_AV_BUF_OUTPUT
    (∀ s1, s1 = e ∨ s1 = d →
      (∀ i, (s1.layers i).fmt = (s.layers i).fmt ∧ (s1.layers i).w = (s.layers i).w ∧
        (s1.layers i).h = (s.layers i).h ∧ (s1.layers i).avail = (s.layers i).avail ∧
        (s1.layers i).primary = (s.layers i).primary) ∧
      (∀ p, p ≠ XILINX_DP_SUB_AV_BUF_OUTPUT → s1.av_buf p = s.av_buf p) ∧
      s1.av_buf XILINX_DP_SUB_AV_BUF_FORMAT = s.av_buf XILINX_DP_SUB_AV_BUF_FORMAT ∧
      (∀ p ∈ [XILINX_DP_SUB_AV_BUF_GFX_COMP0_SF, XILINX_DP_SUB_AV_BUF_GFX_COMP1_SF,
          XILINX_DP_SUB_AV_BUF_GFX_COMP2_SF, XILINX_DP_SUB_AV_BUF_VID_COMP0_SF,
          XILINX_DP_SUB_AV_BUF_VID_COMP1_SF, XILINX_DP_SUB_AV_BUF_VID_COMP2_SF],
        s1.av_buf p = s.av_buf p) ∧
      s1.aud = s.aud ∧
      s1.av_buf XILINX_DP_SUB_AV_BUF_OUTPUT &&& not32 (routing_mask t) =
        r &&& not32 (routing_mask t)) ∧
    e.av_buf XILINX_DP_SUB_AV_BUF_OUTPUT = (r &&& not32 (routing_mask t)) ||| routing_mem t ∧
    d.av_buf XILINX_DP_SUB_AV_BUF_OUTPUT = (r &&& not32 (routing_mask t)) ||| routing_off t ∧
    e.av_buf XILINX_DP_SUB_AV_BUF_OUTPUT &&& routing_mask t = routing_mem t ∧
    d.av_buf XILINX_DP_SUB_AV_BUF_OUTPUT &&& routing_mask t = routing_off t ∧
    (routing_mask .XILINX_DRM_DP_SUB_LAYER_VID = 0x3 ∧
      routing_mem .XILINX_DRM_DP_SUB_LAYER_VID = 1 ∧
      routing_off .XILINX_DRM_DP_SUB_LAYER_VID = 3 ∧
      routing_mask .XILINX_DRM_DP_SUB_LAYER_GFX = 0x3 <<< 2 ∧
      routing_mem .XILINX_DRM_DP_SUB_LAYER_GFX = 1 <<< 2 ∧
      routing_off .XILINX_DRM_DP_SUB_LAYER_GFX = 0 <<< 2) := by
  intro e d t r
  obtain ⟨f1, f2, f3, f4, f5, f6, f7, f8, f9⟩ := routing_facts t
  have hlt : ∀ c, c < 2 ^ 32 → ((r &&& not32 (routing_mask t)) ||| c) % 2 ^ 32 =
      (r &&& not32 (routing_mask t)) ||| c := fun c hc =>
    Nat.mod_eq_of_lt (Nat.or_lt_two_pow
      (lt_of_le_of_lt Nat.and_le_left (Nat.mod_lt _ (by norm_num))) hc)
  have he : e.av_buf XILINX_DP_SUB_AV_BUF_OUTPUT =
      (r &&& not32 (routing_mask t)) ||| routing_mem t := by
    show (xilinx_drm_dp_sub_layer_enable s layer).av_buf 0x70 = _
    rw [layer_enable_av_buf, if_pos rfl]
    exact hlt _ f2
  have hd : d.av_buf XILINX_DP_SUB_AV_BUF_OUTPUT =
      (r &&& not32 (routing_mask t)) ||| routing_off t := by
    show (xilinx_drm_dp_sub_layer_disable s layer).av_buf 0x70 = _
    rw [layer_disable_av_buf, if_pos rfl]
    exact hlt _ f3
  have hav : ∀ s1, s1 = e ∨ s1 = d →
      ∀ p, p ≠ XILINX_DP_SUB_AV_BUF_OUTPUT → s1.av_buf p = s.av_buf p := by
    intro s1 hs1 p hp
    have hp2 : p ≠ 0x70 := hp
    rcases hs1 with rfl | rfl
    · show (xilinx_drm_dp_sub_layer_enable s layer).av_buf p = _
      rw [layer_enable_av_buf, if_neg hp2]
    · show (xilinx_drm_dp_sub_layer_disable s layer).av_buf p = _
      rw [layer_disable_av_buf, if_neg hp2]
  refine ⟨?_, he, hd, ?_, ?_, by decide⟩
  · intro s1 hs1
    refine ⟨?_, hav s1 hs1, hav s1 hs1 _ (by decide), ?_, ?_, ?_⟩
    · intro i
      rcases hs1 with rfl | rfl
      · show ((xilinx_drm_dp_sub_layer_enable s layer).layers i).fmt = _ ∧ _
        rw [layer_enable_layers]
        by_cases hi : i = layer
        · subst hi; simp
        · simp [hi]
      · show ((xilinx_drm_dp_sub_layer_disable s layer).layers i).fmt = _ ∧ _
        rw [layer_disable_layers]
        by_cases hi : i = layer
        · subst hi; simp
        · simp [hi]
    · intro p hp
      apply hav s1 hs1
      intro h0
      subst h0
      revert hp
      decide
    · rcases hs1 with rfl | rfl
      · show (xilinx_drm_dp_sub_layer_enable s layer).aud = _
        by_cases hen : (s.layers (s.layers layer).other).enabled = true <;>
          simp [xilinx_drm_dp_sub_layer_enable, blend_layer_enable_eq,
            xilinx_drm_dp_sub_av_buf_enable_vid, hen]
      · show (xilinx_drm_dp_sub_layer_disable s layer).aud = _
        by_cases hen : (s.layers (s.layers layer).other).enabled = true <;>
          simp [xilinx_drm_dp_sub_layer_disable, blend_layer_enable_eq, blend_layer_disable_eq,
            xilinx_drm_dp_sub_av_buf_disable_vid, hen]
    · rcases hs1 with rfl | rfl
      · rw [he]
        exact rmw_other_field r _ _ _ f7 f8
      · rw [hd]
        exact rmw_other_field r _ _ _ f7 f9
  · rw [he]
    exact rmw_own_field r _ _ _ f4 f5
  · rw [hd]
    exact rmw_own_field r _ _ _ f4 f6

/-- The theorem of C28 on the subsystem with graphics enabled: enabling the video
layer puts 1 in bits 0-1, disabling the graphics layer puts 0 in bits 2-3. -/
theorem layer_enable_disable_frame_witness :
    (xilinx_drm_dp_sub_layer_enable dp_sub_gfx_on 0).av_buf 0x70 &&& 0x3 = 1 ∧
    (xilinx_drm_dp_sub_layer_disable dp_sub_gfx_on 1).av_buf 0x70 &&& 0xc = 0 :=
  ⟨(layer_enable_disable_frame dp_sub_gfx_on 0).2.2.2.1,
   (layer_enable_disable_frame dp_sub_gfx_on 1).2.2.2.2.1⟩

/-! ## Channel buffers and clock source under subsystem enable -/

/-- The writes of the buffer-enable step: the six channel-buffer registers, in order. -/
theorem av_buf_enable_buf_io_log (s : xilinx_drm_dp_sub) :
    (xilinx_drm_dp_sub_av_buf_enable_buf s).io_log = s.io_log ++
      [⟨.av_buf, 0x10, 0x3d⟩, ⟨.av_buf, 0x14, 0x3d⟩, ⟨.av_buf, 0x18, 0x3d⟩,
       ⟨.av_buf, 0x1c, 0x3d⟩, ⟨.av_buf, 0x20, 0xd⟩, ⟨.av_buf, 0x24, 0xd⟩] := by
  simp only [xilinx_drm_dp_sub_av_buf_enable_buf, for_loop,
    XILINX_DP_SUB_AV_BUF_NUM_BUFFERS, XILINX_DP_SUB_AV_BUF_NUM_VID_GFX_BUFFERS,
    XILINX_DP_SUB_AV_BUF_CHBUF,
    XILINX_DP_SUB_AV_BUF_CHBUF_EN, XILINX_DP_SUB_AV_BUF_CHBUF_BURST_LEN_MAX,
    XILINX_DP_SUB_AV_BUF_CHBUF_BURST_LEN_AUD_MAX, XILINX_DP_SUB_AV_BUF_CHBUF_BURST_LEN_SHIFT]
  simp [List.range', BIT]

/-- The AV-buffer window after the buffer-enable step. -/
theorem av_buf_enable_buf_av_buf (s : xilinx_drm_dp_sub) (p : Nat) :
    (xilinx_drm_dp_sub_av_buf_enable_buf s).av_buf p =
      if p ∈ [0x10, 0x14, 0x18, 0x1c] then 0x3d
      else if p ∈ [0x20, 0x24] then 0xd
      else s.av_buf p := by
  simp only [xilinx_drm_dp_sub_av_buf_enable_buf, for_loop,
    XILINX_DP_SUB_AV_BUF_NUM_BUFFERS, XILINX_DP_SUB_AV_BUF_NUM_VID_GFX_BUFFERS,
    XILINX_DP_SUB_AV_BUF_CHBUF,
    XILINX_DP_SUB_AV_BUF_CHBUF_EN, XILINX_DP_SUB_AV_BUF_CHBUF_BURST_LEN_MAX,
    XILINX_DP_SUB_AV_BUF_CHBUF_BURST_LEN_AUD_MAX, XILINX_DP_SUB_AV_BUF_CHBUF_BURST_LEN_SHIFT]
  simp [List.range', writel_apply, BIT]
  split_ifs <;> simp_all

/-- The AV-buffer registers 0x10 to 0x6f after subsystem enable are as the buffer-enable
step leaves them. -/
theorem dp_sub_enable_av_buf_chbuf (s : xilinx_drm_dp_sub) (p : Nat) (hp : 0x10 ≤ p)
    (hp2 : p < 0x70) :
    (xilinx_drm_dp_sub_enable s).av_buf p =
      if p ∈ [0x10, 0x14, 0x18, 0x1c] then 0x3d
      else if p ∈ [0x20, 0x24] then 0xd
      else s.av_buf p := by
  simp only [xilinx_drm_dp_sub_enable, xilinx_drm_dp_sub_aud_init, xilinx_drm_dp_sub.set_bits,
    xilinx_drm_dp_sub_av_buf_enable_aud, xilinx_drm_dp_sub_av_buf_enable_buf, for_loop,
    xilinx_drm_dp_sub_av_buf_set_aud_clock_src,
    xilinx_drm_dp_sub_av_buf_set_vid_timing_src, xilinx_drm_dp_sub_av_buf_set_vid_clock_src,
    xilinx_drm_dp_sub_av_buf_init_sf, xilinx_drm_dp_sub_av_buf_init_fmts,
    XILINX_DP_SUB_AV_BUF_NUM_BUFFERS, XILINX_DP_SUB_AV_BUF_NUM_VID_GFX_BUFFERS,
    XILINX_DP_SUB_AV_BUF_NUM_SF, XILINX_DP_SUB_AV_BUF_CHBUF, XILINX_DP_SUB_AV_BUF_OUTPUT,
    XILINX_DP_SUB_AV_BUF_CLK_SRC, XILINX_DP_SUB_AV_BUF_GFX_COMP0_SF,
    XILINX_DP_SUB_AV_BUF_VID_COMP0_SF, XILINX_DP_SUB_AV_BUF_FORMAT,
    XILINX_DP_SUB_AUD_MIXER_VOLUME, xilinx_drm_dp_sub_layer_type.idx,
    XILINX_DP_SUB_AV_BUF_CHBUF_EN, XILINX_DP_SUB_AV_BUF_CHBUF_BURST_LEN_MAX,
    XILINX_DP_SUB_AV_BUF_CHBUF_BURST_LEN_AUD_MAX, XILINX_DP_SUB_AV_BUF_CHBUF_BURST_LEN_SHIFT]
  have : p ≠ 112 ∧ p ≠ 288 ∧ p ≠ 524 ∧ p ≠ 512 ∧ p ≠ 0 := by omega
  simp [List.range', writel_apply, this, BIT]
  split_ifs <;> simp_all

/-- OR-ing a bit into a 32-bit word stays within 32 bits. -/
theorem or_bit_mod (x b : Nat) (hx : x < 2 ^ 32) (hb : b < 2 ^ 32) :
    (x ||| b) % 4294967296 = x ||| b :=
  Nat.mod_eq_of_lt (Nat.or_lt_two_pow hx hb)

/-- Three successive ORs of the bits 1, 4 and 2 into a 32-bit word, each truncated to 32
bits, amount to one OR of 7. -/
theorem or_bits_compose (x : Nat) :
    (x % 4294967296 ||| 1) % 4294967296 = x % 4294967296 ||| 1 ∧
    ((x % 4294967296 ||| 1) % 4294967296 ||| 4) % 4294967296 = x % 4294967296 ||| 5 ∧
    (((x % 4294967296 ||| 1) % 4294967296 ||| 4) % 4294967296 ||| 2) % 4294967296 =
      x % 4294967296 ||| 7 := by
  have hx : x % 4294967296 < 2 ^ 32 := Nat.mod_lt _ (by norm_num)
  have h1 := or_bit_mod _ 1 hx (by norm_num)
  have h2 := or_bit_mod _ 4 (Nat.or_lt_two_pow hx (show 1 < 2 ^ 32 by norm_num)) (by norm_num)
  have h3 := or_bit_mod _ 2 (Nat.or_lt_two_pow (Nat.or_lt_two_pow hx
    (show 1 < 2 ^ 32 by norm_num)) (show 4 < 2 ^ 32 by norm_num)) (by norm_num)
  refine ⟨h1, ?_, ?_⟩
  · rw [h1, h2, Nat.or_assoc]
    rfl
  · rw [h1, h2, h3, Nat.or_assoc, Nat.or_assoc]
    rfl

/-- The clock-source register after subsystem enable. -/
theorem dp_sub_enable_av_buf_clk_src (s : xilinx_drm_dp_sub) :
    (xilinx_drm_dp_sub_enable s).av_buf 0x120 = xilinx_drm_readl s.av_buf 0x120 ||| 0x7 := by
  simp only [xilinx_drm_dp_sub_enable, xilinx_drm_dp_sub_aud_init, xilinx_drm_dp_sub.set_bits,
    xilinx_drm_dp_sub_av_buf_enable_aud, xilinx_drm_dp_sub_av_buf_enable_buf, for_loop,
    xilinx_drm_dp_sub_av_buf_set_aud_clock_src,
    xilinx_drm_dp_sub_av_buf_set_vid_timing_src, xilinx_drm_dp_sub_av_buf_set_vid_clock_src,
    xilinx_drm_dp_sub_av_buf_init_sf, xilinx_drm_dp_sub_av_buf_init_fmts,
    XILINX_DP_SUB_AV_BUF_NUM_BUFFERS, XILINX_DP_SUB_AV_BUF_NUM_VID_GFX_BUFFERS,
    XILINX_DP_SUB_AV_BUF_NUM_SF, XILINX_DP_SUB_AV_BUF_CHBUF, XILINX_DP_SUB_AV_BUF_OUTPUT,
    XILINX_DP_SUB_AV_BUF_CLK_SRC, XILINX_DP_SUB_AV_BUF_GFX_COMP0_SF,
    XILINX_DP_SUB_AV_BUF_VID_COMP0_SF, XILINX_DP_SUB_AV_BUF_FORMAT,
    XILINX_DP_SUB_AUD_MIXER_VOLUME, xilinx_drm_dp_sub_layer_type.idx,
    XILINX_DP_SUB_AV_BUF_CLK_SRC_VID_FROM_PS, XILINX_DP_SUB_AV_BUF_CLK_SRC_AUD_FROM_PS,
    XILINX_DP_SUB_AV_BUF_CLK_SRC_VID_INTERNAL_TIMING]
  simp [List.range', writel_apply, BIT, xilinx_drm_readl]
  exact (or_bits_compose (s.av_buf 288)).2.2

/-- The clock-source register after each of the three clock-source steps. -/
theorem clk_src_steps (s : xilinx_drm_dp_sub) :
    (xilinx_drm_dp_sub_av_buf_set_vid_clock_src s true).av_buf 0x120 =
      xilinx_drm_readl s.av_buf 0x120 ||| 0x1 ∧
    (xilinx_drm_dp_sub_av_buf_set_vid_timing_src
      (xilinx_drm_dp_sub_av_buf_set_vid_clock_src s true) true).av_buf 0x120 =
      xilinx_drm_readl s.av_buf 0x120 ||| 0x5 ∧
    (xilinx_drm_dp_sub_av_buf_set_aud_clock_src (xilinx_drm_dp_sub_av_buf_set_vid_timing_src
      (xilinx_drm_dp_sub_av_buf_set_vid_clock_src s true) true) true).av_buf 0x120 =
      xilinx_drm_readl s.av_buf 0x120 ||| 0x7 := by
  obtain ⟨h1, h2, h3⟩ := or_bits_compose (s.av_buf 288)
  simp only [xilinx_drm_dp_sub_av_buf_set_aud_clock_src,
    xilinx_drm_dp_sub_av_buf_set_vid_timing_src, xilinx_drm_dp_sub_av_buf_set_vid_clock_src,
    XILINX_DP_SUB_AV_BUF_CLK_SRC,
    XILINX_DP_SUB_AV_BUF_CLK_SRC_VID_FROM_PS, XILINX_DP_SUB_AV_BUF_CLK_SRC_AUD_FROM_PS,
    XILINX_DP_SUB_AV_BUF_CLK_SRC_VID_INTERNAL_TIMING]
  simp only [writel_apply, BIT, xilinx_drm_readl, if_true, writel_av_buf_av_buf, Nat.mod_mod]
  exact ⟨h1, h2, h3⟩

/-- C29: the word for a video or graphics channel buffer is enable | (0xf << 2) =
0x3d and the word for an audio channel buffer is enable | (0x3 << 2) = 0x0d, the burst
lengths being the maxima 0xf and 0x3 of the two channel classes. After subsystem enable, in
every state, the registers at AV-buffer offsets 0x10, 0x14, 0x18 and 0x1c hold 0x3d and those
at 0x20 and 0x24 hold 0x0d. The buffer-enable step issues exactly six writes, one to each of
these registers in this order, and leaves every other AV-buffer register and the blend and
audio windows alone; the AV-buffer registers from 0x28 up to the output-routing register are
as before subsystem enable. -/
theorem subsystem_enable_channel_buffers (s : xilinx_drm_dp_sub) :
    let s1 := xilinx_drm_dp_sub_enable s
    let vid_gfx := XILINX_DP_SUB_AV_BUF_CHBUF_EN |||
      (XILINX_DP_SUB_AV_BUF_CHBUF_BURST_LEN_MAX <<< XILINX_DP_SUB_AV_BUF_CHBUF_BURST_LEN_SHIFT)
    let aud := XILINX_DP_SUB_AV_BUF_CHBUF_EN |||
      (XILINX_DP_SUB_AV_BUF_CHBUF_BURST_LEN_AUD_MAX <<<
        XILINX_DP_SUB_AV_BUF_CHBUF_BURST_LEN_SHIFT)
    (vid_gfx = 0x3d ∧ aud = 0x0d ∧ XILINX_DP_SUB_AV_BUF_CHBUF_BURST_LEN_MAX = 0xf ∧
      XILINX_DP_SUB_AV_BUF_CHBUF_BURST_LEN_AUD_MAX = 0x3) ∧
    (s1.av_buf 0x10 = vid_gfx ∧ s1.av_buf 0x14 = vid_gfx ∧ s1.av_buf 0x18 = vid_gfx ∧
      s1.av_buf 0x1c = vid_gfx) ∧
    (s1.av_buf 0x20 = aud ∧ s1.av_buf 0x24 = aud) ∧
    (xilinx_drm_dp_sub_av_buf_enable_buf s).io_log = s.io_log ++
      [⟨.av_buf, 0x10, vid_gfx⟩, ⟨.av_buf, 0x14, vid_gfx⟩, ⟨.av_buf, 0x18, vid_gfx⟩,
       ⟨.av_buf, 0x1c, vid_gfx⟩, ⟨.av_buf, 0x20, aud⟩, ⟨.av_buf, 0x24, aud⟩] ∧
    (∀ p, p ∉ [0x10, 0x14, 0x18, 0x1c, 0x20, 0x24] →
      (xilinx_drm_dp_sub_av_buf_enable_buf s).av_buf p = s.av_buf p) ∧
    (xilinx_drm_dp_sub_av_buf_enable_buf s).blend = s.blend ∧
    (xilinx_drm_dp_sub_av_buf_enable_buf s).aud = s.aud ∧
    (∀ p, 0x28 ≤ p → p < 0x70 → s1.av_buf p = s.av_buf p) := by
  intro s1 vid_gfx aud
  have hv : vid_gfx = 0x3d := by decide
  have ha : aud = 0x0d := by decide
  have hc : ∀ p, 0x10 ≤ p → p < 0x70 → s1.av_buf p = _ := dp_sub_enable_av_buf_chbuf s
  refine ⟨⟨hv, ha, rfl, rfl⟩, ⟨?_, ?_, ?_, ?_⟩, ⟨?_, ?_⟩, ?_, ?_, ?_, ?_, ?_⟩
  · rw [hc 0x10 (by decide) (by decide), hv]; rfl
  · rw [hc 0x14 (by decide) (by decide), hv]; rfl
  · rw [hc 0x18 (by decide) (by decide), hv]; rfl
  · rw [hc 0x1c (by decide) (by decide), hv]; rfl
  · rw [hc 0x20 (by decide) (by decide), ha]; rfl
  · rw [hc 0x24 (by decide) (by decide), ha]; rfl
  · rw [av_buf_enable_buf_io_log, hv, ha]
  · intro p hp
    rw [av_buf_enable_buf_av_buf]
    simp only [List.mem_cons, List.mem_singleton, List.not_mem_nil, or_false, not_or] at hp
    simp [hp]
  · simp only [xilinx_drm_dp_sub_av_buf_enable_buf, for_loop,
      XILINX_DP_SUB_AV_BUF_NUM_BUFFERS, XILINX_DP_SUB_AV_BUF_NUM_VID_GFX_BUFFERS]
    simp [List.range']
  · simp only [xilinx_drm_dp_sub_av_buf_enable_buf, for_loop,
      XILINX_DP_SUB_AV_BUF_NUM_BUFFERS, XILINX_DP_SUB_AV_BUF_NUM_VID_GFX_BUFFERS]
    simp [List.range']
  · intro p hp hp2
    rw [hc p (by omega) hp2]
    have : p ≠ 16 ∧ p ≠ 20 ∧ p ≠ 24 ∧ p ≠ 28 ∧ p ≠ 32 ∧ p ≠ 36 := by omega
    simp [this]

/-- The theorem of C29 on the probed subsystem, at the first video or graphics
channel buffer and the last audio channel buffer. -/
theorem subsystem_enable_channel_buffers_witness :
    (xilinx_drm_dp_sub_enable dp_sub0).av_buf 0x10 = 0x3d ∧
    (xilinx_drm_dp_sub_enable dp_sub0).av_buf 0x24 = 0x0d :=
  have h := subsystem_enable_channel_buffers dp_sub0
  ⟨h.2.1.1, h.2.2.1.2⟩

/-- C30: in every state, with c the value read from the clock-source register
(AV-buffer offset 0x120) before, subsystem enable leaves that register equal to c OR 0x7:
bits 0 (video clock from PS), 1 (audio clock from PS) and 2 (internal video timing) are set
and every bit from 3 up is as in c. The three read-modify-writes in the order of the source
leave c OR 1, then c OR 5, then c OR 7. -/
theorem subsystem_enable_clock_source (s : xilinx_drm_dp_sub) :
    let c := xilinx_drm_readl s.av_buf XILINX_DP_SUB_AV_BUF_CLK_SRC
    let s1 := xilinx_drm_dp_sub_av_buf_set_vid_clock_src s true
    let s2 := xilinx_drm_dp_sub_av_buf_set_vid_timing_src s1 true
    let s3 := xilinx_drm_dp_sub_av_buf_set_aud_clock_src s2 true
    let v := (xilinx_drm_dp_sub_enable s).av_buf XILINX_DP_SUB_AV_BUF_CLK_SRC
    v = c ||| 0x7 ∧
    (v.testBit 0 = true ∧ v.testBit 1 = true ∧ v.testBit 2 = true) ∧
    (∀ i, 3 ≤ i → v.testBit i = c.testBit i) ∧
    v &&& not32 0x7 = c &&& not32 0x7 ∧
    (XILINX_DP_SUB_AV_BUF_CLK_SRC_VID_FROM_PS = 1 <<< 0 ∧
      XILINX_DP_SUB_AV_BUF_CLK_SRC_AUD_FROM_PS = 1 <<< 1 ∧
      XILINX_DP_SUB_AV_BUF_CLK_SRC_VID_INTERNAL_TIMING = 1 <<< 2) ∧
    (s1.av_buf XILINX_DP_SUB_AV_BUF_CLK_SRC = c ||| 0x1 ∧
      s2.av_buf XILINX_DP_SUB_AV_BUF_CLK_SRC = c ||| 0x5 ∧
      s3.av_buf XILINX_DP_SUB_AV_BUF_CLK_SRC = c ||| 0x7) := by
  intro c s1 s2 s3 v
  have hv : v = c ||| 0x7 := dp_sub_enable_av_buf_clk_src s
  have hbit : ∀ i, (7 : Nat).testBit i = decide (i < 3) := by
    intro i
    have : (7 : Nat) = 2 ^ 3 - 1 := by norm_num
    rw [this, Nat.testBit_two_pow_sub_one]
  obtain ⟨k1, k2, k3⟩ := clk_src_steps s
  refine ⟨hv, ⟨?_, ?_, ?_⟩, ?_, ?_, by decide, ?_, ?_, ?_⟩
  · rw [hv, Nat.testBit_or, hbit]; simp
  · rw [hv, Nat.testBit_or, hbit]; simp
  · rw [hv, Nat.testBit_or, hbit]; simp
  · intro i hi
    rw [hv, Nat.testBit_or, hbit]
    have : ¬ i < 3 := by omega
    simp [this]
  · rw [hv, Nat.and_distrib_right]
    have : (7 : Nat) &&& not32 7 = 0 := by decide
    rw [this, Nat.or_zero]
  · exact k1
  · exact k2
  · exact k3
/-- The theorem of C30 on the probed subsystem, whose clock-source register reads
0 before. -/
theorem subsystem_enable_clock_source_witness :
    (xilinx_drm_dp_sub_enable dp_sub0).av_buf 0x120 = 0 ||| 0x7 ∧
    ((xilinx_drm_dp_sub_enable dp_sub0).av_buf 0x120).testBit 1 = true :=
  have h := subsystem_enable_clock_source dp_sub0
  ⟨h.1, h.2.1.2.1⟩

/-! ## Consistency of the blend-control registers -/

/-- C31: from a state with the probed layout, both layers disabled and both
blend-control registers zero, after any sequence of layer operations (in particular any
sequence of enable and disable calls on either layer, repeated ones included), for each
layer: if it is disabled its blend-control register is 0; if it is enabled and its sibling
is disabled the register has the BYPASS bit (bit 8) set and the EN bit (bit 0) clear; if
both are enabled the register has the EN bit set and the BYPASS bit clear; and in no case
are EN and BYPASS set together. -/
theorem blend_state_machine_consistent (s0 : xilinx_drm_dp_sub) (ops : List layer_op)
    (hl : probed_layout s0)
    (hd : (s0.layers 0).enabled = false ∧ (s0.layers 1).enabled = false)
    (hz : s0.blend 0x18 = 0 ∧ s0.blend 0x1c = 0) :
    let s := run s0 ops
    (XILINX_DP_SUB_V_BLEND_LAYER_CONTROL_EN = 1 <<< 0 ∧
      XILINX_DP_SUB_V_BLEND_LAYER_CONTROL_BYPASS = 1 <<< 8) ∧
    ∀ i : Fin 2,
      let v := s.blend (XILINX_DP_SUB_V_BLEND_LAYER_CONTROL + (s.layers i).offset)
      let sib := s.layers (s.layers i).other
      ((s.layers i).enabled = false → v = 0) ∧
      ((s.layers i).enabled = true → sib.enabled = false →
        v.testBit 8 = true ∧ v.testBit 0 = false) ∧
      ((s.layers i).enabled = true → sib.enabled = true →
        v.testBit 0 = true ∧ v.testBit 8 = false) ∧
      ¬ (v.testBit 0 = true ∧ v.testBit 8 = true) := by
  intro s
  have h0 : blend_inv s0 := ⟨hl, by simp [ctl_ok, hd.1, hz.1], by simp [ctl_ok, hd.2, hz.2]⟩
  obtain ⟨⟨l0, l1, l2, l3, l4, l5⟩, c0, c1⟩ := blend_run_inv ops s0 h0
  refine ⟨⟨rfl, rfl⟩, ?_⟩
  intro i
  fin_cases i
  · show (_ ∧ _ ∧ _ ∧ _)
    simp only [Fin.zero_eta, XILINX_DP_SUB_V_BLEND_LAYER_CONTROL]
    rw [show (run s0 ops).layers 0 = s.layers 0 from rfl] at l1 l2
    rw [l1, l2]
    cases he : (s.layers 0).enabled <;> cases hs : (s.layers 1).enabled <;>
      simp_all [ctl_ok, s]
  · show (_ ∧ _ ∧ _ ∧ _)
    simp only [Fin.mk_one, XILINX_DP_SUB_V_BLEND_LAYER_CONTROL]
    rw [show (run s0 ops).layers 1 = s.layers 1 from rfl] at l4 l5
    rw [l4, l5]
    cases he : (s.layers 1).enabled <;> cases hs : (s.layers 0).enabled <;>
      simp_all [ctl_ok, s]

/-- The theorem of C31 on the probed subsystem after graphics is enabled twice,
video enabled, graphics disabled twice: the video register has BYPASS without EN, the
graphics register is 0. -/
theorem blend_state_machine_consistent_witness :
    probed_layout dp_sub0 ∧
    (let s := run dp_sub0 [.enable 1, .enable 1, .enable 0, .disable 1, .disable 1]
     let v := s.blend (XILINX_DP_SUB_V_BLEND_LAYER_CONTROL + (s.layers 0).offset)
     v.testBit 8 = true ∧ v.testBit 0 = false) ∧
    (let s := run dp_sub0 [.enable 1, .enable 1, .enable 0, .disable 1, .disable 1]
     s.blend (XILINX_DP_SUB_V_BLEND_LAYER_CONTROL + (s.layers 1).offset) = 0) :=
  have h := (blend_state_machine_consistent dp_sub0
    [.enable 1, .enable 1, .enable 0, .disable 1, .disable 1]
    (by decide) (by decide) (by decide)).2
  ⟨by decide, (h 0).2.1 (by decide) (by decide), (h 1).1 (by decide)⟩

/-! ## The equal-size property under the check-then-enable discipline -/

/-- After a `check_size` that returned 0, an `enable` of the same layer is sized. -/
theorem checked_layer_sized (s : xilinx_drm_dp_sub) (op : layer_op) (layer : Fin 2)
    (hl : probed_layout s) (h : checked_layer s op = some layer) :
    enable_sized (op.apply s) (.enable layer) = true := by
  obtain ⟨h0, h1, h2, h3, h4, h5⟩ := hl
  cases op with
  | check_size l w ht =>
    simp only [checked_layer] at h
    split_ifs at h with hz
    simp only [Option.some.injEq] at h
    subst h
    unfold xilinx_drm_dp_sub_layer_check_size at hz
    fin_cases l <;>
      simp_all [layer_op.apply, layer_check_size_layers, enable_sized, EINVAL]
    all_goals (split_ifs at hz <;> simp_all)
    · rename_i hh
      cases he : (s.layers 1).enabled
      · exact Or.inl rfl
      · exact Or.inr ⟨(hh he).1.symm, (hh he).2.symm⟩
    · rename_i hh
      cases he : (s.layers 0).enabled
      · exact Or.inl rfl
      · exact Or.inr ⟨(hh he).1.symm, (hh he).2.symm⟩
  | get p => simp [checked_layer] at h
  | put l => simp [checked_layer] at h
  | set_fmt l f => simp [checked_layer] at h
  | enable l => simp [checked_layer] at h
  | disable l => simp [checked_layer] at h

/-- A sequence that keeps the check-then-enable discipline has all its enables sized. -/
theorem checked_run_sized (ops : List layer_op) (s : xilinx_drm_dp_sub) (prev : Option (Fin 2))
    (hi : equal_size_inv s)
    (hprev : ∀ layer, prev = some layer → enable_sized s (.enable layer) = true)
    (hc : checked_run s prev ops = true) : sized_run s ops = true := by
  induction ops generalizing s prev with
  | nil => rfl
  | cons op ops ih =>
    simp only [checked_run, Bool.and_eq_true] at hc
    have hg : enable_sized s op = true := by
      cases op with
      | enable l => exact hprev l (by simpa using hc.1)
      | get p => rfl
      | put l => rfl
      | check_size l w ht => rfl
      | set_fmt l f => rfl
      | disable l => rfl
    simp only [sized_run, Bool.and_eq_true]
    refine ⟨hg, ih (op.apply s) (checked_layer s op) (step_inv s op hi hg) ?_ hc.2⟩
    intro layer hl
    exact checked_layer_sized s op layer hi.1 hl

/-- C32: in every state reached from a probed subsystem by a sequence of layer
operations (acquire, release, check_size, set_format, enable, disable) in which each
`enable(layer)` comes immediately after a `check_size` on the same layer that returned 0, if
both layers are enabled then their stored (width, height) pairs are equal. -/
theorem equal_size_when_enables_checked (kzalloc_ok : Bool) (blend av_buf aud : Except Int iomem)
    (node : device_node) (string0 : String) (s0 : xilinx_drm_dp_sub) (ops : List layer_op)
    (hp : xilinx_drm_dp_sub_probe kzalloc_ok blend av_buf aud node string0 = .ok s0)
    (hc : checked_run s0 none ops = true)
    (h0 : ((run s0 ops).layers 0).enabled = true)
    (h1 : ((run s0 ops).layers 1).enabled = true) :
    (((run s0 ops).layers 0).w, ((run s0 ops).layers 0).h) =
      (((run s0 ops).layers 1).w, ((run s0 ops).layers 1).h) := by
  have hi := probe_ok_inv kzalloc_ok blend av_buf aud node string0 s0 hp
  have hs := checked_run_sized ops s0 none hi (fun _ h => by cases h) hc
  obtain ⟨_, hsz⟩ := run_inv ops s0 hi hs
  obtain ⟨hw, hh⟩ := hsz h0 h1
  rw [hw, hh]

/-- The theorem of C32 on a sequence that keeps the discipline and ends with both
layers enabled at 1920 x 1080; the sequence that enables the graphics layer right after a
`check_size` on the video layer does not keep it. -/
theorem equal_size_when_enables_checked_witness :
    checked_run dp_sub0 none matched_sizes_ops = true ∧
    checked_run dp_sub0 none mismatched_sizes_ops = false ∧
    ((run dp_sub0 matched_sizes_ops).layers 0).enabled = true ∧
    ((run dp_sub0 matched_sizes_ops).layers 1).enabled = true ∧
    (((run dp_sub0 matched_sizes_ops).layers 0).w, ((run dp_sub0 matched_sizes_ops).layers 0).h) =
      (((run dp_sub0 matched_sizes_ops).layers 1).w,
        ((run dp_sub0 matched_sizes_ops).layers 1).h) :=
  ⟨by decide, by decide, by decide, by decide,
   equal_size_when_enables_checked true (.ok zero_window) (.ok zero_window) (.ok zero_window)
     node_gfx_primary "" dp_sub0 matched_sizes_ops probe_gfx_primary (by decide) (by decide)
     (by decide)⟩

/-! ## The RGB bit of the blend-control registers -/

/-- C33 (as stated, refuted): from the probed state, with both layers disabled,
`enable(video)` followed by `set_fmt(video, YUYV)`, which returns 0, ends with the video
layer enabled, its descriptor not RGB, and the RGB bit (bit 1) of its blend-control register
still set from the default RGB format: `set_fmt` does not rewrite the blend-control
register. -/
theorem rgb_bit_goes_stale :
    xilinx_drm_dp_sub_probe true (.ok zero_window) (.ok zero_window) (.ok zero_window)
      node_gfx_primary "" = .ok dp_sub0 ∧
    (dp_sub0.layers 0).enabled = false ∧ (dp_sub0.layers 1).enabled = false ∧
    (xilinx_drm_dp_sub_layer_set_fmt (run dp_sub0 [.enable 0]) 0 DRM_FORMAT_YUYV).1 = 0 ∧
    ((run dp_sub0 stale_rgb_ops).layers 0).enabled = true ∧
    ((run dp_sub0 stale_rgb_ops).layers 0).fmt.rgb = false ∧
    ((run dp_sub0 stale_rgb_ops).blend
      (XILINX_DP_SUB_V_BLEND_LAYER_CONTROL + ((run dp_sub0 stale_rgb_ops).layers 0).offset)).testBit 1
        = true ∧
    ((run dp_sub0 stale_rgb_ops).blend
      (XILINX_DP_SUB_V_BLEND_LAYER_CONTROL + ((run dp_sub0 stale_rgb_ops).layers 0).offset)).testBit 1
        ≠ ((run dp_sub0 stale_rgb_ops).layers 0).fmt.rgb :=
  ⟨probe_gfx_primary, by decide, by decide, by decide, by decide, by decide, by decide, by decide⟩

/-- One operation preserves the RGB-bit invariant when a `set_fmt` keeps the colour
model of an enabled layer. -/
theorem rgb_step_inv (s : xilinx_drm_dp_sub) (op : layer_op) (hi : rgb_inv s)
    (hg : rgb_kept s op = true) : rgb_inv (op.apply s) := by
  obtain ⟨hl, c0, c1⟩ := hi
  obtain ⟨h0, h1, h2, h3, h4, h5⟩ := hl
  cases op with
  | get p =>
    simp only [layer_op.apply, layer_get_state]
    exact ⟨⟨h0, h1, h2, h3, h4, h5⟩, c0, c1⟩
  | put layer =>
    fin_cases layer <;>
      simp_all [layer_op.apply, xilinx_drm_dp_sub_layer_put, rgb_inv, probed_layout]
  | check_size layer w h =>
    fin_cases layer <;>
      simp_all [layer_op.apply, layer_check_size_layers, layer_check_size_blend, rgb_inv,
        probed_layout]
    all_goals (split_ifs <;> simp_all)
  | set_fmt layer f =>
    obtain ⟨f0, hf0⟩ := layer_set_fmt_layers s layer 0 f
    obtain ⟨f1, hf1⟩ := layer_set_fmt_layers s layer 1 f
    fin_cases layer <;>
      simp_all [layer_op.apply, layer_set_fmt_blend, rgb_inv, probed_layout, rgb_kept]
    all_goals
      intro he
      rcases hg with h | h
      · rw [h] at he; cases he
      · exact h.symm
  | enable layer =>
    fin_cases layer
    · cases he : (s.layers 1).enabled <;>
        simp_all [layer_op.apply, layer_enable_layers, layer_enable_blend, rgb_inv,
          probed_layout, writel_apply, control_reg, (control_word_bits _ _).1]
    · cases he : (s.layers 0).enabled <;>
        simp_all [layer_op.apply, layer_enable_layers, layer_enable_blend, rgb_inv,
          probed_layout, writel_apply, control_reg, (control_word_bits _ _).1]
  | disable layer =>
    fin_cases layer
    · cases he : (s.layers 1).enabled <;>
        simp_all [layer_op.apply, layer_disable_layers, layer_disable_blend, rgb_inv,
          probed_layout, writel_apply, control_reg, (control_word_bits _ _).1]
    · cases he : (s.layers 0).enabled <;>
        simp_all [layer_op.apply, layer_disable_layers, layer_disable_blend, rgb_inv,
          probed_layout, writel_apply, control_reg, (control_word_bits _ _).1]

/-- A sequence of operations preserves the RGB-bit invariant when its `set_fmt` calls
keep the colour model of enabled layers. -/
theorem rgb_run_inv (ops : List layer_op) (s : xilinx_drm_dp_sub) (hi : rgb_inv s)
    (hg : rgb_kept_run s ops = true) : rgb_inv (run s ops) := by
  induction ops generalizing s with
  | nil => exact hi
  | cons op ops ih =>
    simp only [rgb_kept_run, Bool.and_eq_true] at hg
    exact ih (op.apply s) (rgb_step_inv s op hi hg.1) hg.2

/-- A `set_fmt` on a disabled layer satisfies the guard, whatever the format. -/
theorem rgb_kept_of_disabled (s : xilinx_drm_dp_sub) (layer : Fin 2) (drm_fmt : Nat)
    (h : (s.layers layer).enabled = false) : rgb_kept s (.set_fmt layer drm_fmt) = true := by
  simp [rgb_kept, h]

/-- C33 (amended): in every state reached from a probed subsystem by a sequence
of layer operations in which each `set_fmt` is issued on a disabled layer or leaves the
`rgb` flag of the layer's descriptor as it was, the RGB bit (bit 1) of the blend-control
register of each enabled layer equals the `rgb` flag of the descriptor the layer holds. -/
theorem rgb_bit_when_set_fmt_keeps_rgb (kzalloc_ok : Bool) (blend av_buf aud : Except Int iomem)
    (node : device_node) (string0 : String) (s0 : xilinx_drm_dp_sub) (ops : List layer_op)
    (hp : xilinx_drm_dp_sub_probe kzalloc_ok blend av_buf aud node string0 = .ok s0)
    (hg : rgb_kept_run s0 ops = true) (i : Fin 2)
    (he : ((run s0 ops).layers i).enabled = true) :
    ((run s0 ops).blend
      (XILINX_DP_SUB_V_BLEND_LAYER_CONTROL + ((run s0 ops).layers i).offset)).testBit 1 =
      ((run s0 ops).layers i).fmt.rgb := by
  have hi := probe_ok_inv kzalloc_ok blend av_buf aud node string0 s0 hp
  obtain ⟨b, a, d, _, _, _, _, hs⟩ := probe_ok_eq kzalloc_ok blend av_buf aud node string0 s0 hp
  have e0 : (s0.layers 0).enabled = false := by
    rw [hs, (parse_of_layers _ node string0 0).2.2.2.1]; rfl
  have e1 : (s0.layers 1).enabled = false := by
    rw [hs, (parse_of_layers _ node string0 1).2.2.2.1]; rfl
  have h0 : rgb_inv s0 := ⟨hi.1, by simp [e0], by simp [e1]⟩
  obtain ⟨⟨l0, l1, l2, l3, l4, l5⟩, c0, c1⟩ := rgb_run_inv ops s0 h0 hg
  fin_cases i
  · simp only [Fin.zero_eta] at he ⊢
    rw [l1]
    exact c0 he
  · simp only [Fin.mk_one] at he ⊢
    rw [l4]
    exact c1 he

/-- Instance of amended C33: the video layer takes YUYV before it is enabled and
the graphics layer changes between RGB formats while enabled; the guard holds, the video
layer ends enabled with a descriptor that is not RGB, and bit 1 of its register agrees. The
refuting sequence does not satisfy the guard. -/
theorem rgb_bit_when_set_fmt_keeps_rgb_witness :
    rgb_kept_run dp_sub0 fresh_rgb_ops = true ∧
    rgb_kept_run dp_sub0 stale_rgb_ops = false ∧
    ((run dp_sub0 fresh_rgb_ops).layers 0).enabled = true ∧
    ((run dp_sub0 fresh_rgb_ops).layers 0).fmt.rgb = false ∧
    ((run dp_sub0 fresh_rgb_ops).blend
      (XILINX_DP_SUB_V_BLEND_LAYER_CONTROL + ((run dp_sub0 fresh_rgb_ops).layers 0).offset)).testBit 1
        = ((run dp_sub0 fresh_rgb_ops).layers 0).fmt.rgb :=
  ⟨by decide, by decide, by decide, by decide,
   rgb_bit_when_set_fmt_keeps_rgb true (.ok zero_window) (.ok zero_window) (.ok zero_window)
     node_gfx_primary "" dp_sub0 fresh_rgb_ops probe_gfx_primary (by decide) 0 (by decide)⟩

/-! ## Well-formedness of the catalogs -/

/-- In a table without repeated ids, the scan for the id of an entry finds that entry. -/
theorem map_fmt_of_nodup (fmts : List xilinx_drm_dp_sub_fmt)
    (hn : (fmts.map fun e => e.drm_fmt).Nodup) (e : xilinx_drm_dp_sub_fmt) (he : e ∈ fmts) :
    xilinx_drm_dp_sub_map_fmt fmts fmts.length e.drm_fmt = some e := by
  induction fmts with
  | nil => cases he
  | cons g rest ih =>
    simp only [List.map_cons, List.nodup_cons, List.mem_map, not_exists, not_and] at hn
    rcases List.mem_cons.1 he with rfl | hr
    · simp [xilinx_drm_dp_sub_map_fmt]
    · have hg : g.drm_fmt ≠ e.drm_fmt := fun h => hn.1 e hr h.symm
      simp [xilinx_drm_dp_sub_map_fmt, hg, ih hn.2 hr]

/-- In a table without repeated codes, entries with the same code are the same entry. -/
theorem code_inj_of_nodup (fmts : List xilinx_drm_dp_sub_fmt)
    (hn : (fmts.map fun e => e.dp_sub_fmt).Nodup) (a b : xilinx_drm_dp_sub_fmt)
    (ha : a ∈ fmts) (hb : b ∈ fmts) (h : a.dp_sub_fmt = b.dp_sub_fmt) : a = b :=
  List.inj_on_of_nodup_map hn ha hb h

/-- C34: in each of the three tables (video input, graphics input, blended output)
no format id occurs twice and no device code occurs twice; so the scan for the id of an
entry finds that very entry, and two entries with the same device code have the same id.
Every device code of the video table lies inside the video bitfield mask 0x1f and every
device code of the graphics table lies inside the graphics bitfield mask 0xf00, with no bit
outside; the two masks have no bit in common. -/
theorem catalogs_well_formed :
    (∀ fmts ∈ [av_buf_vid_fmts, av_buf_gfx_fmts, blend_output_fmts],
      (fmts.map fun e => e.drm_fmt).Nodup ∧ (fmts.map fun e => e.dp_sub_fmt).Nodup ∧
      (∀ e ∈ fmts, xilinx_drm_dp_sub_map_fmt fmts fmts.length e.drm_fmt = some e) ∧
      (∀ a ∈ fmts, ∀ b ∈ fmts, a.dp_sub_fmt = b.dp_sub_fmt → a.drm_fmt = b.drm_fmt)) ∧
    (∀ e ∈ av_buf_vid_fmts,
      e.dp_sub_fmt &&& XILINX_DP_SUB_AV_BUF_FORMAT_NL_VID_MASK = e.dp_sub_fmt ∧
      e.dp_sub_fmt &&& not32 XILINX_DP_SUB_AV_BUF_FORMAT_NL_VID_MASK = 0) ∧
    (∀ e ∈ av_buf_gfx_fmts,
      e.dp_sub_fmt &&& XILINX_DP_SUB_AV_BUF_FORMAT_NL_GFX_MASK = e.dp_sub_fmt ∧
      e.dp_sub_fmt &&& not32 XILINX_DP_SUB_AV_BUF_FORMAT_NL_GFX_MASK = 0) ∧
    XILINX_DP_SUB_AV_BUF_FORMAT_NL_VID_MASK = 0x1f ∧
    XILINX_DP_SUB_AV_BUF_FORMAT_NL_GFX_MASK = 0xf00 ∧
    XILINX_DP_SUB_AV_BUF_FORMAT_NL_VID_MASK &&& XILINX_DP_SUB_AV_BUF_FORMAT_NL_GFX_MASK = 0 := by
  have hid : ∀ fmts ∈ [av_buf_vid_fmts, av_buf_gfx_fmts, blend_output_fmts],
      (fmts.map fun e => e.drm_fmt).Nodup ∧ (fmts.map fun e => e.dp_sub_fmt).Nodup := by
    decide
  refine ⟨?_, by decide, by decide, by decide, by decide, by decide⟩
  intro fmts hf
  obtain ⟨h1, h2⟩ := hid fmts hf
  refine ⟨h1, h2, fun e he => map_fmt_of_nodup fmts h1 e he, ?_⟩
  intro a ha b hb hab
  rw [code_inj_of_nodup fmts h2 a b ha hb hab]

/-- The theorem of C34 at the default entries: the scan of the graphics table for
the id of entry 6 finds entry 6, and the code of entry 5 of the video table lies inside the
video mask. -/
theorem catalogs_well_formed_witness :
    xilinx_drm_dp_sub_map_fmt av_buf_gfx_fmts av_buf_gfx_fmts.length
      (fmt_at av_buf_gfx_fmts 6).drm_fmt = some (fmt_at av_buf_gfx_fmts 6) ∧
    (fmt_at av_buf_vid_fmts 5).dp_sub_fmt &&& XILINX_DP_SUB_AV_BUF_FORMAT_NL_VID_MASK =
      (fmt_at av_buf_vid_fmts 5).dp_sub_fmt :=
  ⟨(catalogs_well_formed.1 av_buf_gfx_fmts (by decide)).2.2.1 (fmt_at av_buf_gfx_fmts 6)
      (by decide),
   (catalogs_well_formed.2.1 (fmt_at av_buf_vid_fmts 5) (by decide)).1⟩

end XilinxDpSub
